import Mathlib

/-!
# RTCSession: the call-control state machine of JsSIP

A shallow embedding of `src/RTCSession.js` (with the parts of `RTCSession/MediaStream.js`,
`RTCSession/MediaStreamTrack.js` and `RTCSession/RTCMediaHandler.js` it relies on).

* A session is a record of the fields the JavaScript object carries.
* Everything the session does to its collaborators (transport, media engine, timers,
  dialogs, event listeners) is appended, in program order, to `Session.log`.
* Asynchronous callbacks are defunctionalised: the closure a method hands to a collaborator
  becomes a `Callback` value stored in `Session.pending`, and the body of the closure is the
  function that handles the corresponding event.
-/

namespace JsSIP

/-! ## Data model -/

/-- RTCSession states: the constant table `C` at the top of RTCSession.js. -/
inductive Status where
  | STATUS_NULL
  | STATUS_INVITE_SENT
  | STATUS_1XX_RECEIVED
  | STATUS_INVITE_RECEIVED
  | STATUS_WAITING_FOR_ANSWER
  | STATUS_WAITING_FOR_ACK
  | STATUS_CANCELED
  | STATUS_TERMINATED
  | STATUS_CONFIRMED
  deriving DecidableEq, Repr

/-- Numeric value of each state in the table `C`. -/
def Status.code : Status → Nat
  | .STATUS_NULL => 0
  | .STATUS_INVITE_SENT => 1
  | .STATUS_1XX_RECEIVED => 2
  | .STATUS_INVITE_RECEIVED => 3
  | .STATUS_WAITING_FOR_ANSWER => 4
  | .STATUS_WAITING_FOR_ACK => 5
  | .STATUS_CANCELED => 6
  | .STATUS_TERMINATED => 7
  | .STATUS_CONFIRMED => 8

/-- SIP methods the session distinguishes (`JsSIP.C.ACK`, ...). -/
inductive Method where
  | ACK
  | BYE
  | INVITE
  | CANCEL
  | INFO
  | other (name : String)
  deriving DecidableEq, Repr

/-- Originator strings handed to the event callbacks. -/
inductive Originator where
  | «local»
  | remote
  | system
  deriving DecidableEq, Repr

/-- Session direction, set by `newRTCSession`. -/
inductive Direction where
  | incoming
  | outgoing
  deriving DecidableEq, Repr

/-- The members of `JsSIP.C.causes` the session uses; `sipErrorCause c` stands for the
value of `JsSIP.Utils.sipErrorCause(c)`. -/
inductive Cause where
  | CANCELED
  | REJECTED
  | BYE
  | NO_ANSWER
  | NO_ACK
  | EXPIRES
  | WEBRTC_ERROR
  | USER_DENIED_MEDIA_ACCESS
  | CONNECTION_ERROR
  | REQUEST_TIMEOUT
  | DIALOG_ERROR
  | INTERNAL_ERROR
  | BAD_MEDIA_DESCRIPTION
  | INCOMPATIBLE_SDP
  | sipErrorCause (status_code : Nat)
  deriving DecidableEq, Repr

/-- Names of the events a session (or its user agent) emits. -/
inductive EventName where
  | progress
  | failed
  | started
  | ended
  | newDTMF
  | mediaStreamAdded
  | mediaStreamRemoved
  | muted
  | unmuted
  | newRTCSession
  deriving DecidableEq, Repr

/-- Exceptions thrown by the user API. -/
inductive Exn where
  | TypeError (what : String)
  | InvalidStateError (status : Status)
  | NotSupportedError (what : String)
  | WebRTCError (what : String)
  deriving DecidableEq, Repr

/-- Role argument of `createDialog`. -/
inductive DialogType where
  | UAS
  | UAC
  deriving DecidableEq, Repr

/-- The fields of a SIP message (request or response) that the session reads.
An absent tag is the empty string, an absent body or header is `none`. -/
structure Message where
  method : Method
  status_code : Nat
  call_id : String
  from_tag : String
  to_tag : String
  body : Option String
  contentType : Option String
  hasContact : Bool
  expires : Option Nat
  deriving DecidableEq, Repr

/-- JavaScript truthiness of a string-valued property: `undefined` and `''` are falsy. -/
def truthy : Option String → Bool
  | none => false
  | some str => str != ""

/-- JavaScript truthiness of a number-valued property: `undefined` and `0` are falsy. -/
def truthyNum : Option Nat → Bool
  | none => false
  | some n => n != 0

/-- JavaScript `a || b` on string-valued properties. -/
def jsOr (a b : Option String) : Option String :=
  if truthy a then a else b

/-- A dialog object. `serial` is the identity of the JavaScript object (the order in which
the objects were allocated by this session); `id` is call-id + local tag + remote tag. -/
structure Dialog where
  serial : Nat
  id : String
  early : Bool
  deriving DecidableEq, Repr

/-- Kind of a media track. -/
inductive TrackKind where
  | audio
  | video
  deriving DecidableEq, Repr

/-- A `JsSIP.MediaStreamTrack`: the wrapper forwards `kind`, `id` and `enabled` to the
native track. -/
structure Track where
  id : String
  kind : TrackKind
  enabled : Bool
  deriving DecidableEq, Repr

/-- A `JsSIP.MediaStream` with its `tracks` collection. -/
structure MediaStream where
  id : String
  tracks : List Track
  deriving DecidableEq, Repr

/-- The four slots of `this.timers`. -/
inductive TimerSlot where
  | ackTimer
  | expiresTimer
  | invite2xxTimer
  | userNoAnswerTimer
  deriving DecidableEq, Repr

/-- The closure handed to `window.setTimeout`, with the variables it captures. -/
inductive TimerAction where
  | userNoAnswer (request : Message)
  | expires (request : Message)
  | ack
  | invite2xx (request : Message) (body : String) (retransmissions : Option Nat)
  deriving DecidableEq, Repr

/-- A pending entry of the browser's timer table. -/
structure Timeout where
  handle : Nat
  action : TimerAction
  delay : Nat
  deriving DecidableEq, Repr

/-- The closures handed to asynchronous collaborators, with the variables they capture. -/
inductive Callback where
  | answerUserMedia (request : Message) (extraHeaders : List String)
  | answerCreateAnswer (request : Message) (extraHeaders : List String)
  | answerReply (request : Message) (body : String)
  | incomingOffer (request : Message) (expires : Option Nat)
  | connectUserMedia
  | inviteCreateOffer
  | reinviteCreateOffer (extraHeaders : List String)
  | inviteAnswer (response : Message)
  | reinviteAnswer (response : Message)
  | reinviteOffer (request : Message)
  | reinviteCreateAnswer (request : Message)
  | reinviteReply (request : Message) (body : String)
  deriving DecidableEq, Repr

/-- Which function `this.receiveResponse` currently points to. -/
inductive ResponseHandler where
  | unset
  | receiveInviteResponse
  | receiveReinviteResponse
  deriving DecidableEq, Repr

/-- Everything the session does to the outside, in program order. -/
inductive Effect where
  | sendRequest (method : Method) (extraHeaders : List String) (body : Option String)
  | dialogSendRequest (method : Method) (extraHeaders : List String) (body : Option String)
  | requestSenderSend (extraHeaders : List String) (body : Option String)
  | reply (request : Message) (status_code : Nat) (reason_phrase : Option String)
      (extraHeaders : List String) (body : Option String)
  | cancel (reason : Option String)
  | emit (name : EventName) (originator : Option Originator) (cause : Option Cause)
  | setTimeout (slot : TimerSlot) (handle : Nat) (delay : Nat)
  | clearTimeout (slot : TimerSlot) (handle : Option Nat)
  | mediaHandlerNew
  | mediaHandlerClose
  | streamStop (originator : Originator) (id : String)
  | getUserMedia
  | dtmfIncoming (request : Message)
  | createOffer
  | createAnswer
  | onMessage (type : String) (body : String)
  | addStream (id : String)
  | removeStream (id : String)
  | dialogCreated (serial : Nat) (early : Bool)
  | dialogUpdate (serial : Nat)
  | dialogTerminate (serial : Nat)
  | warn (what : String)
  | dtmfSend (tone : Option Char)
  | setInterval (handle : Nat) (delay : Int)
  | clearInterval (handle : Nat)
  deriving DecidableEq, Repr

/-- The slots of `this.timers`: `none` is the initial `null`, `some h` a handle returned by
`window.setTimeout`. -/
structure Timers where
  ackTimer : Option Nat
  expiresTimer : Option Nat
  invite2xxTimer : Option Nat
  userNoAnswerTimer : Option Nat
  deriving DecidableEq, Repr

/-- Constants and configuration the session reads from modules outside RTCSession.js
(`JsSIP.Timers`, `JsSIP.C.REASON_PHRASE`, `ua.configuration`, `ua.contact`, `DTMF.C`). -/
structure Env where
  T1 : Nat
  T2 : Nat
  TIMER_H : Nat
  no_answer_timeout : Nat
  REASON_PHRASE : Nat → Option String
  contact : String
  allowedMethods : String
  webrtcSupported : Bool
  uri : String
  DEFAULT_INTER_TONE_GAP : Int
  MIN_INTER_TONE_GAP : Int

/-- The variables captured by the closures of one `sendDTMF` call, with the handle of its
interval timer: the tone string, the position of the next tone and the `ready` flag. -/
structure ToneSequence where
  timer : Nat
  tones : String
  possition : Nat
  ready : Bool
  interToneGap : Int
  deriving DecidableEq, Repr

/-- The RTCSession object together with the parts of its surroundings that it mutates:
the `ua.sessions` registry (its keys), the browser timer table (timeouts and the intervals of
the tone sequences) and the outstanding asynchronous callbacks. -/
structure Session where
  status : Status
  dialog : Option Dialog
  earlyDialogs : List (String × Dialog)
  rtcMediaHandler : Bool
  localMediaStream : Option MediaStream
  localMediaStreams : List MediaStream
  remoteMediaStreams : List MediaStream
  timers : Timers
  direction : Option Direction
  muted : Bool
  isCanceled : Bool
  cancelReason : Option String
  received_100 : Bool
  reinvite2XXResponseReceived : Option Bool
  id : Option String
  from_tag : Option String
  to_tag : Option String
  request : Option Message
  requestHeaders : List String
  contact : Option String
  anonymous : Bool
  receiveResponse : ResponseHandler
  uaSessions : List String
  timeouts : List Timeout
  toneSequences : List ToneSequence
  pending : List Callback
  nextHandle : Nat
  nextDialog : Nat
  log : List Effect
  deriving DecidableEq, Repr

/-- The constructor `RTCSession = function(ua)`, for a user agent whose registry holds the
keys `registry`. -/
def Session.create (registry : List String) : Session where
  status := .STATUS_NULL
  dialog := none
  earlyDialogs := []
  rtcMediaHandler := false
  localMediaStream := none
  localMediaStreams := []
  remoteMediaStreams := []
  timers := ⟨none, none, none, none⟩
  direction := none
  muted := false
  isCanceled := false
  cancelReason := none
  received_100 := false
  reinvite2XXResponseReceived := none
  id := none
  from_tag := none
  to_tag := none
  request := none
  requestHeaders := []
  contact := none
  anonymous := false
  receiveResponse := .unset
  uaSessions := registry
  timeouts := []
  toneSequences := []
  pending := []
  nextHandle := 0
  nextDialog := 0
  log := []

/-! ## Collaborator primitives -/

/-- Append one effect to the log. -/
def Session.record (s : Session) (e : Effect) : Session :=
  { s with log := s.log ++ [e] }

/-- Append several effects to the log. -/
def Session.recordAll (s : Session) (es : List Effect) : Session :=
  { s with log := s.log ++ es }

/-- The call `this.emit(name, this, data)`; listeners are outside the session. -/
def Session.emit (s : Session) (name : EventName) (originator : Option Originator)
    (cause : Option Cause) : Session :=
  s.record (.emit name originator cause)

/-- Read a slot of `this.timers`. -/
def Timers.get (t : Timers) : TimerSlot → Option Nat
  | .ackTimer => t.ackTimer
  | .expiresTimer => t.expiresTimer
  | .invite2xxTimer => t.invite2xxTimer
  | .userNoAnswerTimer => t.userNoAnswerTimer

/-- Write a slot of `this.timers`. -/
def Timers.set (t : Timers) (slot : TimerSlot) (h : Option Nat) : Timers :=
  match slot with
  | .ackTimer => { t with ackTimer := h }
  | .expiresTimer => { t with expiresTimer := h }
  | .invite2xxTimer => { t with invite2xxTimer := h }
  | .userNoAnswerTimer => { t with userNoAnswerTimer := h }

/-- The statement `this.timers.slot = window.setTimeout(action, delay)`: a fresh handle is
allocated, the entry joins the timer table and the slot remembers the handle. -/
def Session.setTimeout (s : Session) (slot : TimerSlot) (action : TimerAction) (delay : Nat) :
    Session :=
  { s with
    timers := s.timers.set slot (some s.nextHandle)
    timeouts := s.timeouts ++ [⟨s.nextHandle, action, delay⟩]
    nextHandle := s.nextHandle + 1
    log := s.log ++ [.setTimeout slot s.nextHandle delay] }

/-- The call `window.clearTimeout(this.timers.slot)`: the entry with that handle, if any,
leaves the timer table; the slot itself keeps the stale handle. -/
def Session.clearTimeout (s : Session) (slot : TimerSlot) : Session :=
  { s with
    timeouts := s.timeouts.filter (fun t => some t.handle != s.timers.get slot)
    log := s.log ++ [.clearTimeout slot (s.timers.get slot)] }

/-- Modelled from the spec: `RTCSession/Request.js` is not among the sources. The spec's
Transport port is `send(request)`; `this.sendRequest(method, options)` therefore hands one
in-dialog request with the given method, extra headers and body to the transport. -/
def Session.sendRequest (s : Session) (method : Method) (extraHeaders : List String)
    (body : Option String) : Session :=
  s.record (.sendRequest method extraHeaders body)

/-- Modelled from the spec: `SIPMessage.js` is not among the sources. The spec's Transport
port is `reply(statusCode, reasonPhrase, extraHeaders, body)`; `request.reply(...)` hands one
response to the transport. -/
def Session.reply (s : Session) (request : Message) (status_code : Nat)
    (reason_phrase : Option String) (extraHeaders : List String) (body : Option String) :
    Session :=
  s.record (.reply request status_code reason_phrase extraHeaders body)

/-- Modelled from the spec: the OutgoingRequest class is not among the sources.
`this.request.cancel(reason)` asks the transport to send a CANCEL with that reason. -/
def Session.cancel (s : Session) (reason : Option String) : Session :=
  s.record (.cancel reason)

/-- Register an outstanding asynchronous callback. -/
def Session.await (s : Session) (cb : Callback) : Session :=
  { s with pending := s.pending ++ [cb] }

/-- Modelled from the spec: Dialog.js is not among the sources. "construct-from-message
derives identity from tags, fails if the peer's contact information required to route future
in-dialog requests is missing": the constructed object has an `id` exactly when the message
carries a Contact header. -/
def Dialog.construct (serial : Nat) (message : Message) (type : DialogType) (early : Bool) :
    Option Dialog :=
  if message.hasContact then
    some ⟨serial,
      match type with
      | .UAS => message.call_id ++ message.to_tag ++ message.from_tag
      | .UAC => message.call_id ++ message.from_tag ++ message.to_tag,
      early⟩
  else none

/-- Modelled from the spec: Dialog.js is not among the sources. "promote (early → confirmed,
recomputing nothing but the state flag and installing the final identity)". -/
def Dialog.update (d : Dialog) (message : Message) (type : DialogType) : Dialog :=
  { d with
    early := false
    id := match type with
      | .UAS => message.call_id ++ message.to_tag ++ message.from_tag
      | .UAC => message.call_id ++ message.from_tag ++ message.to_tag }

/-- The property read `this.earlyDialogs[id]`. -/
def lookupDialog (ds : List (String × Dialog)) (id : String) : Option Dialog :=
  (ds.find? (fun e => e.1 == id)).map Prod.snd

/-- The statement `delete this.earlyDialogs[id]`. -/
def deleteDialog (ds : List (String × Dialog)) (id : String) : List (String × Dialog) :=
  ds.filter (fun e => e.1 != id)

/-- The statement `this.earlyDialogs[id] = d` (only executed when the key is absent). -/
def storeDialog (ds : List (String × Dialog)) (id : String) (d : Dialog) :
    List (String × Dialog) :=
  if (lookupDialog ds id).isSome then ds.map (fun e => if e.1 == id then (id, d) else e)
  else ds ++ [(id, d)]

/-- Key under which the session is registered in `ua.sessions`. -/
def Session.key (s : Session) : String :=
  s.id.getD "undefined"

/-! ## Session management -/

/-- `RTCSession.prototype.close`. -/
def close (s : Session) : Session :=
  if s.status = .STATUS_TERMINATED then s
  else
    -- 1st Step. Terminate media.
    let s := if s.rtcMediaHandler then s.record .mediaHandlerClose else s
    let s := match s.localMediaStream with
      | some m => s.record (.streamStop .local m.id)
      | none => s
    let s := s.recordAll (s.localMediaStreams.map (fun m => Effect.streamStop .local m.id))
    let s := s.recordAll (s.remoteMediaStreams.map (fun m => Effect.streamStop .remote m.id))
    -- 2nd Step. Terminate signaling: clear session timers
    let s := s.clearTimeout .ackTimer
    let s := s.clearTimeout .expiresTimer
    let s := s.clearTimeout .invite2xxTimer
    let s := s.clearTimeout .userNoAnswerTimer
    -- Terminate confirmed dialog
    let s := match s.dialog with
      | some d => { s.record (.dialogTerminate d.serial) with dialog := none }
      | none => s
    -- Terminate early dialogs
    let s := { s.recordAll (s.earlyDialogs.map (fun e => Effect.dialogTerminate e.2.serial)) with
      earlyDialogs := [] }
    { s with
      status := .STATUS_TERMINATED
      uaSessions := s.uaSessions.filter (fun k => k != s.key) }

/-- `RTCSession.prototype.failed`. -/
def failed (s : Session) (originator : Originator) (cause : Cause) : Session :=
  (close s).emit .failed (some originator) (some cause)

/-- `RTCSession.prototype.ended`. -/
def ended (s : Session) (originator : Originator) (cause : Cause) : Session :=
  (close s).emit .ended (some originator) (some cause)

/-- `RTCSession.prototype.createDialog`: returns the boolean result and the new state. -/
def createDialog (s : Session) (message : Message) (type : DialogType) (early : Bool) :
    Bool × Session :=
  let local_tag := match type with
    | .UAS => message.to_tag
    | .UAC => message.from_tag
  let remote_tag := match type with
    | .UAS => message.from_tag
    | .UAC => message.to_tag
  let id := message.call_id ++ local_tag ++ remote_tag
  let early_dialog := lookupDialog s.earlyDialogs id
  if early then
    match early_dialog with
    | some _ => (true, s)
    | none =>
      match Dialog.construct s.nextDialog message type true with
      | some d =>
        (true, { s with
          earlyDialogs := storeDialog s.earlyDialogs id d
          nextDialog := s.nextDialog + 1
          log := s.log ++ [.dialogCreated d.serial true] })
      | none =>
        (false, failed { s with nextDialog := s.nextDialog + 1 } .remote .INTERNAL_ERROR)
  else
    match early_dialog with
    | some d =>
      (true, { s with
        dialog := some (d.update message type)
        earlyDialogs := deleteDialog s.earlyDialogs id
        log := s.log ++ [.dialogUpdate d.serial] })
    | none =>
      match Dialog.construct s.nextDialog message type false with
      | some d =>
        (true, { s with
          to_tag := some message.to_tag
          dialog := some d
          nextDialog := s.nextDialog + 1
          log := s.log ++ [.dialogCreated d.serial false] })
      | none =>
        (false, failed { s with nextDialog := s.nextDialog + 1 } .remote .INTERNAL_ERROR)

/-- `RTCSession.prototype.newRTCSession`. -/
def newRTCSession (s : Session) (originator : Originator) : Session :=
  let s := match originator with
    | .remote => { s with direction := some .incoming }
    | .local => { s with direction := some .outgoing }
    | .system => s
  s.record (.emit .newRTCSession (some originator) none)

/-- `RTCSession.prototype.progress`. -/
def progress (s : Session) (originator : Originator) : Session :=
  s.emit .progress (some originator) none

/-- `RTCSession.prototype.started`. -/
def started (s : Session) (originator : Originator) : Session :=
  s.emit .started (some originator) none

/-- The string `reason_phrase || JsSIP.C.REASON_PHRASE[status_code] || ''`. -/
def reasonPhrase (env : Env) (status_code : Nat) (reason_phrase : Option String) : String :=
  (jsOr (jsOr reason_phrase (env.REASON_PHRASE status_code)) (some "")).getD ""

/-- The Reason header built by `acceptAndTerminate` and by `terminate` for a BYE. -/
def reasonHeader (env : Env) (status_code : Nat) (reason_phrase : Option String) : String :=
  "Reason: SIP ;cause=" ++ toString status_code ++ "; text=\"" ++
    reasonPhrase env status_code reason_phrase ++ "\""

/-- The reason string built by `terminate` for a CANCEL. -/
def cancelReasonText (env : Env) (status_code : Nat) (reason_phrase : Option String) : String :=
  "SIP ;cause=" ++ toString status_code ++ " ;text=\"" ++
    reasonPhrase env status_code reason_phrase ++ "\""

/-- `RTCSession.prototype.acceptAndTerminate`; `status_code = none` is the call without a
status code. -/
def acceptAndTerminate (env : Env) (s : Session) (response : Message) (status_code : Option Nat)
    (reason_phrase : Option String) : Session :=
  let extraHeaders :=
    if truthyNum status_code then [reasonHeader env (status_code.getD 0) reason_phrase] else []
  -- An error on dialog creation will fire 'failed' event
  if s.dialog.isSome then
    (s.sendRequest .ACK [] none).sendRequest .BYE extraHeaders none
  else
    match createDialog s response .UAC false with
    | (true, s) => (s.sendRequest .ACK [] none).sendRequest .BYE extraHeaders none
    | (false, s) => s

/-- The argument of `terminate`. -/
structure TerminateOptions where
  status_code : Option Nat
  reason_phrase : Option String
  extraHeaders : List String
  body : Option String
  deriving DecidableEq, Repr

/-- `RTCSession.prototype.terminate`: the state when the call returns or throws, and the
exception thrown, if any. -/
def terminate (env : Env) (s : Session) (options : TerminateOptions) : Session × Option Exn :=
  let status_code := options.status_code
  -- Check Session Status
  if s.status = .STATUS_TERMINATED then (s, some (.InvalidStateError s.status))
  else if s.status = .STATUS_NULL ∨ s.status = .STATUS_INVITE_SENT ∨
      s.status = .STATUS_1XX_RECEIVED then
    -- UAC
    if truthyNum status_code && (status_code.getD 0 < 200 || status_code.getD 0 ≥ 700) then
      (s, some (.TypeError ("Invalid status_code: " ++ toString (status_code.getD 0))))
    else
      let cancel_reason :=
        if truthyNum status_code then
          some (cancelReasonText env (status_code.getD 0) options.reason_phrase)
        else none
      let s :=
        if s.status = .STATUS_NULL then
          { s with isCanceled := true, cancelReason := cancel_reason }
        else if s.status = .STATUS_INVITE_SENT then
          if s.received_100 then s.cancel cancel_reason
          else { s with isCanceled := true, cancelReason := cancel_reason }
        else if s.status = .STATUS_1XX_RECEIVED then s.cancel cancel_reason
        else s
      (close (failed s .local .CANCELED), none)
  else if s.status = .STATUS_WAITING_FOR_ANSWER then
    -- UAS
    let status_code := if truthyNum status_code then status_code.getD 0 else 480
    if status_code < 300 || status_code ≥ 700 then
      (s, some (.TypeError ("Invalid status_code: " ++ toString status_code)))
    else
      match s.request with
      | none => (s, some (.TypeError "this.request is undefined"))
      | some request =>
        let s := s.reply request status_code options.reason_phrase options.extraHeaders
          options.body
        (close (failed s .local .REJECTED), none)
  else if s.status = .STATUS_WAITING_FOR_ACK ∨ s.status = .STATUS_CONFIRMED then
    if truthyNum status_code && (status_code.getD 0 < 200 || status_code.getD 0 ≥ 700) then
      (s, some (.TypeError ("Invalid status_code: " ++ toString (status_code.getD 0))))
    else
      let extraHeaders :=
        if truthyNum status_code then
          options.extraHeaders ++ [reasonHeader env (status_code.getD 0) options.reason_phrase]
        else options.extraHeaders
      let s := s.sendRequest .BYE extraHeaders options.body
      (close (ended s .local .BYE), none)
  else (close s, none)

/-- The inner loop of `toggleMute`: `enabled` is assigned on every track returned by
`getAudioTracks()`, that is on every track of kind audio. -/
def MediaStream.setAudioEnabled (enabled : Bool) (m : MediaStream) : MediaStream :=
  { m with tracks := m.tracks.map (fun (t : Track) =>
      if t.kind = TrackKind.audio then { t with enabled := enabled } else t) }

/-- `RTCSession.prototype.toggleMute`. -/
def toggleMute (s : Session) : Session :=
  let s := { s with muted := !s.muted }
  let s := { s with
    localMediaStreams := s.localMediaStreams.map (MediaStream.setAudioEnabled (!s.muted)) }
  if s.muted then s.emit .muted none none else s.emit .unmuted none none

/-- `RTCSession.prototype.setInvite2xxTimer`. -/
def setInvite2xxTimer (env : Env) (s : Session) (request : Message) (body : String) : Session :=
  s.setTimeout .invite2xxTimer (.invite2xx request body none) env.T1

/-- The closure `invite2xxRetransmission(retransmissions)` of `setInvite2xxTimer`. -/
def invite2xxRetransmission (env : Env) (s : Session) (request : Message) (body : String)
    (retransmissions : Option Nat) : Session :=
  let retransmissions := if truthyNum retransmissions then retransmissions.getD 0 else 1
  let timeout := env.T1 * 2 ^ retransmissions
  if retransmissions * env.T1 ≤ env.T2 then
    let retransmissions := retransmissions + 1
    let s := s.reply request 200 none ["Contact: " ++ s.contact.getD "undefined"] (some body)
    s.setTimeout .invite2xxTimer (.invite2xx request body (some retransmissions)) timeout
  else s.clearTimeout .invite2xxTimer

/-- `RTCSession.prototype.setACKTimer`. -/
def setACKTimer (env : Env) (s : Session) : Session :=
  s.setTimeout .ackTimer .ack env.TIMER_H

/-- The closure scheduled by `setACKTimer`. -/
def ackTimerFired (s : Session) : Session :=
  if s.status = .STATUS_WAITING_FOR_ACK then
    let s := s.clearTimeout .invite2xxTimer
    let s := s.sendRequest .BYE [] none
    ended s .remote .NO_ACK
  else s

/-- The closure scheduled as `userNoAnswerTimer` by `init_incoming`. -/
def userNoAnswerTimerFired (s : Session) (request : Message) : Session :=
  let s := s.reply request 408 none [] none
  failed s .local .NO_ANSWER

/-- The closure scheduled as `expiresTimer` by `init_incoming`. -/
def expiresTimerFired (s : Session) (request : Message) : Session :=
  if s.status = .STATUS_WAITING_FOR_ANSWER then
    let s := s.reply request 487 none [] none
    failed s .system .EXPIRES
  else s

/-! ## Media streams -/

/-- The value passed where a stream is expected: `undefined`, something that is not an
instance of the expected stream class, or a stream. -/
inductive StreamArg where
  | undefined
  | notAStream
  | stream (m : MediaStream)
  deriving DecidableEq, Repr

/-- `RTCSession.prototype.getStreamById`. -/
def getStreamById (s : Session) (id : String) : Option MediaStream :=
  s.localMediaStreams.find? (fun m => m.id == id)

/-- `RTCSession.prototype.mediaStreamAdded`. -/
def mediaStreamAdded (s : Session) (originator : Originator) (stream : MediaStream) : Session :=
  let s := match originator with
    | .local => { s with localMediaStreams := s.localMediaStreams ++ [stream] }
    | _ => { s with remoteMediaStreams := s.remoteMediaStreams ++ [stream] }
  s.emit .mediaStreamAdded (some originator) none

/-- `RTCSession.prototype.mediaStreamRemoved`. -/
def mediaStreamRemoved (s : Session) (originator : Originator) (stream : MediaStream) :
    Session :=
  match originator with
  | .local =>
    if stream ∈ s.localMediaStreams then
      let s := s.record (.streamStop .local stream.id)
      let s := { s with localMediaStreams := s.localMediaStreams.erase stream }
      s.emit .mediaStreamRemoved (some originator) none
    else s
  | _ =>
    if stream ∈ s.remoteMediaStreams then
      let s := { s with remoteMediaStreams := s.remoteMediaStreams.erase stream }
      s.emit .mediaStreamRemoved (some originator) none
    else s

/-- `RTCSession.prototype.sendReinvite`; the offer is delivered later to the callback
`reinviteCreateOffer`. -/
def sendReinvite (env : Env) (s : Session) (extraHeaders : List String) :
    Session × Option Exn :=
  -- Check RTCSession Status
  if s.status ≠ .STATUS_CONFIRMED then (s, some (.InvalidStateError s.status))
  else
    let extraHeaders := extraHeaders ++ ["Contact: " ++ s.contact.getD "undefined",
      "Allow: " ++ env.allowedMethods, "Content-Type: application/sdp"]
    let s := { s with receiveResponse := .receiveReinviteResponse }
    if s.rtcMediaHandler then
      ((s.record .createOffer).await (.reinviteCreateOffer extraHeaders), none)
    else (s, some (.TypeError "this.rtcMediaHandler is null"))

/-- Success closure of `createOffer` in `sendReinvite`. -/
def sendReinvite_onOffer (s : Session) (extraHeaders : List String) (body : String) : Session :=
  let s := { s with reinvite2XXResponseReceived := some false }
  match s.dialog with
  | some _ => s.record (.dialogSendRequest .INVITE extraHeaders (some body))
  | none => s

/-- Failure closure of `createOffer` in `sendReinvite`. -/
def sendReinvite_onOfferFailure (s : Session) : Session :=
  failed s .local .WEBRTC_ERROR

/-- `RTCSession.prototype.addMediaStream`; `addStreamOk` tells whether the peer connection
accepts the stream (otherwise `addStream` throws and the failure closure rethrows). -/
def addMediaStream (env : Env) (s : Session) (stream : StreamArg) (dontReinvite : Bool)
    (addStreamOk : Bool) : Session × Option Exn :=
  match stream with
  | .undefined => (s, some (.TypeError "Not enough arguments"))
  | .notAStream => (s, some (.TypeError "Invalid mediaStream"))
  | .stream m =>
    if (getStreamById s m.id).isSome then
      (s.record (.warn "the mediaStream to be added is already present in RTCSession"), none)
    else if s.rtcMediaHandler then
      let s := s.record (.addStream m.id)
      if addStreamOk then
        let s := mediaStreamAdded s .local m
        -- Re-Invite if proceeds
        if !dontReinvite && s.status = .STATUS_CONFIRMED then sendReinvite env s []
        else (s, none)
      else (s, some (.WebRTCError "Error adding stream"))
    else (s, some (.TypeError "this.rtcMediaHandler is null"))

/-- `RTCSession.prototype.removeMediaStream`; `removeStreamOk` tells whether the peer
connection accepts the removal. -/
def removeMediaStream (env : Env) (s : Session) (stream : StreamArg) (dontReinvite : Bool)
    (removeStreamOk : Bool) : Session × Option Exn :=
  match stream with
  | .undefined => (s, some (.TypeError "Not enough arguments"))
  | .notAStream => (s, some (.TypeError "Invalid mediaStream"))
  | .stream m =>
    if (getStreamById s m.id).isSome then
      if s.rtcMediaHandler then
        let s := s.record (.removeStream m.id)
        if removeStreamOk then
          let s := mediaStreamRemoved s .local m
          -- Re-Invite if proceeds
          if !dontReinvite && s.status = .STATUS_CONFIRMED then sendReinvite env s []
          else (s, none)
        else (s, some (.WebRTCError "Error removing stream"))
      else (s, some (.TypeError "this.rtcMediaHandler is null"))
    else
      (s.record (.warn "the mediaStream to be removed is not present in RTCSession"), none)

/-! ## Answering an incoming call -/

/-- `RTCSession.prototype.answer`, up to the call of `getUserMedia`. -/
def answer (s : Session) (extraHeaders : List String) : Session × Option Exn :=
  -- Check Session Direction and Status
  if s.direction ≠ some .incoming then
    (s, some (.NotSupportedError "\"answer\" not supported for outgoing RTCSession"))
  else if s.status ≠ .STATUS_WAITING_FOR_ANSWER then
    (s, some (.InvalidStateError s.status))
  else
    match s.request with
    | none => (s, some (.TypeError "this.request is undefined"))
    | some request =>
      -- An error on dialog creation will fire 'failed' event
      match createDialog s request .UAS false with
      | (false, s) => (s.reply request 500 (some "Missing Contact header field") [] none, none)
      | (true, s) =>
        let s := s.clearTimeout .userNoAnswerTimer
        ((s.record .getUserMedia).await (.answerUserMedia request extraHeaders), none)

/-- Success closure of `getUserMedia` in `answer`. -/
def answer_onUserMedia (env : Env) (s : Session) (request : Message)
    (extraHeaders : List String) (stream : MediaStream) (addStreamOk : Bool) : Session :=
  match addMediaStream env s (.stream stream) false addStreamOk with
  | (s, some _) => failed (s.reply request 500 none [] none) .local .WEBRTC_ERROR
  | (s, none) =>
    if s.rtcMediaHandler then
      (s.record .createAnswer).await (.answerCreateAnswer request extraHeaders)
    else s

/-- Failure closure of `getUserMedia` in `answer`. -/
def answer_onUserMediaFailure (s : Session) (request : Message) : Session :=
  failed (s.reply request 480 none [] none) .local .USER_DENIED_MEDIA_ACCESS

/-- Success closure of `createAnswer` in `answer`. -/
def answer_onAnswer (s : Session) (request : Message) (extraHeaders : List String)
    (body : String) : Session :=
  let extraHeaders := extraHeaders ++ ["Contact: " ++ s.contact.getD "undefined"]
  (s.reply request 200 none extraHeaders (some body)).await (.answerReply request body)

/-- Failure closure of `createAnswer` in `answer`. -/
def answer_onAnswerFailure (s : Session) (request : Message) : Session :=
  failed (s.reply request 500 none [] none) .local .WEBRTC_ERROR

/-- Success closure of the 200 reply in `answer`. -/
def answer_onReply (env : Env) (s : Session) (request : Message) (body : String) : Session :=
  let s := { s with status := .STATUS_WAITING_FOR_ACK }
  let s := setInvite2xxTimer env s request body
  let s := setACKTimer env s
  started s .local

/-- Failure closure of the 200 reply in `answer`. -/
def answer_onReplyFailure (s : Session) : Session :=
  failed s .system .CONNECTION_ERROR

/-! ## Tone signalling -/

/-- The `tones` argument of `sendDTMF`: `undefined`, a string, an integer-valued number, or a
value of another type, given by its string form (`null`, a boolean, an object). -/
inductive TonesArg where
  | undefined
  | string (text : String)
  | number (n : Int)
  | other (text : String)
  deriving DecidableEq, Repr

/-- The `interToneGap` option of `sendDTMF`. Modelled from the spec: `JsSIP.Utils.isDecimal`
is not among the sources; "if options.interToneGap is a decimal number g ... if it is absent (or
0) ... if it is present and not a decimal number": the option is absent (`undefined`), a
decimal number `g`, or a value that is present and not a decimal number, given by its
JavaScript truthiness and its string form (`''`, `false`, `null` and `NaN` are falsy; a
non-empty string that is no number, `true` and an object are truthy). -/
inductive GapArg where
  | undefined
  | decimal (g : Int)
  | other (truthy : Bool) (text : String)
  deriving DecidableEq, Repr

/-- The options of `sendDTMF` that the session itself reads. -/
structure DtmfOptions where
  interToneGap : GapArg
  deriving DecidableEq, Repr

/-- The method `Number.prototype.toString` on an integer-valued number. It is exact where a
Number holds every integer, that is for magnitudes below 2^53: the decimal digits. Above, a
Number is printed with at most 17 significant digits; of this the function keeps only that the
result consists of digits while the magnitude is below 10^21 and is in exponent notation from
there on (sign, leading digit, `e+`, exponent), which is what the tone check looks at. -/
def numberToString (n : Int) : String :=
  if n.natAbs < 10 ^ 21 then toString n
  else
    (if n < 0 then "-" else "") ++ (toString n.natAbs).take 1 ++ "e+" ++
      toString ((toString n.natAbs).length - 1)

/-- JavaScript truthiness of the `tones` argument (a value of another type never passes the
`typeof` test that follows, whatever its truthiness). -/
def TonesArg.truthy : TonesArg → Bool
  | .undefined => false
  | .string text => text != ""
  | .number n => n != 0
  | .other _ => true

/-- The test `typeof tones === 'string' || typeof tones === 'number'`. -/
def TonesArg.isStringOrNumber : TonesArg → Bool
  | .string _ => true
  | .number _ => true
  | _ => false

/-- The string `tones.toString()` (also used for the text of the error message). -/
def TonesArg.toString : TonesArg → String
  | .undefined => "undefined"
  | .string text => text
  | .number n => numberToString n
  | .other text => text

/-- The test `text.match(/^[0-9A-D#*]+$/i)`. -/
def validTones (text : String) : Bool :=
  text != "" && text.toList.all (fun c =>
    c.isDigit || ('A' ≤ c && c ≤ 'D') || ('a' ≤ c && c ≤ 'd') || c == '#' || c == '*')

/-- JavaScript truthiness of the `interToneGap` option. -/
def GapArg.truthy : GapArg → Bool
  | .undefined => false
  | .decimal g => g != 0
  | .other truthy _ => truthy

/-- The option has been given: it is not `undefined`. -/
def GapArg.present : GapArg → Bool
  | .undefined => false
  | _ => true

/-- Modelled from the spec: `JsSIP.Utils.isDecimal` is not among the sources. The option is
"a decimal number" or it is not. -/
def GapArg.isDecimal : GapArg → Bool
  | .decimal _ => true
  | _ => false

/-- Numeric value of the `interToneGap` option where it is a decimal number. -/
def GapArg.value : GapArg → Int
  | .decimal g => g
  | _ => 0

/-- The string form of the `interToneGap` option, for the text of the error message. -/
def GapArg.toString : GapArg → String
  | .undefined => "null"
  | .decimal g => numberToString g
  | .other _ text => text

/-- Modelled from the spec: `RTCSession/DTMF.js` is not among the sources. "Tone-signalling
encoding ... a simple per-tone request, not stateful" and "sends tones one at a time through
Transport": `new DTMF(self).send(tone, options)` hands one request for the tone to the
transport. -/
def Session.dtmfSend (s : Session) (tone : Option Char) : Session :=
  s.record (.dtmfSend tone)

/-- The statement `timer = window.setInterval(..., interToneGap)` of `sendDTMF`: a fresh
handle is allocated and the closure variables of this call are kept with it. -/
def Session.setInterval (s : Session) (tones : String) (possition : Nat) (interToneGap : Int) :
    Session :=
  { s with
    toneSequences := s.toneSequences ++ [⟨s.nextHandle, tones, possition, true, interToneGap⟩]
    nextHandle := s.nextHandle + 1
    log := s.log ++ [.setInterval s.nextHandle interToneGap] }

/-- The call `window.clearInterval(timer)`. -/
def Session.clearInterval (s : Session) (timer : Nat) : Session :=
  { s with
    toneSequences := s.toneSequences.filter (fun q => q.timer != timer)
    log := s.log ++ [.clearInterval timer] }

/-- The statement `possition += 1` in the closures of the call whose interval is `timer`. -/
def Session.advanceTone (s : Session) (timer : Nat) : Session :=
  { s with
    toneSequences := s.toneSequences.map (fun (q : ToneSequence) =>
      if q.timer == timer then { q with possition := q.possition + 1 } else q) }

/-- The listener `function(){ready = false;}` that `sendDTMF` puts on the `failed` event of
each tone, for the call whose interval is `timer`. -/
def sendDTMF_onFailed (s : Session) (timer : Nat) : Session :=
  { s with
    toneSequences := s.toneSequences.map (fun (q : ToneSequence) =>
      if q.timer == timer then { q with ready := false } else q) }

/-- `RTCSession.prototype.sendDTMF`, up to the return of the call: the first tone is sent and
the interval for the following tones is set. -/
def sendDTMF (env : Env) (s : Session) (tones : TonesArg) (options : DtmfOptions) :
    Session × Option Exn :=
  let gap := options.interToneGap
  if tones = .undefined then (s, some (.TypeError "Not enough arguments"))
  -- Check Session Status
  else if s.status ≠ .STATUS_CONFIRMED ∧ s.status ≠ .STATUS_WAITING_FOR_ACK then
    (s, some (.InvalidStateError s.status))
  -- Check tones
  else if !tones.truthy || !tones.isStringOrNumber || !validTones tones.toString then
    (s, some (.TypeError ("Invalid tones: " ++ tones.toString)))
  -- Check interToneGap
  else if gap.truthy && !gap.isDecimal then
    (s, some (.TypeError ("Invalid interToneGap: " ++ gap.toString)))
  else
    let s := if gap.truthy && gap.value < env.MIN_INTER_TONE_GAP then
        s.record (.warn "\"interToneGap\" value is lower than the minimum allowed")
      else s
    let interToneGap : Int :=
      if !gap.truthy then env.DEFAULT_INTER_TONE_GAP
      else if gap.value < env.MIN_INTER_TONE_GAP then env.MIN_INTER_TONE_GAP
      else gap.value.natAbs
    -- Send the first tone
    let s := s.dtmfSend (tones.toString.toList.get? 0)
    -- Send the following tones
    (s.setInterval tones.toString 1 interToneGap, none)

/-- The closure that `sendDTMF` hands to `window.setInterval`, for the call whose interval is
`timer`. -/
def sendDTMF_onInterval (s : Session) (timer : Nat) : Session :=
  match s.toneSequences.find? (fun q => q.timer == timer) with
  | none => s
  | some q =>
    if s.status ≠ .STATUS_TERMINATED ∧ q.ready = true ∧ q.tones.length > q.possition then
      (s.dtmfSend (q.tones.toList.get? q.possition)).advanceTone timer
    else s.clearInterval timer

/-! ## Incoming and outgoing INVITE -/

/-- The statement `this.ua.sessions[this.id] = this`. -/
def register (registry : List String) (key : String) : List String :=
  if key ∈ registry then registry else registry ++ [key]

/-- The block "Session parameter initialization" of `init_incoming`, with the registration
in `ua.sessions` that follows it. -/
def initIncomingParams (env : Env) (s : Session) (request : Message) : Session :=
  { s with
    status := .STATUS_INVITE_RECEIVED
    from_tag := some request.from_tag
    id := some (request.call_id ++ request.from_tag)
    request := some request
    contact := some env.contact
    uaSessions := register s.uaSessions (request.call_id ++ request.from_tag) }

/-- `RTCSession.prototype.init_incoming`; `newTag` is the value of `JsSIP.Utils.newTag()`. -/
def init_incoming (env : Env) (s : Session) (request : Message) (newTag : String) : Session :=
  let contentType := request.contentType
  -- Set the to_tag before replying a response code that will create a dialog.
  let request := { request with to_tag := newTag }
  -- Session parameter initialization
  let s := initIncomingParams env s request
  -- Get the Expires header value if exists
  let expires := request.expires.map (fun e => e * 1000)
  -- An error on dialog creation will fire 'failed' event
  match createDialog s request .UAS true with
  | (false, s) => s.reply request 500 (some "Missing Contact header field") [] none
  | (true, s) =>
    -- Check body and content type
    if truthy request.body then
      if contentType ≠ some "application/sdp" then s.reply request 415 none [] none
      else
        -- Initialize Media Session
        let s := { s with rtcMediaHandler := true }.record .mediaHandlerNew
        (s.record (.onMessage "offer" (request.body.getD ""))).await
          (.incomingOffer request expires)
    else s

/-- Success closure of `onMessage('offer', ...)` in `init_incoming`. -/
def init_incoming_onOffer (env : Env) (s : Session) (request : Message) (expires : Option Nat) :
    Session :=
  let s := s.reply request 180 none [] none
  let s := { s with status := .STATUS_WAITING_FOR_ANSWER }
  -- Set userNoAnswerTimer
  let s := s.setTimeout .userNoAnswerTimer (.userNoAnswer request) env.no_answer_timeout
  -- Set expiresTimer
  let s := if truthyNum expires then
      s.setTimeout .expiresTimer (.expires request) (expires.getD 0)
    else s
  newRTCSession s .remote

/-- Failure closure of `onMessage('offer', ...)` in `init_incoming`. -/
def init_incoming_onOfferFailure (s : Session) (request : Message) : Session :=
  s.reply request 488 none [] none

/-- `RTCSession.prototype.sendInvite`, up to the call of `createOffer`. -/
def sendInvite (s : Session) : Session :=
  let s := { s with receiveResponse := .receiveInviteResponse }
  if s.rtcMediaHandler then (s.record .createOffer).await .inviteCreateOffer else s

/-- Success closure of `createOffer` in `sendInvite`. -/
def sendInvite_onOffer (s : Session) (body : String) : Session :=
  let s := { s with
    request := s.request.map (fun (r : Message) => { r with body := some body })
    status := .STATUS_INVITE_SENT }
  s.record (.requestSenderSend s.requestHeaders (some body))

/-- Failure closure of `createOffer` in `sendInvite`. -/
def sendInvite_onOfferFailure (s : Session) : Session :=
  failed s .local .WEBRTC_ERROR

/-- The options of `connect` that the session uses. -/
structure ConnectOptions where
  extraHeaders : List String
  anonymous : Bool
  mediaStream : StreamArg
  deriving DecidableEq, Repr

/-- The block of `connect` from "Session parameter initialization" to the construction of
the outgoing INVITE: the media handler is created, the outgoing-session parameters are reset,
the session is registered in `ua.sessions` and the request is built. -/
def connectParams (env : Env) (s : Session) (options : ConnectOptions) (newTag callId : String)
    (extraHeaders : List String) : Session :=
  { s with
    rtcMediaHandler := true
    anonymous := options.anonymous
    isCanceled := false
    received_100 := false
    id := some (callId ++ newTag)
    contact := some env.contact
    uaSessions := register s.uaSessions (callId ++ newTag)
    request := some ⟨.INVITE, 0, callId, newTag, "", none, some "application/sdp", true, none⟩
    requestHeaders := extraHeaders
    log := s.log ++ [.mediaHandlerNew] }

/-- `RTCSession.prototype.connect`. `target = none` is `undefined`; `targetValid` is the
outcome of `ua.normalizeTarget`; `newTag` and `callId` are the fresh random values. -/
def connect (env : Env) (s : Session) (target : Option String) (targetValid : Bool)
    (options : ConnectOptions) (newTag callId : String) (addStreamOk : Bool) :
    Session × Option Exn :=
  if target.isNone then (s, some (.TypeError "Not enough arguments"))
  -- Check WebRTC support
  else if !env.webrtcSupported then (s, some (.NotSupportedError "WebRTC not supported"))
  -- Check target validity
  else if !targetValid then (s, some (.TypeError "Invalid target: false"))
  -- Check Session Status
  else if s.status ≠ .STATUS_NULL then (s, some (.InvalidStateError s.status))
  else
    let extraHeaders := options.extraHeaders ++
      (if options.anonymous then ["P-Preferred-Identity: " ++ env.uri, "Privacy: id"] else []) ++
      ["Contact: " ++ env.contact, "Allow: " ++ env.allowedMethods,
        "Content-Type: application/sdp"]
    -- Session parameter initialization
    let s := connectParams env s options newTag callId extraHeaders
    let s := newRTCSession s .local
    -- Add mediaStreams to the RTCSession
    match options.mediaStream with
    | .undefined => ((s.record .getUserMedia).await .connectUserMedia, none)
    | mediaStream =>
      match addMediaStream env s mediaStream false addStreamOk with
      | (s, some _) => (failed s .local .WEBRTC_ERROR, none)
      | (s, none) => (sendInvite s, none)

/-- Success closure of `getUserMedia` in `connect`. -/
def connect_onUserMedia (env : Env) (s : Session) (stream : MediaStream) (addStreamOk : Bool) :
    Session :=
  match addMediaStream env s (.stream stream) false addStreamOk with
  | (s, some _) => failed s .local .WEBRTC_ERROR
  | (s, none) => sendInvite s

/-- Failure closure of `getUserMedia` in `connect`. -/
def connect_onUserMediaFailure (s : Session) : Session :=
  failed s .local .USER_DENIED_MEDIA_ACCESS

/-- The tests `/^100$/`, `/^1[0-9]{2}$/` and `/^2[0-9]{2}$/` on a status code. -/
def is100 (c : Nat) : Bool := c == 100

/-- The test `/^1[0-9]{2}$/` on a status code. -/
def is1xx (c : Nat) : Bool := 100 ≤ c && c ≤ 199

/-- The test `/^2[0-9]{2}$/` on a status code. -/
def is2xx (c : Nat) : Bool := 200 ≤ c && c ≤ 299

/-- `RTCSession.prototype.receiveInviteResponse`. -/
def receiveInviteResponse (env : Env) (s : Session) (response : Message) : Session :=
  let contentType := response.contentType
  if s.status ≠ .STATUS_INVITE_SENT ∧ s.status ≠ .STATUS_1XX_RECEIVED then s
  -- Proceed to cancellation if the user requested.
  else if s.isCanceled then
    if response.status_code ≥ 100 && response.status_code < 200 then s.cancel s.cancelReason
    else if response.status_code ≥ 200 && response.status_code < 299 then
      acceptAndTerminate env s response none none
    else s
  else if is100 response.status_code then { s with received_100 := true }
  else if is1xx response.status_code then
    -- Do nothing with 1xx responses without To tag.
    if response.to_tag = "" then s.record (.warn "1xx response received without to tag")
    else
      -- Create Early Dialog if 1XX comes with contact
      let s := if response.hasContact then (createDialog s response .UAC true).2 else s
      let s := { s with status := .STATUS_1XX_RECEIVED }
      progress s .remote
  else if is2xx response.status_code then
    -- Do nothing if this.dialog is already confirmed
    if s.dialog.isSome then s
    else if !truthy response.body then
      let s := acceptAndTerminate env s response (some 400) (some "Missing session description")
      failed s .remote .BAD_MEDIA_DESCRIPTION
    else if contentType ≠ some "application/sdp" then
      let s := acceptAndTerminate env s response (some 415) none
      failed s .remote .INCOMPATIBLE_SDP
    else
      -- An error on dialog creation will fire 'failed' event
      match createDialog s response .UAC false with
      | (false, s) => s
      | (true, s) =>
        if s.rtcMediaHandler then
          (s.record (.onMessage "answer" (response.body.getD ""))).await (.inviteAnswer response)
        else s
  else failed s .remote (.sipErrorCause response.status_code)

/-- Success closure of `onMessage('answer', ...)` in `receiveInviteResponse`. -/
def receiveInviteResponse_onAnswer (s : Session) : Session :=
  let s := s.sendRequest .ACK [] none
  let s := { s with status := .STATUS_CONFIRMED }
  started s .remote

/-- Failure closure of `onMessage('answer', ...)` in `receiveInviteResponse`. -/
def receiveInviteResponse_onAnswerFailure (env : Env) (s : Session) (response : Message) :
    Session :=
  let s := acceptAndTerminate env s response (some 488) none
  failed s .remote .BAD_MEDIA_DESCRIPTION

/-- `RTCSession.prototype.receiveReinviteResponse`. -/
def receiveReinviteResponse (env : Env) (s : Session) (response : Message) : Session :=
  let contentType := response.contentType
  if s.status = .STATUS_TERMINATED then s
  else if is1xx response.status_code then s
  else if is2xx response.status_code then
    if !truthy response.body then
      acceptAndTerminate env s response (some 400) (some "Missing session description")
    else if contentType ≠ some "application/sdp" then
      acceptAndTerminate env s response (some 415) none
    -- Avoid setting the remote description more than once
    else if s.reinvite2XXResponseReceived = some true then s
    else
      let s := { s with reinvite2XXResponseReceived := some true }
      if s.rtcMediaHandler then
        (s.record (.onMessage "answer" (response.body.getD ""))).await
          (.reinviteAnswer response)
      else s
  else s

/-- Success closure of `onMessage('answer', ...)` in `receiveReinviteResponse`. -/
def receiveReinviteResponse_onAnswer (s : Session) : Session :=
  let s := s.sendRequest .ACK [] none
  { s with status := .STATUS_CONFIRMED }

/-- Failure closure of `onMessage('answer', ...)` in `receiveReinviteResponse`. -/
def receiveReinviteResponse_onAnswerFailure (env : Env) (s : Session) (response : Message) :
    Session :=
  acceptAndTerminate env s response (some 488) none

/-! ## In-dialog requests -/

/-- `RTCSession.prototype.receiveReinvite`, up to the call of `onMessage`. -/
def receiveReinvite (s : Session) (request : Message) : Session :=
  if truthy request.body then
    if request.contentType ≠ some "application/sdp" then
      (s.record (.warn "invalid Content-Type")).reply request 415 none [] none
    else if s.rtcMediaHandler then
      (s.record (.onMessage "offer" (request.body.getD ""))).await (.reinviteOffer request)
    else s
  else s

/-- Success closure of `onMessage('offer', ...)` in `receiveReinvite`. -/
def receiveReinvite_onOffer (s : Session) (request : Message) : Session :=
  if s.rtcMediaHandler then (s.record .createAnswer).await (.reinviteCreateAnswer request)
  else s

/-- Failure closure of `onMessage('offer', ...)` in `receiveReinvite`. -/
def receiveReinvite_onOfferFailure (s : Session) (request : Message) : Session :=
  s.reply request 488 none [] none

/-- Success closure of `createAnswer` in `receiveReinvite`. -/
def receiveReinvite_onAnswer (s : Session) (request : Message) (body : String) : Session :=
  (s.reply request 200 none ["Contact: " ++ s.contact.getD "undefined"] (some body)).await
    (.reinviteReply request body)

/-- Failure closure of `createAnswer` in `receiveReinvite`. -/
def receiveReinvite_onAnswerFailure (s : Session) (request : Message) : Session :=
  s.reply request 500 none [] none

/-- Success closure of the 200 reply in `receiveReinvite`. -/
def receiveReinvite_onReply (env : Env) (s : Session) (request : Message) (body : String) :
    Session :=
  let s := { s with status := .STATUS_WAITING_FOR_ACK }
  let s := setInvite2xxTimer env s request body
  setACKTimer env s

/-- `RTCSession.prototype.receiveRequest`. -/
def receiveRequest (s : Session) (request : Message) : Session :=
  match request.method with
  | .CANCEL =>
    if s.status = .STATUS_WAITING_FOR_ANSWER then
      let s := { s with status := .STATUS_CANCELED }
      match s.request with
      | some invite => failed (s.reply invite 487 none [] none) .remote .CANCELED
      | none => s
    else s
  | .ACK =>
    if s.status = .STATUS_WAITING_FOR_ACK then
      let s := s.clearTimeout .ackTimer
      let s := s.clearTimeout .invite2xxTimer
      { s with status := .STATUS_CONFIRMED }
    else s
  | .BYE =>
    if s.status = .STATUS_CONFIRMED then
      ended (s.reply request 200 none [] none) .remote .BYE
    else s
  | .INVITE =>
    if s.status = .STATUS_CONFIRMED then receiveReinvite s request else s
  | .INFO =>
    if s.status = .STATUS_CONFIRMED ∨ s.status = .STATUS_WAITING_FOR_ACK then
      match request.contentType with
      | some contentType =>
        if contentType.toLower.startsWith "application/dtmf-relay" then
          s.record (.dtmfIncoming request)
        else s
      | none => s
    else s
  | .other _ => s

/-! ## Session callbacks -/

/-- `RTCSession.prototype.onTransportError`. -/
def onTransportError (s : Session) : Session :=
  if s.status ≠ .STATUS_TERMINATED then
    if s.status = .STATUS_CONFIRMED then ended s .system .CONNECTION_ERROR
    else failed s .system .CONNECTION_ERROR
  else s

/-- `RTCSession.prototype.onRequestTimeout`. -/
def onRequestTimeout (s : Session) : Session :=
  if s.status ≠ .STATUS_TERMINATED then
    if s.status = .STATUS_CONFIRMED then ended s .system .REQUEST_TIMEOUT
    else failed s .system .REQUEST_TIMEOUT
  else s

/-- `RTCSession.prototype.onDialogError`. -/
def onDialogError (s : Session) : Session :=
  if s.status ≠ .STATUS_TERMINATED then
    if s.status = .STATUS_CONFIRMED then ended s .remote .DIALOG_ERROR
    else failed s .remote .DIALOG_ERROR
  else s

/-! ## The media handler -/

/-- State of ICE gathering when `setLocalDescription` looks at `iceGatheringState`: complete,
not complete but completing later, or never completing. -/
inductive IceGathering where
  | complete
  | completesLater
  | neverCompletes
  deriving DecidableEq, Repr

/-- What the browser's peer connection does during one `createOffer` or `createAnswer` of the
media handler: whether it creates the session description, whether it accepts it as local
description, how ICE gathering goes, and the SDP of `localDescription` when it is read. -/
structure PeerConnection where
  created : Bool
  setLocalOk : Bool
  ice : IceGathering
  localSdp : String
  deriving DecidableEq, Repr

/-- The callbacks of its caller that a method of the media handler invokes. -/
inductive HandlerCall where
  | onSuccess (sdp : String)
  | onFailure
  deriving DecidableEq, Repr

/-- `RTCMediaHandler.prototype.setLocalDescription`: the callbacks invoked, those of the
synchronous part first (`onSuccess` at once when ICE gathering is already complete), then the
failure callback of the peer connection, then `onIceCompleted`. -/
def RTCMediaHandler.setLocalDescription (pc : PeerConnection) : List HandlerCall :=
  (if pc.ice = .complete then [.onSuccess pc.localSdp] else []) ++
  (if pc.setLocalOk then [] else [.onFailure]) ++
  (if pc.ice = .completesLater then [.onSuccess pc.localSdp] else [])

/-- `RTCMediaHandler.prototype.createOffer`: the callbacks invoked. The failure callback that
it hands to the peer connection only writes to the console. -/
def RTCMediaHandler.createOffer (pc : PeerConnection) : List HandlerCall :=
  if pc.created then RTCMediaHandler.setLocalDescription pc else []

/-- `RTCMediaHandler.prototype.createAnswer`: the callbacks invoked. The failure callback
that it hands to the peer connection writes to the console and calls `onFailure`. -/
def RTCMediaHandler.createAnswer (pc : PeerConnection) : List HandlerCall :=
  if pc.created then RTCMediaHandler.setLocalDescription pc else [.onFailure]

/-! ## The session as an event-driven machine -/

/-- What an asynchronous collaborator hands back: plain success, an SDP body, a local
media stream (with the later verdict of the peer connection on `addStream`), or failure. -/
inductive CallbackResult where
  | success
  | body (sdp : String)
  | stream (m : MediaStream) (addStreamOk : Bool)
  | failure
  deriving DecidableEq, Repr

/-- Run the closure `cb` with the result `r`. A result of the wrong shape for the closure
does nothing. -/
def runCallback (env : Env) (s : Session) : Callback → CallbackResult → Session
  | .answerUserMedia request extraHeaders, .stream m ok =>
    answer_onUserMedia env s request extraHeaders m ok
  | .answerUserMedia request _, .failure => answer_onUserMediaFailure s request
  | .answerCreateAnswer request extraHeaders, .body sdp =>
    answer_onAnswer s request extraHeaders sdp
  | .answerCreateAnswer request _, .failure => answer_onAnswerFailure s request
  | .answerReply request body, .success => answer_onReply env s request body
  | .answerReply _ _, .failure => answer_onReplyFailure s
  | .incomingOffer request expires, .success => init_incoming_onOffer env s request expires
  | .incomingOffer request _, .failure => init_incoming_onOfferFailure s request
  | .connectUserMedia, .stream m ok => connect_onUserMedia env s m ok
  | .connectUserMedia, .failure => connect_onUserMediaFailure s
  | .inviteCreateOffer, .body sdp => sendInvite_onOffer s sdp
  | .inviteCreateOffer, .failure => sendInvite_onOfferFailure s
  | .reinviteCreateOffer extraHeaders, .body sdp => sendReinvite_onOffer s extraHeaders sdp
  | .reinviteCreateOffer _, .failure => sendReinvite_onOfferFailure s
  | .inviteAnswer _, .success => receiveInviteResponse_onAnswer s
  | .inviteAnswer response, .failure => receiveInviteResponse_onAnswerFailure env s response
  | .reinviteAnswer _, .success => receiveReinviteResponse_onAnswer s
  | .reinviteAnswer response, .failure => receiveReinviteResponse_onAnswerFailure env s response
  | .reinviteOffer request, .success => receiveReinvite_onOffer s request
  | .reinviteOffer request, .failure => receiveReinvite_onOfferFailure s request
  | .reinviteCreateAnswer request, .body sdp => receiveReinvite_onAnswer s request sdp
  | .reinviteCreateAnswer request, .failure => receiveReinvite_onAnswerFailure s request
  | .reinviteReply request body, .success => receiveReinvite_onReply env s request body
  | _, _ => s

/-- Run the closure of a timer. -/
def runTimer (env : Env) (s : Session) : TimerAction → Session
  | .userNoAnswer request => userNoAnswerTimerFired s request
  | .expires request => expiresTimerFired s request
  | .ack => ackTimerFired s
  | .invite2xx request body retransmissions =>
    invite2xxRetransmission env s request body retransmissions

/-- The outstanding callback `cb` is being called: it is no longer outstanding. -/
def Session.resolve (s : Session) (cb : Callback) : Session :=
  { s with pending := s.pending.erase cb }

/-- The timer with this handle is firing: it leaves the timer table. -/
def Session.expire (s : Session) (handle : Nat) : Session :=
  { s with timeouts := s.timeouts.filter (fun u => u.handle != handle) }

/-- Everything that can happen to a session: calls of the user API, deliveries from the
transport, callbacks of the media engine and of the transport, and timer firings. -/
inductive Event where
  | terminate (options : TerminateOptions)
  | answer (extraHeaders : List String)
  | connect (target : Option String) (targetValid : Bool) (options : ConnectOptions)
      (newTag callId : String) (addStreamOk : Bool)
  | toggleMute
  | sendReinvite (extraHeaders : List String)
  | addMediaStream (stream : StreamArg) (dontReinvite : Bool) (addStreamOk : Bool)
  | removeMediaStream (stream : StreamArg) (dontReinvite : Bool) (removeStreamOk : Bool)
  | init_incoming (request : Message) (newTag : String)
  | receiveRequest (request : Message)
  | receiveResponse (response : Message)
  | onTransportError
  | onRequestTimeout
  | onDialogError
  | remoteStreamAdded (m : MediaStream)
  | remoteStreamRemoved (m : MediaStream)
  | callback (cb : Callback) (r : CallbackResult)
  | timeout (t : Timeout)
  | sendDTMF (tones : TonesArg) (options : DtmfOptions)
  | toneInterval (timer : Nat)
  | toneFailed (timer : Nat)
  deriving DecidableEq, Repr

/-- One event: the state after its handler has run (an exception thrown by a user command
is dropped here; the handlers themselves report it). -/
def step (env : Env) (s : Session) : Event → Session
  | .terminate options => (terminate env s options).1
  | .answer extraHeaders => (answer s extraHeaders).1
  | .connect target targetValid options newTag callId ok =>
    (connect env s target targetValid options newTag callId ok).1
  | .toggleMute => toggleMute s
  | .sendReinvite extraHeaders => (sendReinvite env s extraHeaders).1
  | .addMediaStream stream dontReinvite ok => (addMediaStream env s stream dontReinvite ok).1
  | .removeMediaStream stream dontReinvite ok =>
    (removeMediaStream env s stream dontReinvite ok).1
  | .init_incoming request newTag => init_incoming env s request newTag
  | .receiveRequest request => receiveRequest s request
  | .receiveResponse response =>
    match s.receiveResponse with
    | .unset => s
    | .receiveInviteResponse => receiveInviteResponse env s response
    | .receiveReinviteResponse => receiveReinviteResponse env s response
  | .onTransportError => onTransportError s
  | .onRequestTimeout => onRequestTimeout s
  | .onDialogError => onDialogError s
  | .remoteStreamAdded m => mediaStreamAdded s .remote m
  | .remoteStreamRemoved m => mediaStreamRemoved s .remote m
  | .callback cb r => runCallback env (s.resolve cb) cb r
  | .timeout t => runTimer env (s.expire t.handle) t.action
  | .sendDTMF tones options => (sendDTMF env s tones options).1
  | .toneInterval timer => sendDTMF_onInterval s timer
  | .toneFailed timer => sendDTMF_onFailed s timer

/-- Whether the event can occur in this state: a callback must be outstanding, a timer must
be in the timer table and a tone sequence must have its interval; calls and deliveries can
always occur. -/
def enabled (s : Session) : Event → Bool
  | .callback cb _ => decide (cb ∈ s.pending)
  | .timeout t => decide (t ∈ s.timeouts)
  | .toneInterval timer => s.toneSequences.any (fun q => q.timer == timer)
  | .toneFailed timer => s.toneSequences.any (fun q => q.timer == timer)
  | _ => true

/-- Run a sequence of events. -/
def run (env : Env) (s : Session) (evs : List Event) : Session :=
  evs.foldl (step env) s

/-- Run a sequence of events, checking that each one can occur when its turn comes. -/
def runEnabled (env : Env) (s : Session) : List Event → Option Session
  | [] => some s
  | ev :: evs => if enabled s ev then runEnabled env (step env s ev) evs else none

/-! ## Vocabulary of the specification -/

/-- The effects of a `close()` that finds the session not yet terminated, in program
order. -/
def closeEffects (s : Session) : List Effect :=
  if s.status = .STATUS_TERMINATED then []
  else
    (if s.rtcMediaHandler then [Effect.mediaHandlerClose] else []) ++
    (match s.localMediaStream with
      | some m => [Effect.streamStop .local m.id]
      | none => []) ++
    s.localMediaStreams.map (fun m => Effect.streamStop .local m.id) ++
    s.remoteMediaStreams.map (fun m => Effect.streamStop .remote m.id) ++
    [.clearTimeout .ackTimer s.timers.ackTimer, .clearTimeout .expiresTimer s.timers.expiresTimer,
      .clearTimeout .invite2xxTimer s.timers.invite2xxTimer,
      .clearTimeout .userNoAnswerTimer s.timers.userNoAnswerTimer] ++
    (match s.dialog with
      | some d => [Effect.dialogTerminate d.serial]
      | none => []) ++
    s.earlyDialogs.map (fun e => Effect.dialogTerminate e.2.serial)

/-- The timer table after `close()` has cleared the four slots. -/
def closeTimeouts (s : Session) : List Timeout :=
  (((s.timeouts.filter (fun t => some t.handle != s.timers.ackTimer)).filter
    (fun t => some t.handle != s.timers.expiresTimer)).filter
    (fun t => some t.handle != s.timers.invite2xxTimer)).filter
    (fun t => some t.handle != s.timers.userNoAnswerTimer)

/-- The effects that leave the session towards the peer or the application: requests
(tone requests included), replies, CANCELs and emitted events. -/
def Effect.isSignal : Effect → Bool
  | .sendRequest _ _ _ => true
  | .dialogSendRequest _ _ _ => true
  | .requestSenderSend _ _ => true
  | .reply _ _ _ _ _ => true
  | .cancel _ => true
  | .emit _ _ _ => true
  | .dtmfSend _ => true
  | _ => false

/-- The effects logged on the way from `s` to `s'`. -/
def newEffects (s s' : Session) : List Effect := s'.log.drop s.log.length

/-- The requests, replies, CANCELs and events produced on the way from `s` to `s'`, in
order. -/
def signals (s s' : Session) : List Effect := (newEffects s s').filter Effect.isSignal

/-- Key of the dialog a response belongs to on the UAC side. -/
def uacKey (m : Message) : String := m.call_id ++ m.from_tag ++ m.to_tag

/-- Confirmed-mode `createDialog` has a dialog to install for this response: the branch
already has an early dialog, or the response carries a Contact header. -/
def dialogCreatable (s : Session) (m : Message) : Prop :=
  (lookupDialog s.earlyDialogs (uacKey m)).isSome = true ∨ m.hasContact = true

instance (s : Session) (m : Message) : Decidable (dialogCreatable s m) := by
  unfold dialogCreatable
  infer_instance

/-- A 2xx response with a non-empty body of Content-Type application/sdp. -/
def sdp2xx (r : Message) : Prop :=
  200 ≤ r.status_code ∧ r.status_code ≤ 299 ∧ truthy r.body = true ∧
    r.contentType = some "application/sdp"

instance (r : Message) : Decidable (sdp2xx r) := by
  unfold sdp2xx
  infer_instance

/-- The serials of the dialogs installed in `this.dialog`, in order: an early dialog is
installed when it is promoted, a fresh confirmed dialog when it is created. -/
def confirmedInstalls : List Effect → List Nat
  | [] => []
  | .dialogUpdate n :: es => n :: confirmedInstalls es
  | .dialogCreated n false :: es => n :: confirmedInstalls es
  | _ :: es => confirmedInstalls es

/-- The status code `terminate` replies with in WaitingForAnswer: the given one, or 480 when
none (or 0) is given. -/
def rejectionCode (options : TerminateOptions) : Nat :=
  match options.status_code with
  | none => 480
  | some c => if c = 0 then 480 else c

/-- The events of an answer that succeeds: `answer()` is called, local media is obtained and
accepted by the peer connection, the media engine produces the answer `body`, and the delivery
of the 200 is reported. -/
def answerEvents (request : Message) (extraHeaders : List String) (stream : MediaStream)
    (body : String) : List Event :=
  [.answer extraHeaders,
    .callback (.answerUserMedia request extraHeaders) (.stream stream true),
    .callback (.answerCreateAnswer request extraHeaders) (.body body),
    .callback (.answerReply request body) .success]

/-- What `addMediaStream` logs for a stream while the session is not Confirmed: a warning if a
stream with that id is already held, else the hand-over to the peer connection and the
`mediaStreamAdded` event. -/
def addStreamEffects (s : Session) (stream : MediaStream) : List Effect :=
  if (getStreamById s stream.id).isSome then
    [.warn "the mediaStream to be added is already present in RTCSession"]
  else [.addStream stream.id, .emit .mediaStreamAdded (some .local) none]

/-- The INVITE as `init_incoming` keeps it: with the local tag put on it. -/
def taggedInvite (request : Message) (newTag : String) : Message :=
  { request with to_tag := newTag }

/-- The session of `init_incoming` right after its early dialog has been created, which is
immediately before the INVITE is examined and possibly rejected. -/
def beforeRejection (env : Env) (s : Session) (request : Message) (newTag : String) : Session :=
  (createDialog (initIncomingParams env s (taggedInvite request newTag))
    (taggedInvite request newTag) .UAS true).2

/-- The sequence of the call whose interval is `timer`, as the closures see it. -/
def toneSequence (s : Session) (timer : Nat) : Option ToneSequence :=
  s.toneSequences.find? (fun q => q.timer == timer)

/-- The event list of `k` ticks of the interval `timer`. -/
def toneTicks (timer k : Nat) : List Event :=
  List.replicate k (.toneInterval timer)

/-- The tone an effect sends, if it sends one. -/
def Effect.tone : Effect → Option (Option Char)
  | .dtmfSend tone => some tone
  | _ => none

/-- The tones sent on the way from `s` to `s'`, in order. -/
def tonesSent (s s' : Session) : List (Option Char) :=
  (newEffects s s').filterMap Effect.tone

/-- Key under which `createDialog` looks for an early dialog of the message: call-id, local
tag, remote tag. -/
def dialogKey (m : Message) (ty : DialogType) : String :=
  match ty with
  | .UAS => m.call_id ++ m.to_tag ++ m.from_tag
  | .UAC => m.call_id ++ m.from_tag ++ m.to_tag

/-- The argument `retransmissions` that the closure of the 2xx-retransmission timer receives
at its `k`-th firing: nothing at the first firing, `k` from then on. -/
def firingArgument (k : Nat) : Option Nat :=
  if k ≤ 1 then none else some k

/-- The delay of a `setTimeout` effect. -/
def Effect.delay : Effect → Option Nat
  | .setTimeout _ _ delay => some delay
  | _ => none

/-- The session `s'` is as open as `s` was: status, dialogs, timers, timer table, media
handler and registry of the user agent are the same. -/
def keptOpen (s s' : Session) : Prop :=
  s'.status = s.status ∧ s'.dialog = s.dialog ∧ s'.earlyDialogs = s.earlyDialogs ∧
    s'.timers = s.timers ∧ s'.timeouts = s.timeouts ∧ s'.uaSessions = s.uaSessions ∧
    s'.rtcMediaHandler = s.rtcMediaHandler

instance (s s' : Session) : Decidable (keptOpen s s') := by
  unfold keptOpen
  infer_instance

/-- The firing of the 2xx-retransmission timer that is due: the entry of the timer table whose
handle is the one remembered in the slot `invite2xxTimer`. -/
def pendingRetransmission (s : Session) : Option Timeout :=
  s.timeouts.find? (fun t => some t.handle == s.timers.invite2xxTimer)

/-- The 2xx-retransmission timer is left alone and fires whenever it is due, at most `n`
times. -/
def fireRetransmissions (env : Env) : Nat → Session → Session
  | 0, s => s
  | n + 1, s =>
    match pendingRetransmission s with
    | some t => fireRetransmissions env n (step env s (.timeout t))
    | none => s

/-- The 200 that the retransmission closure of session `s` sends. -/
def retransmitted200 (s : Session) (request : Message) (body : String) : Effect :=
  .reply request 200 none ["Contact: " ++ s.contact.getD "undefined"] (some body)

/-- The identifiers of a stream collection, in order. -/
def streamIds (l : List MediaStream) : List String :=
  l.map MediaStream.id

/-- The calls and callbacks that touch the stream collections: `addMediaStream`,
`removeMediaStream`, and the peer connection announcing or withdrawing a remote stream. -/
def Event.isStreamEvent : Event → Bool
  | .addMediaStream _ _ _ => true
  | .removeMediaStream _ _ _ => true
  | .remoteStreamAdded _ => true
  | .remoteStreamRemoved _ => true
  | _ => false

/-- The event does not announce a remote stream whose id the session already holds. -/
def announcesNew (s : Session) : Event → Bool
  | .remoteStreamAdded m => !(streamIds s.remoteMediaStreams).contains m.id
  | _ => true

/-- Along the sequence, the peer connection announces a remote stream only while the session
holds no remote stream of that id. -/
def announcedOnce (env : Env) : Session → List Event → Bool
  | _, [] => true
  | s, ev :: evs => announcesNew s ev && announcedOnce env (step env s ev) evs

/-- The events of a re-INVITE attempt on the session `s`: `sendReinvite(extraHeaders)` is
called, and the media engine hands the offer `offer` to the callback that this call has
registered (its closure holds the headers of the caller followed by Contact, Allow and
Content-Type). -/
def reinviteAttempt (env : Env) (s : Session) (extraHeaders : List String) (offer : String) :
    List Event :=
  [.sendReinvite extraHeaders,
    .callback (.reinviteCreateOffer (extraHeaders ++
      ["Contact: " ++ s.contact.getD "undefined", "Allow: " ++ env.allowedMethods,
        "Content-Type: application/sdp"])) (.body offer)]

/-! ## Sample values -/

/-- An environment with the RFC 3261 timer values. -/
def sampleEnv : Env where
  T1 := 500
  T2 := 4000
  TIMER_H := 32000
  no_answer_timeout := 60000
  REASON_PHRASE := fun c => if c = 486 then some "Busy Here" else none
  contact := "sip:alice@example.com"
  allowedMethods := "INVITE,ACK,CANCEL,BYE"
  webrtcSupported := true
  uri := "sip:alice@example.com"
  DEFAULT_INTER_TONE_GAP := 500
  MIN_INTER_TONE_GAP := 50

/-- An incoming INVITE with an SDP offer and a Contact header. -/
def sampleInvite : Message :=
  ⟨.INVITE, 0, "call1", "from1", "", some "v=0", some "application/sdp", true, none⟩

/-- The same INVITE once `init_incoming` has put the local tag on it. -/
def sampleInviteTagged : Message :=
  ⟨.INVITE, 0, "call1", "from1", "to1", some "v=0", some "application/sdp", true, none⟩

/-- A local stream with one audio and one video track. -/
def sampleStream : MediaStream :=
  ⟨"stream1", [⟨"audio1", .audio, true⟩, ⟨"video1", .video, true⟩]⟩

/-- A 180 response with a to-tag and a Contact header. -/
def sample180 : Message :=
  ⟨.INVITE, 180, "call2", "from2", "to2", none, none, true, none⟩

/-- A 200 response with an SDP answer and a Contact header. -/
def sample200 : Message :=
  ⟨.INVITE, 200, "call2", "from2", "to2", some "v=0", some "application/sdp", true, none⟩

/-- A 200 response without body and without Contact header. -/
def sample200Bare : Message :=
  ⟨.INVITE, 200, "call2", "from2", "to2", none, none, false, none⟩

/-- A 200 response without body, with a Contact header. -/
def sample200NoBody : Message :=
  ⟨.INVITE, 200, "call2", "from2", "to2", none, none, true, none⟩

/-- An outgoing call up to the sending of the INVITE. -/
def outgoingCall : List Event :=
  [.connect (some "bob") true ⟨[], false, .undefined⟩ "from2" "call2" true,
    .callback .connectUserMedia (.stream sampleStream true),
    .callback .inviteCreateOffer (.body "v=0")]

/-- An incoming call up to the ringing state. -/
def incomingCall : List Event :=
  [.init_incoming sampleInvite "to1", .callback (.incomingOffer sampleInviteTagged none) .success]

/-- The rest of an incoming call up to the delivery of the 200. -/
def answeredCall : List Event :=
  incomingCall ++
  [.answer [], .callback (.answerUserMedia sampleInviteTagged []) (.stream sampleStream true),
    .callback (.answerCreateAnswer sampleInviteTagged []) (.body "v=0"),
    .callback (.answerReply sampleInviteTagged "v=0") .success]

/-- An outgoing session in status InviteSent. -/
def sampleInviteSent : Session := run sampleEnv (Session.create []) outgoingCall

/-- An incoming session in status WaitingForAnswer. -/
def sampleWaitingForAnswer : Session := run sampleEnv (Session.create []) incomingCall

/-- An incoming session in status WaitingForAck. -/
def sampleWaitingForAck : Session := run sampleEnv (Session.create []) answeredCall

/-- A confirmed outgoing session whose re-INVITE has just been sent. -/
def sampleReinviting : Session :=
  run sampleEnv sampleInviteSent
    [.receiveResponse sample200, .callback (.inviteAnswer sample200) .success,
      .sendReinvite [],
      .callback (.reinviteCreateOffer ["Contact: sip:alice@example.com",
        "Allow: INVITE,ACK,CANCEL,BYE", "Content-Type: application/sdp"]) (.body "v=1")]

/-- An incoming call answered twice before local media is available. -/
def answeredTwice : List Event :=
  incomingCall ++ [.answer [], .answer []]

/-- An outgoing call terminated by the user before any response, followed by nothing. -/
def cancelledBefore100 : List Event :=
  outgoingCall ++ [.terminate ⟨none, none, [], none⟩]

/-- An outgoing call muted while the microphone permission is still pending. -/
def mutedBeforeMedia : List Event :=
  [.connect (some "bob") true ⟨[], false, .undefined⟩ "from2" "call2" true, .toggleMute,
    .callback .connectUserMedia (.stream sampleStream true)]

/-- An outgoing call terminated while the media engine is applying the answer of the 200; the
engine then reports failure. -/
def terminatedWhileApplying : List Event :=
  outgoingCall ++ [.receiveResponse sample200, .terminate ⟨none, none, [], none⟩,
    .callback (.inviteAnswer sample200) .failure]

/-- A CANCEL request of the caller. -/
def sampleCancel : Message :=
  ⟨.CANCEL, 0, "call1", "from1", "to1", none, none, false, none⟩

/-- An ACK of the caller. -/
def sampleAck : Message :=
  ⟨.ACK, 0, "call1", "from1", "to1", none, none, false, none⟩

/-- An outgoing call terminated by the user while the media engine is applying the answer of
the 200. -/
def terminatedWhileApplyingAnswer : List Event :=
  outgoingCall ++ [.receiveResponse sample200, .terminate ⟨none, none, [], none⟩]

/-- An incoming call answered by the user and cancelled by the caller while the 200 is on its
way to the transport. -/
def cancelledWhileReplying : List Event :=
  incomingCall ++
  [.answer [], .callback (.answerUserMedia sampleInviteTagged []) (.stream sampleStream true),
    .callback (.answerCreateAnswer sampleInviteTagged []) (.body "v=0"),
    .receiveRequest sampleCancel]

/-- A session constructed and terminated at once. -/
def sampleTerminated : Session :=
  (terminate sampleEnv (Session.create []) ⟨none, none, [], none⟩).1

/-- The sample environment in a browser without WebRTC. -/
def sampleEnvNoWebRTC : Env := { sampleEnv with webrtcSupported := false }

/-- A confirmed incoming session. -/
def sampleConfirmed : Session := receiveRequest sampleWaitingForAck sampleAck

/-- A 100 response. -/
def sample100 : Message :=
  ⟨.INVITE, 100, "call2", "from2", "", none, none, false, none⟩

/-- A 486 response. -/
def sample486 : Message :=
  ⟨.INVITE, 486, "call2", "from2", "to2", none, none, false, none⟩

/-- An incoming INVITE whose body is not SDP. -/
def sampleInviteText : Message :=
  ⟨.INVITE, 0, "call1", "from1", "", some "hello", some "text/plain", true, none⟩

/-- The sample outgoing session after a 180 with Contact header: it holds one early dialog. -/
def sampleProvisional : Session := receiveInviteResponse sampleEnv sampleInviteSent sample180

/-- The timer of the `k`-th firing of the 2xx retransmission of the sample answered call. -/
def sampleRetransmission (handle k delay : Nat) : Event :=
  .timeout ⟨handle, .invite2xx sampleInviteTagged "v=0" (firingArgument k), delay⟩

/-- An incoming call answered twice by the user, both answers completing, then acknowledged
by the caller. -/
def answeredTwiceAcknowledged : List Event :=
  incomingCall ++
  [.answer [], .answer [],
    .callback (.answerUserMedia sampleInviteTagged []) (.stream sampleStream true),
    .callback (.answerUserMedia sampleInviteTagged []) (.stream sampleStream true),
    .callback (.answerCreateAnswer sampleInviteTagged []) (.body "v=0"),
    .callback (.answerCreateAnswer sampleInviteTagged []) (.body "v=0"),
    .callback (.answerReply sampleInviteTagged "v=0") .success,
    .callback (.answerReply sampleInviteTagged "v=0") .success,
    .receiveRequest sampleAck]

/-- A 180 response with a to-tag and no Contact header. -/
def sample180NoContact : Message :=
  ⟨.INVITE, 180, "call2", "from2", "to2", none, none, false, none⟩

/-- A 180 response without to-tag. -/
def sample180NoTag : Message :=
  ⟨.INVITE, 180, "call2", "from2", "", none, none, true, none⟩

/-- A 200 response to the re-INVITE whose body is not SDP. -/
def sample200Text : Message :=
  ⟨.INVITE, 200, "call2", "from2", "to2", some "hello", some "text/plain", true, none⟩

/-! ## Dialog bookkeeping -/

/-- The serial of the dialog object an effect concerns, if it concerns one. -/
def Effect.dialogSerial : Effect → Option Nat
  | .dialogCreated n _ => some n
  | .dialogUpdate n => some n
  | .dialogTerminate n => some n
  | _ => none

/-- The part of the log that concerns dialog objects. -/
def dialogLog (s : Session) : List Effect :=
  s.log.filter (fun e => e.dialogSerial.isSome)

/-- The serials of the dialogs currently stored in `earlyDialogs`. -/
def earlySerials (s : Session) : List Nat :=
  s.earlyDialogs.map (fun e => e.2.serial)

/-- How often the dialog with serial `n` has been promoted to the confirmed dialog. -/
def promotions (n : Nat) (s : Session) : Nat := s.log.count (.dialogUpdate n)

/-- How often `terminate()` has been invoked on the dialog with serial `n`. -/
def terminations (n : Nat) (s : Session) : Nat := s.log.count (.dialogTerminate n)

/-- The bookkeeping invariant of the dialogs of a session. -/
structure DialogInv (s : Session) : Prop where
  fresh : ∀ e ∈ dialogLog s, ∀ n, e.dialogSerial = some n → n < s.nextDialog
  earlyLt : ∀ n ∈ earlySerials s, n < s.nextDialog
  keys : (s.earlyDialogs.map Prod.fst).Nodup
  serials : (earlySerials s).Nodup
  earlyFresh : ∀ n ∈ earlySerials s,
    (dialogLog s).count (.dialogUpdate n) = 0 ∧ (dialogLog s).count (.dialogTerminate n) = 0
  dlg : ∀ d, s.dialog = some d →
    d.serial < s.nextDialog ∧ (dialogLog s).count (.dialogTerminate d.serial) = 0 ∧
      d.serial ∉ earlySerials s
  ledger : ∀ n, Effect.dialogCreated n true ∈ dialogLog s →
    n ∈ earlySerials s ∨
    ((dialogLog s).count (.dialogUpdate n) = 1 ∧ (dialogLog s).count (.dialogTerminate n) ≤ 1) ∨
    ((dialogLog s).count (.dialogUpdate n) = 0 ∧ (dialogLog s).count (.dialogTerminate n) = 1)
  closed : s.status = .STATUS_TERMINATED → s.earlyDialogs = []

/-- The state of the retransmission chain started on `s`, after `k` firings that all
retransmitted: the timer table of `s` plus the entry of the next firing, which the slot
remembers. -/
def ChainInv (s : Session) (request : Message) (body : String) (k : Nat) (u : Session) : Prop :=
  ∃ h d es,
    u.timeouts =
      s.timeouts ++ [⟨h, .invite2xx request body (firingArgument (k + 1)), d⟩] ∧
    u.timers.invite2xxTimer = some h ∧ (∀ t ∈ s.timeouts, t.handle < h) ∧
    u.nextHandle = h + 1 ∧ u.log = s.log ++ es ∧
    es.filter Effect.isSignal = List.replicate k (retransmitted200 s request body) ∧
    u.contact = s.contact

/-! ## Theorems -/

/-! ### The shared close routine -/

theorem close_of_terminated (s : Session) (h : s.status = .STATUS_TERMINATED) : close s = s := by
  simp [close, h]

theorem close_status (s : Session) : (close s).status = .STATUS_TERMINATED := by
  unfold close
  split
  · assumption
  · rfl

theorem close_log (s : Session) : (close s).log = s.log ++ closeEffects s := by
  unfold close closeEffects
  split
  · simp
  · cases hm : s.rtcMediaHandler <;> cases hl : s.localMediaStream <;> cases hd : s.dialog <;>
      simp [Session.record, Session.recordAll, Session.clearTimeout, Timers.get, hm, hl, hd]

theorem close_eq (s : Session) (h : s.status ≠ .STATUS_TERMINATED) :
    close s = { s with
      status := .STATUS_TERMINATED
      dialog := none
      earlyDialogs := []
      timeouts := closeTimeouts s
      uaSessions := s.uaSessions.filter (fun k => k != s.key)
      log := s.log ++ closeEffects s } := by
  unfold close closeEffects closeTimeouts
  rw [if_neg h, if_neg h]
  cases hm : s.rtcMediaHandler <;> cases hl : s.localMediaStream <;> cases hd : s.dialog <;>
    simp [Session.record, Session.recordAll, Session.clearTimeout, Timers.get, Session.key, hm,
      hl, hd]

theorem mem_closeEffects (s : Session) (e : Effect) (h : e ∈ closeEffects s) :
    e = .mediaHandlerClose ∨ (∃ o id, e = .streamStop o id) ∨
      (∃ slot handle, e = .clearTimeout slot handle) ∨ ∃ n, e = .dialogTerminate n := by
  unfold closeEffects at h
  split at h
  · simp at h
  · simp only [List.mem_append, List.mem_map, List.mem_cons, List.mem_singleton] at h
    rcases h with ((((((h | h) | h) | h) | h) | h) | h)
    · split at h
      · simp at h; exact Or.inl h
      · simp at h
    · split at h
      · simp at h; exact Or.inr (Or.inl ⟨_, _, h⟩)
      · simp at h
    · obtain ⟨m, _, rfl⟩ := h
      exact Or.inr (Or.inl ⟨_, _, rfl⟩)
    · obtain ⟨m, _, rfl⟩ := h
      exact Or.inr (Or.inl ⟨_, _, rfl⟩)
    · rcases h with h | h | h | h | h
      · exact Or.inr (Or.inr (Or.inl ⟨_, _, h⟩))
      · exact Or.inr (Or.inr (Or.inl ⟨_, _, h⟩))
      · exact Or.inr (Or.inr (Or.inl ⟨_, _, h⟩))
      · exact Or.inr (Or.inr (Or.inl ⟨_, _, h⟩))
      · simp at h
    · split at h
      · simp at h; exact Or.inr (Or.inr (Or.inr ⟨_, h⟩))
      · simp at h
    · obtain ⟨m, _, rfl⟩ := h
      exact Or.inr (Or.inr (Or.inr ⟨_, rfl⟩))

theorem closeEffects_signals (s : Session) : (closeEffects s).filter Effect.isSignal = [] := by
  unfold closeEffects
  split
  · rfl
  · cases s.rtcMediaHandler <;> cases s.localMediaStream <;> cases s.dialog <;>
      simp [List.filter_map, Effect.isSignal, List.filter_eq_nil_iff]

theorem newEffects_of_log (s s' : Session) (es : List Effect) (h : s'.log = s.log ++ es) :
    newEffects s s' = es := by
  simp [newEffects, h]

theorem failed_log (s : Session) (o : Originator) (c : Cause) :
    (failed s o c).log = s.log ++ closeEffects s ++ [.emit .failed (some o) (some c)] := by
  simp [failed, Session.emit, Session.record, close_log]

theorem failed_status (s : Session) (o : Originator) (c : Cause) :
    (failed s o c).status = .STATUS_TERMINATED := by
  simp [failed, Session.emit, Session.record, close_status]

theorem ended_log (s : Session) (o : Originator) (c : Cause) :
    (ended s o c).log = s.log ++ closeEffects s ++ [.emit .ended (some o) (some c)] := by
  simp [ended, Session.emit, Session.record, close_log]

theorem ended_status (s : Session) (o : Originator) (c : Cause) :
    (ended s o c).status = .STATUS_TERMINATED := by
  simp [ended, Session.emit, Session.record, close_status]

theorem close_timeouts_subset (s : Session) : ∀ t ∈ (close s).timeouts, t ∈ s.timeouts := by
  intro t ht
  by_cases h : s.status = .STATUS_TERMINATED
  · rwa [close_of_terminated s h] at ht
  · rw [close_eq s h] at ht
    simp only [closeTimeouts, List.mem_filter] at ht
    exact ht.1.1.1.1

/-- C2: `close()` is idempotent. On every session whose status is Terminated, `close()`
returns the session unchanged: no field changes, nothing is logged (no media stopped, no timer
cleared, no dialog terminated) and the registry keeps its keys. After any `close()` the status
is Terminated, hence a second `close()` changes nothing. -/
theorem close_idempotent (s : Session) :
    close { s with status := .STATUS_TERMINATED } = { s with status := .STATUS_TERMINATED } ∧
    (close s).status = .STATUS_TERMINATED ∧ close (close s) = close s :=
  ⟨close_of_terminated _ rfl, close_status s, close_of_terminated _ (close_status s)⟩

/-! ### A 2xx without session description -/

theorem createDialog_uac_confirmed (s : Session) (m : Message) (h : dialogCreatable s m) :
    ∃ e, (createDialog s m .UAC false).1 = true ∧
      (createDialog s m .UAC false).2.log = s.log ++ [e] ∧ e.isSignal = false ∧
      (createDialog s m .UAC false).2.status = s.status := by
  unfold createDialog
  simp only [Bool.false_eq_true, if_false]
  cases hl : lookupDialog s.earlyDialogs (m.call_id ++ m.from_tag ++ m.to_tag) with
  | some d => exact ⟨.dialogUpdate d.serial, by simp [Effect.isSignal]⟩
  | none =>
    have hc : m.hasContact = true := by
      rcases h with h | h
      · simp [uacKey, hl] at h
      · exact h
    simp [Dialog.construct, hc, Effect.isSignal]

/-- C3 (amended): for every outgoing session in status InviteSent or ProvisionalReceived with no
pending cancel and no confirmed dialog, a 2xx response without body for which a dialog can be
installed (its branch has an early dialog, or it carries a Contact header) makes the session
send ACK, then BYE with the header `Reason: SIP ;cause=400; text="Missing session description"`,
then emit `failed` with originator remote and cause BAD_MEDIA_DESCRIPTION, in that order and
with no other request, reply or event; the session ends Terminated. -/
theorem receiveInviteResponse_2xx_without_body (env : Env) (s : Session) (response : Message)
    (hs : s.status = .STATUS_INVITE_SENT ∨ s.status = .STATUS_1XX_RECEIVED)
    (hc : s.isCanceled = false) (hd : s.dialog = none)
    (h2 : 200 ≤ response.status_code ∧ response.status_code ≤ 299)
    (hb : truthy response.body = false) (hk : dialogCreatable s response) :
    signals s (receiveInviteResponse env s response) =
      [.sendRequest .ACK [] none,
       .sendRequest .BYE ["Reason: SIP ;cause=400; text=\"Missing session description\""] none,
       .emit .failed (some .remote) (some .BAD_MEDIA_DESCRIPTION)] ∧
    (receiveInviteResponse env s response).status = .STATUS_TERMINATED := by
  obtain ⟨e, h1, h3, h4, _⟩ := createDialog_uac_confirmed s response hk
  have hr : reasonHeader env 400 (some "Missing session description") =
      "Reason: SIP ;cause=400; text=\"Missing session description\"" := by
    simp [reasonHeader, reasonPhrase, jsOr, truthy]
    decide
  have hst : ¬ (s.status ≠ .STATUS_INVITE_SENT ∧ s.status ≠ .STATUS_1XX_RECEIVED) := by
    rcases hs with h | h <;> simp [h]
  have h100 : is100 response.status_code = false := by
    simp [is100]; omega
  have h1xx : is1xx response.status_code = false := by
    simp [is1xx]; omega
  have h2xx : is2xx response.status_code = true := by
    simp [is2xx]; omega
  have hrun : receiveInviteResponse env s response =
      failed ((((createDialog s response .UAC false).2.sendRequest .ACK [] none).sendRequest .BYE
        ["Reason: SIP ;cause=400; text=\"Missing session description\""] none))
        .remote .BAD_MEDIA_DESCRIPTION := by
    unfold receiveInviteResponse
    simp only [hst, if_false, hc, h100, h1xx, h2xx, if_true, hd, Option.isSome_none, hb,
      Bool.not_false, Bool.false_eq_true]
    unfold acceptAndTerminate
    simp only [hd, Option.isSome_none, Bool.false_eq_true, if_false, truthyNum, hr]
    generalize hcd : createDialog s response .UAC false = r at h1
    obtain ⟨b, s1⟩ := r
    simp at h1
    subst h1
    simp [hr]
  rw [hrun]
  refine ⟨?_, failed_status _ _ _⟩
  unfold signals
  rw [newEffects_of_log s _ ([e, .sendRequest .ACK [] none,
      .sendRequest .BYE ["Reason: SIP ;cause=400; text=\"Missing session description\""] none] ++
      closeEffects (((createDialog s response .UAC false).2.sendRequest .ACK [] none).sendRequest
        .BYE ["Reason: SIP ;cause=400; text=\"Missing session description\""] none) ++
      [.emit .failed (some .remote) (some .BAD_MEDIA_DESCRIPTION)])]
  · simp only [List.filter_append, List.filter_cons, h4, closeEffects_signals]
    simp [Effect.isSignal]
  · rw [failed_log]
    simp [Session.sendRequest, Session.record, h3]

/-- Witness of C3 (amended): the sample session in status InviteSent and a bodiless 200 that
carries a Contact header. -/
theorem receiveInviteResponse_2xx_without_body_witness :
    sampleInviteSent.status = .STATUS_INVITE_SENT ∧
    signals sampleInviteSent (receiveInviteResponse sampleEnv sampleInviteSent sample200NoBody) =
      [.sendRequest .ACK [] none,
       .sendRequest .BYE ["Reason: SIP ;cause=400; text=\"Missing session description\""] none,
       .emit .failed (some .remote) (some .BAD_MEDIA_DESCRIPTION)] ∧
    (receiveInviteResponse sampleEnv sampleInviteSent sample200NoBody).status =
      .STATUS_TERMINATED :=
  ⟨by decide, receiveInviteResponse_2xx_without_body sampleEnv sampleInviteSent sample200NoBody
    (Or.inl (by decide)) (by decide) (by decide) (by decide) (by decide) (Or.inr (by decide))⟩

/-- Counterexample to C3 as stated: the sample session is in status InviteSent with no pending
cancel and no confirmed dialog; the 200 has no body and no Contact header. No dialog can be
built, so neither ACK nor BYE is sent, and `failed` is emitted twice: with cause INTERNAL_ERROR
by `createDialog`, then with cause BAD_MEDIA_DESCRIPTION. -/
theorem receiveInviteResponse_2xx_without_body_or_contact :
    sampleInviteSent.status = .STATUS_INVITE_SENT ∧ sampleInviteSent.isCanceled = false ∧
    sampleInviteSent.dialog = none ∧ sample200Bare.status_code = 200 ∧
    truthy sample200Bare.body = false ∧
    signals sampleInviteSent (receiveInviteResponse sampleEnv sampleInviteSent sample200Bare) =
      [.emit .failed (some .remote) (some .INTERNAL_ERROR),
       .emit .failed (some .remote) (some .BAD_MEDIA_DESCRIPTION)] := by
  decide

/-! ### Cancelling before a provisional response -/

/-- C4: for every outgoing session in status InviteSent with `received_100 = false`, `terminate()`
with no status code or with one in 200..699 throws nothing, sends no CANCEL, records the
pending cancellation (`isCanceled = true`, `cancelReason` = the reason computed from the status
code, absent when no code is given), emits exactly `failed` with originator local and cause
CANCELED, and leaves the session Terminated. -/
theorem terminate_before_100 (env : Env) (s : Session) (options : TerminateOptions)
    (hs : s.status = .STATUS_INVITE_SENT) (h100 : s.received_100 = false)
    (hv : ∀ c, options.status_code = some c → 200 ≤ c ∧ c < 700) :
    (terminate env s options).2 = none ∧
    (∀ reason, Effect.cancel reason ∉ newEffects s (terminate env s options).1) ∧
    (terminate env s options).1.isCanceled = true ∧
    (terminate env s options).1.cancelReason =
      options.status_code.map (fun c => cancelReasonText env c options.reason_phrase) ∧
    signals s (terminate env s options).1 = [.emit .failed (some .local) (some .CANCELED)] ∧
    (terminate env s options).1.status = .STATUS_TERMINATED := by
  have hcheck : (truthyNum options.status_code &&
      (decide (options.status_code.getD 0 < 200) || decide (options.status_code.getD 0 ≥ 700)))
      = false := by
    cases hsc : options.status_code with
    | none => simp [truthyNum]
    | some c =>
      have := hv c hsc
      simp [truthyNum]
      omega
  have hreason : (if truthyNum options.status_code = true then
        some (cancelReasonText env (options.status_code.getD 0) options.reason_phrase)
      else none) =
      options.status_code.map (fun c => cancelReasonText env c options.reason_phrase) := by
    cases hsc : options.status_code with
    | none => simp [truthyNum]
    | some c =>
      have := hv c hsc
      have hc : c ≠ 0 := by omega
      simp [truthyNum, hc]
  have hrun : terminate env s options =
      (close (failed { s with isCanceled := true, cancelReason :=
        (options.status_code.map (fun c => cancelReasonText env c options.reason_phrase)) }
        .local .CANCELED), none) := by
    unfold terminate
    simp only [hs, hcheck, hreason, h100]
    simp
  rw [hrun]
  have hlog : (close (failed { s with isCanceled := true, cancelReason :=
        (options.status_code.map (fun c => cancelReasonText env c options.reason_phrase)) }
        .local .CANCELED)).log = s.log ++ (closeEffects s ++
          [.emit .failed (some .local) (some .CANCELED)]) := by
    rw [close_of_terminated _ (failed_status _ _ _), failed_log]
    simp [closeEffects]
  have hne : ∀ r, ({ s with isCanceled := true, cancelReason := r } : Session).status ≠
      .STATUS_TERMINATED := by
    intro r
    simp [hs]
  refine ⟨rfl, ?_, ?_, ?_, ?_, ?_⟩
  · intro reason hmem
    rw [newEffects_of_log _ _ _ hlog] at hmem
    have : Effect.cancel reason ∈ (closeEffects s ++
        [Effect.emit .failed (some .local) (some .CANCELED)]).filter Effect.isSignal :=
      List.mem_filter.mpr ⟨hmem, rfl⟩
    simp [List.filter_append, closeEffects_signals, Effect.isSignal] at this
  · rw [close_of_terminated _ (failed_status _ _ _)]
    simp [failed, Session.emit, Session.record, close_eq _ (hne _)]
  · rw [close_of_terminated _ (failed_status _ _ _)]
    simp [failed, Session.emit, Session.record, close_eq _ (hne _)]
  · unfold signals
    rw [newEffects_of_log _ _ _ hlog]
    simp [List.filter_append, closeEffects_signals, Effect.isSignal]
  · exact close_status _

/-- Witness of C4: the sample session in status InviteSent, terminated with status code 486. -/
theorem terminate_before_100_witness :
    sampleInviteSent.status = .STATUS_INVITE_SENT ∧ sampleInviteSent.received_100 = false ∧
    (terminate sampleEnv sampleInviteSent ⟨some 486, none, [], none⟩).1.cancelReason =
      some "SIP ;cause=486 ;text=\"Busy Here\"" ∧
    signals sampleInviteSent (terminate sampleEnv sampleInviteSent ⟨some 486, none, [], none⟩).1 =
      [.emit .failed (some .local) (some .CANCELED)] :=
  have h := terminate_before_100 sampleEnv sampleInviteSent ⟨some 486, none, [], none⟩
    (by decide) (by decide) (by intro c hc; cases hc; decide)
  ⟨by decide, by decide, h.2.2.2.1.trans (by decide), h.2.2.2.2.1⟩

/-- C5 (the code does not honour the pending cancel): an outgoing call is terminated while in
status InviteSent before any 100. The cancellation is recorded (`isCanceled = true`) and the
session is closed, so its status is Terminated; the status guard at the top of
`receiveInviteResponse` then returns before the pending cancel is looked at. A following 180
and a following 200 both leave the session exactly as it was. Everything the session ever
sends or emits is the INVITE and the `failed` event: no CANCEL, no ACK and no BYE. -/
theorem pending_cancel_not_honoured :
    (runEnabled sampleEnv (Session.create []) cancelledBefore100).map
      (fun s => (s.status, s.isCanceled,
        decide (step sampleEnv s (.receiveResponse sample180) = s),
        decide (step sampleEnv s (.receiveResponse sample200) = s),
        signals (Session.create [])
          (run sampleEnv s [.receiveResponse sample180, .receiveResponse sample200]))) =
      some (.STATUS_TERMINATED, true, true, true,
        [.emit .newRTCSession (some .local) none, .emit .mediaStreamAdded (some .local) none,
          .requestSenderSend ["Contact: sip:alice@example.com", "Allow: INVITE,ACK,CANCEL,BYE",
            "Content-Type: application/sdp"] (some "v=0"),
          .emit .failed (some .local) (some .CANCELED)]) := by
  decide

/-! ### Timers -/

theorem answer_of_terminated (s : Session) (hs : s.status = .STATUS_TERMINATED)
    (extraHeaders : List String) :
    (answer s extraHeaders).1 = s ∧ (answer s extraHeaders).2 ≠ none := by
  unfold answer
  by_cases hd : s.direction = some .incoming <;> simp [hd, hs]

/-- C6: the success closure of `init_incoming` leaves the session in status WaitingForAnswer
with the no-answer timer scheduled at delay `no_answer_timeout`. When the no-answer timer
fires while the status is WaitingForAnswer, the session sends
exactly one reply, 408, to the INVITE, emits `failed` with originator local and cause NO_ANSWER
(and nothing else), and ends Terminated. No timer is scheduled by the firing; the timer table
afterwards holds only entries it held before, none of them in the ACK-wait or 2xx-retransmission
slot; and `answer()`, the method that schedules those two timers, is rejected from then on. -/
theorem userNoAnswerTimer_fires (env : Env) (s s' : Session) (t : Timeout) (request : Message)
    (expires : Option Nat)
    (hs : s.status = .STATUS_WAITING_FOR_ANSWER) (ht : t.action = .userNoAnswer request) :
    (init_incoming_onOffer env s' request expires).status = .STATUS_WAITING_FOR_ANSWER ∧
    ⟨s'.nextHandle, .userNoAnswer request, env.no_answer_timeout⟩ ∈
      (init_incoming_onOffer env s' request expires).timeouts ∧
    signals s (step env s (.timeout t)) =
      [.reply request 408 none [] none, .emit .failed (some .local) (some .NO_ANSWER)] ∧
    (step env s (.timeout t)).status = .STATUS_TERMINATED ∧
    (∀ slot h d, Effect.setTimeout slot h d ∉ newEffects s (step env s (.timeout t))) ∧
    (∀ u ∈ (step env s (.timeout t)).timeouts, u ∈ s.timeouts ∧
      some u.handle ≠ s.timers.ackTimer ∧ some u.handle ≠ s.timers.invite2xxTimer) ∧
    (∀ extraHeaders, (answer (step env s (.timeout t)) extraHeaders).1 = step env s (.timeout t) ∧
      (answer (step env s (.timeout t)) extraHeaders).2 ≠ none) := by
  have hrun : step env s (.timeout t) =
      failed ((s.expire t.handle).reply request 408 none [] none) .local .NO_ANSWER := by
    simp [step, ht, runTimer, userNoAnswerTimerFired]
  rw [hrun]
  generalize hs0 : (s.expire t.handle).reply request 408 none [] none = s0
  have hlog0 : s0.log = s.log ++ [.reply request 408 none [] none] := by
    subst hs0; rfl
  have hto : ∀ u ∈ s0.timeouts, u ∈ s.timeouts := by
    subst hs0
    intro u hu
    simp only [Session.reply, Session.record, Session.expire, List.mem_filter] at hu
    exact hu.1
  have hlog : (failed s0 .local .NO_ANSWER).log = s.log ++ ([.reply request 408 none [] none] ++
      closeEffects s0 ++ [.emit .failed (some .local) (some .NO_ANSWER)]) := by
    rw [failed_log, hlog0]
    simp
  refine ⟨?_, ?_, ?_, failed_status _ _ _, ?_, ?_,
    fun hdrs => answer_of_terminated _ (failed_status _ _ _) hdrs⟩
  · unfold init_incoming_onOffer
    split <;> simp [newRTCSession, Session.record, Session.setTimeout, Session.reply]
  · unfold init_incoming_onOffer
    split <;> simp [newRTCSession, Session.record, Session.setTimeout, Session.reply]
  · unfold signals
    rw [newEffects_of_log _ _ _ hlog]
    simp [List.filter_append, closeEffects_signals, Effect.isSignal]
  · intro slot h d hmem
    rw [newEffects_of_log _ _ _ hlog] at hmem
    simp only [List.mem_append, List.mem_singleton, reduceCtorEq, false_or, or_false] at hmem
    rcases mem_closeEffects _ _ hmem with h | ⟨_, _, h⟩ | ⟨_, _, h⟩ | ⟨_, h⟩ <;> cases h
  · intro u hu
    have hu' : u ∈ (close s0).timeouts := by
      simpa [failed, Session.emit, Session.record] using hu
    refine ⟨hto u (close_timeouts_subset _ u hu'), ?_⟩
    have hne : s0.status ≠ .STATUS_TERMINATED := by
      subst hs0
      simp [Session.reply, Session.record, Session.expire, hs]
    have htm : s0.timers = s.timers := by
      subst hs0; rfl
    rw [close_eq s0 hne] at hu'
    simp only [closeTimeouts, List.mem_filter, htm] at hu'
    simpa using And.intro hu'.1.1.1.2 hu'.1.2

/-- Witness of C6: the sample incoming session, whose no-answer timer has handle 0. -/
theorem userNoAnswerTimer_fires_witness :
    sampleWaitingForAnswer.status = .STATUS_WAITING_FOR_ANSWER ∧
    signals sampleWaitingForAnswer (step sampleEnv sampleWaitingForAnswer
        (.timeout ⟨0, .userNoAnswer sampleInviteTagged, 60000⟩)) =
      [.reply sampleInviteTagged 408 none [] none,
       .emit .failed (some .local) (some .NO_ANSWER)] :=
  ⟨by decide, (userNoAnswerTimer_fires sampleEnv sampleWaitingForAnswer (Session.create [])
    ⟨0, .userNoAnswer sampleInviteTagged, 60000⟩ sampleInviteTagged none (by decide)
    rfl).2.2.1⟩

/-- C7: `setACKTimer` schedules the ACK-wait timer at delay TIMER_H. When the ACK-wait timer
fires while the status is WaitingForAck, the 2xx-retransmission
timer is cleared (its handle leaves the timer table), exactly one BYE is sent, `ended` (not
`failed`) is emitted with originator remote and cause NO_ACK, nothing else is sent or emitted,
and the session ends Terminated. -/
theorem ackTimer_fires (env : Env) (s s' : Session) (t : Timeout)
    (hs : s.status = .STATUS_WAITING_FOR_ACK) (ht : t.action = .ack) :
    ⟨s'.nextHandle, .ack, env.TIMER_H⟩ ∈ (setACKTimer env s').timeouts ∧
    Effect.clearTimeout .invite2xxTimer s.timers.invite2xxTimer ∈
      newEffects s (step env s (.timeout t)) ∧
    (∀ u ∈ (step env s (.timeout t)).timeouts, some u.handle ≠ s.timers.invite2xxTimer) ∧
    signals s (step env s (.timeout t)) =
      [.sendRequest .BYE [] none, .emit .ended (some .remote) (some .NO_ACK)] ∧
    (step env s (.timeout t)).status = .STATUS_TERMINATED := by
  have hrun : step env s (.timeout t) =
      ended ((((s.expire t.handle).clearTimeout .invite2xxTimer)).sendRequest .BYE [] none)
        .remote .NO_ACK := by
    simp [step, ht, runTimer, ackTimerFired, Session.expire, hs]
  rw [hrun]
  generalize hs0 : ((s.expire t.handle).clearTimeout .invite2xxTimer).sendRequest .BYE [] none = s0
  have hlog0 : s0.log = s.log ++ [.clearTimeout .invite2xxTimer s.timers.invite2xxTimer,
      .sendRequest .BYE [] none] := by
    subst hs0
    simp [Session.sendRequest, Session.record, Session.clearTimeout, Session.expire, Timers.get]
  have hlog : (ended s0 .remote .NO_ACK).log = s.log ++
      ([.clearTimeout .invite2xxTimer s.timers.invite2xxTimer, .sendRequest .BYE [] none] ++
        closeEffects s0 ++ [.emit .ended (some .remote) (some .NO_ACK)]) := by
    rw [ended_log, hlog0]
    simp
  refine ⟨?_, ?_, ?_, ?_, ended_status _ _ _⟩
  · simp [setACKTimer, Session.setTimeout]
  · rw [newEffects_of_log _ _ _ hlog]
    simp
  · intro u hu
    have hu' : u ∈ (close s0).timeouts := by
      simpa [ended, Session.emit, Session.record] using hu
    have := close_timeouts_subset _ u hu'
    subst hs0
    simp only [Session.sendRequest, Session.record, Session.clearTimeout, Session.expire,
      Timers.get, List.mem_filter] at this
    simpa using this.2
  · unfold signals
    rw [newEffects_of_log _ _ _ hlog]
    simp [List.filter_append, closeEffects_signals, Effect.isSignal]

/-- Witness of C7: the sample answered session, whose ACK-wait timer has handle 2. -/
theorem ackTimer_fires_witness :
    sampleWaitingForAck.status = .STATUS_WAITING_FOR_ACK ∧
    signals sampleWaitingForAck (step sampleEnv sampleWaitingForAck (.timeout ⟨2, .ack, 32000⟩)) =
      [.sendRequest .BYE [] none, .emit .ended (some .remote) (some .NO_ACK)] :=
  ⟨by decide, (ackTimer_fires sampleEnv sampleWaitingForAck (Session.create []) ⟨2, .ack, 32000⟩
    (by decide) rfl).2.2.2.1⟩

/-! ### Duplicate 2xx to a re-INVITE -/

theorem close_reinviteFlag (s : Session) :
    (close s).reinvite2XXResponseReceived = s.reinvite2XXResponseReceived := by
  by_cases h : s.status = .STATUS_TERMINATED
  · rw [close_of_terminated s h]
  · rw [close_eq s h]

theorem createDialog_reinviteFlag (s : Session) (m : Message) (ty : DialogType) (early : Bool) :
    (createDialog s m ty early).2.reinvite2XXResponseReceived =
      s.reinvite2XXResponseReceived := by
  unfold createDialog
  simp only
  split
  · split
    · rfl
    · split
      · rfl
      · simp [failed, Session.emit, Session.record, close_reinviteFlag]
  · split
    · rfl
    · split
      · rfl
      · simp [failed, Session.emit, Session.record, close_reinviteFlag]

theorem acceptAndTerminate_reinviteFlag (env : Env) (s : Session) (r : Message)
    (c : Option Nat) (p : Option String) :
    (acceptAndTerminate env s r c p).reinvite2XXResponseReceived =
      s.reinvite2XXResponseReceived := by
  unfold acceptAndTerminate
  simp only
  split
  · rfl
  · have := createDialog_reinviteFlag s r .UAC false
    split
    · rename_i heq
      rw [heq] at this
      simpa [Session.sendRequest, Session.record] using this
    · rename_i heq
      rw [heq] at this
      simpa using this

theorem receiveReinviteResponse_guarded (env : Env) (s : Session) (r : Message)
    (hf : s.reinvite2XXResponseReceived = some true) (hr : sdp2xx r) :
    receiveReinviteResponse env s r = s := by
  obtain ⟨h1, h2, h3, h4⟩ := hr
  have h1xx : is1xx r.status_code = false := by
    simp [is1xx]; omega
  have h2xx : is2xx r.status_code = true := by
    simp [is2xx]; omega
  unfold receiveReinviteResponse
  simp [h1xx, h2xx, h3, h4, hf]

theorem receiveReinviteResponse_first (env : Env) (s : Session) (r : Message)
    (hs : s.status ≠ .STATUS_TERMINATED) (hf : s.reinvite2XXResponseReceived ≠ some true)
    (hm : s.rtcMediaHandler = true) (hr : sdp2xx r) :
    (receiveReinviteResponse env s r).log = s.log ++ [.onMessage "answer" (r.body.getD "")] ∧
    (receiveReinviteResponse env s r).reinvite2XXResponseReceived = some true ∧
    (receiveReinviteResponse env s r).status = s.status ∧
    (receiveReinviteResponse env s r).rtcMediaHandler = true ∧
    (receiveReinviteResponse env s r).pending = s.pending ++ [.reinviteAnswer r] := by
  obtain ⟨h1, h2, h3, h4⟩ := hr
  have h1xx : is1xx r.status_code = false := by
    simp [is1xx]; omega
  have h2xx : is2xx r.status_code = true := by
    simp [is2xx]; omega
  unfold receiveReinviteResponse
  simp [h1xx, h2xx, h3, h4, hf, hs, hm, Session.record, Session.await]

/-- C8: for every Confirmed session with a re-INVITE in flight (`reinvite2XXResponseReceived =
false`), the first 2xx with an SDP body hands the remote description to the media engine
(`onMessage('answer', body)`) and does nothing else observable; a second such 2xx changes no
session state and logs nothing, whether it arrives right away or after the media engine has
called back. The guard is then set, and the call of `sendReinvite` alone does not reset it:
the call asks the media engine for an offer (`createOffer`), and registers its callback,
nothing else. When this callback, outstanding because `sendReinvite` has registered it,
receives the offer, the guard is `false` again; the next 2xx is handed to the media engine
once more, and a duplicate of it is again ignored. -/
theorem reinvite_2xx_applied_once (env : Env) (s : Session) (r1 r2 r3 : Message)
    (res : CallbackResult) (extraHeaders : List String) (offer : String)
    (hs : s.status = .STATUS_CONFIRMED) (hf : s.reinvite2XXResponseReceived = some false)
    (hm : s.rtcMediaHandler = true) (h1 : sdp2xx r1) (h2 : sdp2xx r2) (h3 : sdp2xx r3) :
    newEffects s (receiveReinviteResponse env s r1) = [.onMessage "answer" (r1.body.getD "")] ∧
    receiveReinviteResponse env (receiveReinviteResponse env s r1) r2 =
      receiveReinviteResponse env s r1 ∧
    receiveReinviteResponse env
        (step env (receiveReinviteResponse env s r1) (.callback (.reinviteAnswer r1) res)) r2 =
      step env (receiveReinviteResponse env s r1) (.callback (.reinviteAnswer r1) res) ∧
    (receiveReinviteResponse env s r1).reinvite2XXResponseReceived = some true ∧
    newEffects (receiveReinviteResponse env s r1)
        (step env (receiveReinviteResponse env s r1) (.sendReinvite extraHeaders)) =
      [.createOffer] ∧
    (step env (receiveReinviteResponse env s r1)
      (.sendReinvite extraHeaders)).reinvite2XXResponseReceived = some true ∧
    (step env (receiveReinviteResponse env s r1) (.sendReinvite extraHeaders)).pending =
      (receiveReinviteResponse env s r1).pending ++
        [.reinviteCreateOffer (extraHeaders ++
          ["Contact: " ++ (receiveReinviteResponse env s r1).contact.getD "undefined",
            "Allow: " ++ env.allowedMethods, "Content-Type: application/sdp"])] ∧
    runEnabled env (receiveReinviteResponse env s r1)
        (reinviteAttempt env (receiveReinviteResponse env s r1) extraHeaders offer) =
      some (run env (receiveReinviteResponse env s r1)
        (reinviteAttempt env (receiveReinviteResponse env s r1) extraHeaders offer)) ∧
    (run env (receiveReinviteResponse env s r1)
      (reinviteAttempt env (receiveReinviteResponse env s r1) extraHeaders
        offer)).reinvite2XXResponseReceived = some false ∧
    newEffects
        (run env (receiveReinviteResponse env s r1)
          (reinviteAttempt env (receiveReinviteResponse env s r1) extraHeaders offer))
        (receiveReinviteResponse env
          (run env (receiveReinviteResponse env s r1)
            (reinviteAttempt env (receiveReinviteResponse env s r1) extraHeaders offer)) r3) =
      [.onMessage "answer" (r3.body.getD "")] ∧
    receiveReinviteResponse env
        (receiveReinviteResponse env
          (run env (receiveReinviteResponse env s r1)
            (reinviteAttempt env (receiveReinviteResponse env s r1) extraHeaders offer)) r3) r2 =
      receiveReinviteResponse env
        (run env (receiveReinviteResponse env s r1)
          (reinviteAttempt env (receiveReinviteResponse env s r1) extraHeaders offer)) r3 := by
  have hst : s.status ≠ .STATUS_TERMINATED := by simp [hs]
  have hfl : s.reinvite2XXResponseReceived ≠ some true := by simp [hf]
  obtain ⟨hlog, hflag, hstat, hmh, _⟩ := receiveReinviteResponse_first env s r1 hst hfl hm h1
  generalize receiveReinviteResponse env s r1 = s1 at *
  refine ⟨newEffects_of_log _ _ _ hlog, receiveReinviteResponse_guarded env s1 r2 hflag h2, ?_,
    hflag, ?_⟩
  · apply receiveReinviteResponse_guarded _ _ _ _ h2
    cases res <;>
      simp [step, runCallback, Session.resolve, receiveReinviteResponse_onAnswer,
        receiveReinviteResponse_onAnswerFailure, acceptAndTerminate_reinviteFlag,
        Session.sendRequest, Session.record, hflag]
  · have hre : step env s1 (.sendReinvite extraHeaders) =
        (({ s1 with receiveResponse := .receiveReinviteResponse } : Session).record
          .createOffer).await (.reinviteCreateOffer (extraHeaders ++
            ["Contact: " ++ s1.contact.getD "undefined", "Allow: " ++ env.allowedMethods,
              "Content-Type: application/sdp"])) := by
      simp [step, sendReinvite, hstat, hs, hmh]
    have hrun : run env s1 (reinviteAttempt env s1 extraHeaders offer) =
        step env (step env s1 (.sendReinvite extraHeaders))
          (.callback (.reinviteCreateOffer (extraHeaders ++
            ["Contact: " ++ s1.contact.getD "undefined", "Allow: " ++ env.allowedMethods,
              "Content-Type: application/sdp"])) (.body offer)) := rfl
    have hen : runEnabled env s1 (reinviteAttempt env s1 extraHeaders offer) =
        some (run env s1 (reinviteAttempt env s1 extraHeaders offer)) := by
      rw [hrun]
      simp only [runEnabled, reinviteAttempt, enabled, if_true]
      rw [hre]
      simp [Session.await, Session.record]
    refine ⟨?_, ?_, ?_, hen, ?_⟩
    · rw [hre]
      simp [newEffects, Session.await, Session.record]
    · rw [hre]
      simpa [Session.await, Session.record] using hflag
    · rw [hre]
      simp [Session.await, Session.record]
    · rw [hrun, hre]
      generalize hs3 : step env _ (.callback (.reinviteCreateOffer _) (.body offer)) = s3
      have h3f : s3.reinvite2XXResponseReceived = some false := by
        subst hs3
        simp only [step, runCallback, sendReinvite_onOffer]
        split <;> rfl
      have h3s : s3.status ≠ .STATUS_TERMINATED := by
        subst hs3
        simp only [step, runCallback, sendReinvite_onOffer]
        split <;> simp [Session.record, Session.await, Session.resolve, hstat, hs]
      have h3m : s3.rtcMediaHandler = true := by
        subst hs3
        simp only [step, runCallback, sendReinvite_onOffer]
        split <;> simp [Session.record, Session.await, Session.resolve, hmh]
      obtain ⟨hlog3, hflag3, _, _, _⟩ :=
        receiveReinviteResponse_first env s3 r3 h3s (by simp [h3f]) h3m h3
      exact ⟨h3f, newEffects_of_log _ _ _ hlog3,
        receiveReinviteResponse_guarded env _ r2 hflag3 h2⟩

/-- Witness of C8: the sample confirmed session with its re-INVITE in flight, the same 200
delivered twice, and a second re-INVITE attempt after which the 200 is applied again. -/
theorem reinvite_2xx_applied_once_witness :
    sampleReinviting.status = .STATUS_CONFIRMED ∧
    sampleReinviting.reinvite2XXResponseReceived = some false ∧
    newEffects sampleReinviting (receiveReinviteResponse sampleEnv sampleReinviting sample200) =
      [.onMessage "answer" "v=0"] ∧
    receiveReinviteResponse sampleEnv
        (receiveReinviteResponse sampleEnv sampleReinviting sample200) sample200 =
      receiveReinviteResponse sampleEnv sampleReinviting sample200 ∧
    (run sampleEnv (receiveReinviteResponse sampleEnv sampleReinviting sample200)
      (reinviteAttempt sampleEnv (receiveReinviteResponse sampleEnv sampleReinviting sample200)
        [] "v=2")).reinvite2XXResponseReceived = some false :=
  have h := reinvite_2xx_applied_once sampleEnv sampleReinviting sample200 sample200 sample200
    .success [] "v=2" (by decide) (by decide) (by decide) (by decide) (by decide) (by decide)
  ⟨by decide, by decide, h.1, h.2.1, h.2.2.2.2.2.2.2.2.1⟩

/-! ### Mute -/

theorem setAudioEnabled_twice (a b : Bool) (m : MediaStream) :
    MediaStream.setAudioEnabled a (MediaStream.setAudioEnabled b m) =
      MediaStream.setAudioEnabled a m := by
  simp only [MediaStream.setAudioEnabled, List.map_map, MediaStream.mk.injEq, true_and]
  apply List.map_congr_left
  intro t _
  by_cases h : t.kind = .audio <;> simp [h]

theorem setAudioEnabled_of_consistent (a : Bool) (m : MediaStream)
    (h : ∀ t ∈ m.tracks, t.kind = .audio → t.enabled = a) :
    MediaStream.setAudioEnabled a m = m := by
  cases m with
  | mk id tracks =>
    simp only [MediaStream.setAudioEnabled, MediaStream.mk.injEq, true_and]
    conv_rhs => rw [← List.map_id tracks]
    apply List.map_congr_left
    intro t ht
    by_cases hk : t.kind = .audio
    · have := h t ht hk
      cases t
      simp_all
    · simp [hk]

/-- C9 (amended): for every session state, two calls of `toggleMute()` return `muted` to its
value before the calls and leave every audio track of every local stream with `enabled =
!muted`; that is the value the track had before the calls whenever the audio tracks agreed
with `muted` beforehand. The two events are `muted` then `unmuted` when the session was not
muted beforehand, and `unmuted` then `muted` when it was. -/
theorem toggleMute_twice (s : Session) :
    (toggleMute (toggleMute s)).muted = s.muted ∧
    (toggleMute (toggleMute s)).localMediaStreams =
      s.localMediaStreams.map (MediaStream.setAudioEnabled (!s.muted)) ∧
    ((∀ m ∈ s.localMediaStreams, ∀ t ∈ m.tracks, t.kind = .audio → t.enabled = !s.muted) →
      (toggleMute (toggleMute s)).localMediaStreams = s.localMediaStreams) ∧
    newEffects s (toggleMute (toggleMute s)) =
      (if s.muted then [.emit .unmuted none none, .emit .muted none none]
       else [.emit .muted none none, .emit .unmuted none none]) := by
  have hstreams : (toggleMute (toggleMute s)).localMediaStreams =
      s.localMediaStreams.map (MediaStream.setAudioEnabled (!s.muted)) := by
    cases hm : s.muted <;>
      simp [toggleMute, hm, Session.emit, Session.record, List.map_map, Function.comp_def,
        setAudioEnabled_twice]
  refine ⟨?_, hstreams, ?_, ?_⟩
  · cases hm : s.muted <;> simp [toggleMute, hm, Session.emit, Session.record]
  · intro h
    rw [hstreams]
    conv_rhs => rw [← List.map_id s.localMediaStreams]
    apply List.map_congr_left
    intro m hmem
    exact setAudioEnabled_of_consistent _ m (h m hmem)
  · apply newEffects_of_log
    cases hm : s.muted <;> simp [toggleMute, hm, Session.emit, Session.record]

/-- Counterexample to C9 as stated: a call is muted while the microphone permission is still
pending, then the stream arrives, so the session is muted and its audio track is enabled. Two
calls of `toggleMute()` leave the audio track disabled, not enabled as before, and the events
are `unmuted` then `muted`. -/
theorem toggleMute_twice_when_muted :
    (runEnabled sampleEnv (Session.create []) mutedBeforeMedia).map
      (fun s => (s.muted, s.localMediaStreams.map MediaStream.tracks,
        (toggleMute (toggleMute s)).localMediaStreams.map MediaStream.tracks,
        newEffects s (toggleMute (toggleMute s)))) =
      some (true, [[⟨"audio1", .audio, true⟩, ⟨"video1", .video, true⟩]],
        [[⟨"audio1", .audio, false⟩, ⟨"video1", .video, true⟩]],
        [.emit .unmuted none none, .emit .muted none none]) := by
  decide

/-! ### The dialogs of a session -/

theorem DialogInv.neutral {s t : Session} (h : DialogInv s) (hd : t.dialog = s.dialog)
    (he : t.earlyDialogs = s.earlyDialogs) (hn : s.nextDialog ≤ t.nextDialog)
    (hl : dialogLog t = dialogLog s)
    (hs : t.status = .STATUS_TERMINATED → s.status = .STATUS_TERMINATED) : DialogInv t := by
  have hes : earlySerials t = earlySerials s := by simp [earlySerials, he]
  constructor
  · intro e hmem n hn'
    rw [hl] at hmem
    exact Nat.lt_of_lt_of_le (h.fresh e hmem n hn') hn
  · intro n hmem
    rw [hes] at hmem
    exact Nat.lt_of_lt_of_le (h.earlyLt n hmem) hn
  · rw [he]; exact h.keys
  · rw [hes]; exact h.serials
  · intro n hmem
    rw [hes] at hmem
    rw [hl]
    exact h.earlyFresh n hmem
  · intro d hdd
    rw [hd] at hdd
    rw [hl, hes]
    obtain ⟨h1, h2, h3⟩ := h.dlg d hdd
    exact ⟨Nat.lt_of_lt_of_le h1 hn, h2, h3⟩
  · intro n hmem
    rw [hl] at hmem ⊢
    rw [hes]
    exact h.ledger n hmem
  · intro hst
    rw [he]
    exact h.closed (hs hst)

theorem dialogLog_close (s : Session) (h : s.status ≠ .STATUS_TERMINATED) :
    dialogLog (close s) = dialogLog s ++
      (match s.dialog with
        | some d => [Effect.dialogTerminate d.serial]
        | none => []) ++ (earlySerials s).map Effect.dialogTerminate := by
  rw [close_eq s h]
  simp only [dialogLog, closeEffects, if_neg h, List.filter_append, earlySerials, List.map_map]
  cases s.rtcMediaHandler <;> cases s.localMediaStream <;> cases s.dialog <;>
    simp [List.filter_map, Effect.dialogSerial, Function.comp_def, List.filter_eq_nil_iff]


theorem count_terminate_map (n : Nat) (l : List Nat) :
    (l.map Effect.dialogTerminate).count (.dialogTerminate n) = l.count n := by
  apply List.count_map_of_injective
  intro a b hab
  cases hab
  rfl

theorem count_update_map (n : Nat) (l : List Nat) :
    (l.map Effect.dialogTerminate).count (.dialogUpdate n) = 0 := by
  rw [List.count_eq_zero]
  simp

theorem DialogInv.close {s : Session} (h : DialogInv s) : DialogInv (close s) := by
  by_cases hst : s.status = .STATUS_TERMINATED
  · rw [close_of_terminated s hst]
    exact h
  have hlog := dialogLog_close s hst
  have hearly : (JsSIP.close s).earlyDialogs = [] := by rw [close_eq s hst]
  have hdlg : (JsSIP.close s).dialog = none := by rw [close_eq s hst]
  have hnext : (JsSIP.close s).nextDialog = s.nextDialog := by rw [close_eq s hst]
  have hes : earlySerials (JsSIP.close s) = [] := by simp [earlySerials, hearly]
  constructor
  · intro e hmem n hn
    rw [hnext]
    rw [hlog] at hmem
    simp only [List.mem_append, List.mem_map] at hmem
    rcases hmem with (hmem | hmem) | ⟨m, hm, rfl⟩
    · exact h.fresh e hmem n hn
    · cases hd : s.dialog with
      | none => simp [hd] at hmem
      | some d =>
        simp [hd] at hmem
        subst hmem
        simp [Effect.dialogSerial] at hn
        subst hn
        exact (h.dlg d hd).1
    · simp [Effect.dialogSerial] at hn
      subst hn
      exact h.earlyLt _ hm
  · intro n hmem
    simp [hes] at hmem
  · simp [hearly]
  · simp [hes]
  · intro n hmem
    simp [hes] at hmem
  · intro d hd
    simp [hdlg] at hd
  · intro n hmem
    rw [hlog] at hmem ⊢
    have hold : Effect.dialogCreated n true ∈ dialogLog s := by
      simp only [List.mem_append, List.mem_map] at hmem
      rcases hmem with (hmem | hmem) | ⟨m, _, hm⟩
      · exact hmem
      · cases hd : s.dialog <;> simp [hd] at hmem
      · cases hm
    have hup : ((dialogLog s ++ (match s.dialog with
        | some d => [Effect.dialogTerminate d.serial]
        | none => [])) ++ (earlySerials s).map Effect.dialogTerminate).count (.dialogUpdate n) =
        (dialogLog s).count (.dialogUpdate n) := by
      rw [List.count_append, List.count_append, count_update_map]
      cases s.dialog <;> simp
    have hterm : ((dialogLog s ++ (match s.dialog with
        | some d => [Effect.dialogTerminate d.serial]
        | none => [])) ++ (earlySerials s).map Effect.dialogTerminate).count
          (.dialogTerminate n) =
        (dialogLog s).count (.dialogTerminate n) +
          (match s.dialog with
            | some d => if d.serial = n then 1 else 0
            | none => 0) + (earlySerials s).count n := by
      rw [List.count_append, List.count_append, count_terminate_map]
      cases s.dialog with
      | none => simp
      | some d =>
        by_cases hdn : d.serial = n <;> simp [hdn, List.count_singleton]
    rw [hup, hterm, hes]
    right
    rcases h.ledger n hold with hin | ⟨h1, h2⟩ | ⟨h1, h2⟩
    · right
      obtain ⟨h1, h2⟩ := h.earlyFresh n hin
      have hc : (earlySerials s).count n = 1 := List.count_eq_one_of_mem h.serials hin
      refine ⟨h1, ?_⟩
      rw [h2, hc]
      cases hd : s.dialog with
      | none => simp
      | some d =>
        have hne : d.serial ≠ n := by
          intro heq
          exact (h.dlg d hd).2.2 (heq ▸ hin)
        simp [hne]
    · left
      have hnot : n ∉ earlySerials s := by
        intro hin
        have := (h.earlyFresh n hin).1
        omega
      have hc : (earlySerials s).count n = 0 := List.count_eq_zero.mpr hnot
      refine ⟨h1, ?_⟩
      rw [hc]
      cases hd : s.dialog with
      | none => simpa using h2
      | some d =>
        by_cases hdn : d.serial = n
        · have := (h.dlg d hd).2.1
          rw [hdn] at this
          simp [hdn, this]
        · simpa [hdn] using h2
    · right
      have hnot : n ∉ earlySerials s := by
        intro hin
        have := (h.earlyFresh n hin).2
        omega
      have hc : (earlySerials s).count n = 0 := List.count_eq_zero.mpr hnot
      refine ⟨h1, ?_⟩
      rw [hc, h2]
      cases hd : s.dialog with
      | none => simp
      | some d =>
        have hne : d.serial ≠ n := by
          intro heq
          have := (h.dlg d hd).2.1
          rw [heq] at this
          omega
        simp [hne]
  · intro _
    exact hearly


theorem lookupDialog_eq_none (l : List (String × Dialog)) (id : String)
    (h : lookupDialog l id = none) : id ∉ l.map Prod.fst := by
  induction l with
  | nil => simp
  | cons hd tl ih =>
    simp only [lookupDialog, List.find?_cons] at h
    by_cases hk : hd.1 = id
    · simp [hk] at h
    · have hk' : (hd.1 == id) = false := by simpa using hk
      simp only [hk'] at h
      have := ih (by simpa [lookupDialog] using h)
      simp only [List.map_cons, List.mem_cons, not_or]
      exact ⟨fun heq => hk heq.symm, this⟩

theorem storeDialog_of_absent (l : List (String × Dialog)) (id : String) (d : Dialog)
    (h : lookupDialog l id = none) : storeDialog l id d = l ++ [(id, d)] := by
  simp [storeDialog, h]

theorem deleteDialog_of_absent (l : List (String × Dialog)) (id : String)
    (h : id ∉ l.map Prod.fst) : deleteDialog l id = l := by
  simp only [deleteDialog, List.filter_eq_self]
  intro e he
  have : e.1 ≠ id := by
    intro heq
    exact h (heq ▸ List.mem_map_of_mem Prod.fst he)
  simpa using this

theorem lookupDialog_split (l : List (String × Dialog)) (id : String) (d : Dialog)
    (h : lookupDialog l id = some d) (hk : (l.map Prod.fst).Nodup) :
    ∃ l1 l2, l = l1 ++ (id, d) :: l2 ∧ deleteDialog l id = l1 ++ l2 := by
  induction l with
  | nil => simp [lookupDialog] at h
  | cons hd tl ih =>
    simp only [List.map_cons, List.nodup_cons] at hk
    by_cases hkey : hd.1 = id
    · have hd' : hd = (id, d) := by
        simp only [lookupDialog, List.find?_cons, hkey, beq_self_eq_true, Option.map_some',
          Option.some.injEq] at h
        cases hd
        simp_all
      refine ⟨[], tl, by simp [hd'], ?_⟩
      have habs : id ∉ tl.map Prod.fst := hkey ▸ hk.1
      have := deleteDialog_of_absent tl id habs
      simp only [deleteDialog] at this
      simp [deleteDialog, hd', this]
    · have hk' : (hd.1 == id) = false := by simpa using hkey
      have h' : lookupDialog tl id = some d := by
        simpa [lookupDialog, List.find?_cons, hk'] using h
      obtain ⟨l1, l2, h1, h2⟩ := ih h' hk.2
      refine ⟨hd :: l1, l2, by simp [h1], ?_⟩
      simp only [deleteDialog] at h2
      simp [deleteDialog, hkey, h2]

theorem construct_serial (n : Nat) (m : Message) (ty : DialogType) (e : Bool) (d : Dialog)
    (h : Dialog.construct n m ty e = some d) : d.serial = n := by
  unfold Dialog.construct at h
  split at h
  · cases h
    rfl
  · cases h

theorem dialogLog_record (s : Session) (e : Effect) :
    dialogLog (s.record e) = dialogLog s ++ (if e.dialogSerial.isSome then [e] else []) := by
  simp only [dialogLog, Session.record, List.filter_append]
  cases h : e.dialogSerial.isSome <;> simp [h]

theorem DialogInv.emit {s : Session} (h : DialogInv s) (name : EventName)
    (o : Option Originator) (c : Option Cause) : DialogInv (s.emit name o c) :=
  h.neutral rfl rfl (Nat.le_refl _) (by simp [Session.emit, dialogLog_record, Effect.dialogSerial])
    (fun hs => hs)

theorem DialogInv.failed {s : Session} (h : DialogInv s) (o : Originator) (c : Cause) :
    DialogInv (failed s o c) :=
  h.close.emit _ _ _

theorem DialogInv.ended {s : Session} (h : DialogInv s) (o : Originator) (c : Cause) :
    DialogInv (ended s o c) :=
  h.close.emit _ _ _


theorem count_zero_of_fresh {s : Session} (h : DialogInv s) (e : Effect)
    (he : e.dialogSerial = some s.nextDialog) : (dialogLog s).count e = 0 := by
  rw [List.count_eq_zero]
  intro hmem
  exact Nat.lt_irrefl _ (h.fresh e hmem _ he)

theorem DialogInv.store {s t : Session} (h : DialogInv s) (id : String) (d : Dialog)
    (hid : id ∉ s.earlyDialogs.map Prod.fst) (hser : d.serial = s.nextDialog)
    (hst : s.status ≠ .STATUS_TERMINATED) (hd : t.dialog = s.dialog)
    (he : t.earlyDialogs = s.earlyDialogs ++ [(id, d)]) (hn : t.nextDialog = s.nextDialog + 1)
    (hl : dialogLog t = dialogLog s ++ [.dialogCreated d.serial true])
    (hs : t.status = s.status) : DialogInv t := by
  have hes : earlySerials t = earlySerials s ++ [s.nextDialog] := by
    simp [earlySerials, he, hser]
  have hnotin : s.nextDialog ∉ earlySerials s := fun hin => Nat.lt_irrefl _ (h.earlyLt _ hin)
  have hcu : ∀ n, (dialogLog t).count (.dialogUpdate n) = (dialogLog s).count (.dialogUpdate n) := by
    intro n; simp [hl, List.count_append, List.count_singleton]
  have hct : ∀ n, (dialogLog t).count (.dialogTerminate n) =
      (dialogLog s).count (.dialogTerminate n) := by
    intro n; simp [hl, List.count_append, List.count_singleton]
  constructor
  · intro e hmem n hn'
    rw [hn]
    rw [hl] at hmem
    simp only [List.mem_append, List.mem_singleton] at hmem
    rcases hmem with hmem | rfl
    · exact Nat.lt_succ_of_lt (h.fresh e hmem n hn')
    · simp [Effect.dialogSerial, hser] at hn'
      omega
  · intro n hmem
    rw [hn]
    rw [hes] at hmem
    simp only [List.mem_append, List.mem_singleton] at hmem
    rcases hmem with hmem | rfl
    · exact Nat.lt_succ_of_lt (h.earlyLt n hmem)
    · omega
  · rw [he]
    simp only [List.map_append, List.map_cons, List.map_nil]
    rw [List.nodup_append]
    refine ⟨h.keys, by simp, ?_⟩
    intro a ha hb
    simp at hb
    exact hid (hb ▸ ha)
  · rw [hes, List.nodup_append]
    refine ⟨h.serials, by simp, ?_⟩
    intro a ha hb
    simp at hb
    exact hnotin (hb ▸ ha)
  · intro n hmem
    rw [hcu, hct]
    rw [hes] at hmem
    simp only [List.mem_append, List.mem_singleton] at hmem
    rcases hmem with hmem | rfl
    · exact h.earlyFresh n hmem
    · exact ⟨count_zero_of_fresh h _ rfl, count_zero_of_fresh h _ rfl⟩
  · intro d' hd'
    rw [hd] at hd'
    obtain ⟨h1, h2, h3⟩ := h.dlg d' hd'
    rw [hct, hn, hes]
    refine ⟨Nat.lt_succ_of_lt h1, h2, ?_⟩
    simp only [List.mem_append, List.mem_singleton, not_or]
    exact ⟨h3, by omega⟩
  · intro n hmem
    rw [hcu, hct, hes]
    rw [hl] at hmem
    simp only [List.mem_append, List.mem_singleton] at hmem
    rcases hmem with hmem | hmem
    · rcases h.ledger n hmem with h1 | h1 | h1
      · exact Or.inl (List.mem_append_left _ h1)
      · exact Or.inr (Or.inl h1)
      · exact Or.inr (Or.inr h1)
    · left
      cases hmem
      simp [hser]
  · intro hterm
    rw [hs] at hterm
    exact absurd hterm hst

theorem DialogInv.install {s t : Session} (h : DialogInv s) (d : Dialog)
    (hser : d.serial = s.nextDialog) (hd : t.dialog = some d)
    (he : t.earlyDialogs = s.earlyDialogs) (hn : t.nextDialog = s.nextDialog + 1)
    (hl : dialogLog t = dialogLog s ++ [.dialogCreated d.serial false])
    (hs : t.status = s.status) : DialogInv t := by
  have hes : earlySerials t = earlySerials s := by simp [earlySerials, he]
  have hnotin : s.nextDialog ∉ earlySerials s := fun hin => Nat.lt_irrefl _ (h.earlyLt _ hin)
  have hcu : ∀ n, (dialogLog t).count (.dialogUpdate n) = (dialogLog s).count (.dialogUpdate n) := by
    intro n; simp [hl, List.count_append, List.count_singleton]
  have hct : ∀ n, (dialogLog t).count (.dialogTerminate n) =
      (dialogLog s).count (.dialogTerminate n) := by
    intro n; simp [hl, List.count_append, List.count_singleton]
  constructor
  · intro e hmem n hn'
    rw [hn]
    rw [hl] at hmem
    simp only [List.mem_append, List.mem_singleton] at hmem
    rcases hmem with hmem | rfl
    · exact Nat.lt_succ_of_lt (h.fresh e hmem n hn')
    · simp [Effect.dialogSerial, hser] at hn'
      omega
  · intro n hmem
    rw [hn]
    rw [hes] at hmem
    exact Nat.lt_succ_of_lt (h.earlyLt n hmem)
  · rw [he]; exact h.keys
  · rw [hes]; exact h.serials
  · intro n hmem
    rw [hcu, hct]
    rw [hes] at hmem
    exact h.earlyFresh n hmem
  · intro d' hd'
    rw [hd] at hd'
    cases hd'
    rw [hct, hn, hes, hser]
    exact ⟨Nat.lt_succ_self _, count_zero_of_fresh h _ rfl, hnotin⟩
  · intro n hmem
    rw [hcu, hct, hes]
    rw [hl] at hmem
    simp only [List.mem_append, List.mem_singleton, Effect.dialogCreated.injEq,
      Bool.true_eq_false, and_false, or_false] at hmem
    exact h.ledger n hmem
  · intro hterm
    rw [hs] at hterm
    rw [he]
    exact h.closed hterm


theorem DialogInv.promote {s t : Session} (h : DialogInv s) (id : String) (d d' : Dialog)
    (l1 l2 : List (String × Dialog)) (hsplit : s.earlyDialogs = l1 ++ (id, d) :: l2)
    (hser : d'.serial = d.serial) (hd : t.dialog = some d') (he : t.earlyDialogs = l1 ++ l2)
    (hn : t.nextDialog = s.nextDialog)
    (hl : dialogLog t = dialogLog s ++ [.dialogUpdate d.serial])
    (hs : t.status = s.status) : DialogInv t := by
  have hes0 : earlySerials s =
      l1.map (fun e => e.2.serial) ++ d.serial :: l2.map (fun e => e.2.serial) := by
    simp [earlySerials, hsplit]
  have hes : earlySerials t = l1.map (fun e => e.2.serial) ++ l2.map (fun e => e.2.serial) := by
    simp [earlySerials, he]
  have hnd := h.serials
  rw [hes0, List.nodup_middle, List.nodup_cons] at hnd
  have hdin : d.serial ∈ earlySerials s := by simp [hes0]
  have hsub : ∀ n ∈ earlySerials t, n ∈ earlySerials s ∧ n ≠ d.serial := by
    intro n hmem
    rw [hes] at hmem
    refine ⟨?_, fun heq => hnd.1 (heq ▸ hmem)⟩
    rw [hes0]
    simp only [List.mem_append, List.mem_cons] at hmem ⊢
    rcases hmem with hm | hm
    · exact Or.inl hm
    · exact Or.inr (Or.inr hm)
  have hcu : ∀ n, (dialogLog t).count (.dialogUpdate n) =
      (dialogLog s).count (.dialogUpdate n) + (if d.serial = n then 1 else 0) := by
    intro n
    by_cases hdn : d.serial = n <;> simp [hl, List.count_append, List.count_singleton, hdn]
  have hct : ∀ n, (dialogLog t).count (.dialogTerminate n) =
      (dialogLog s).count (.dialogTerminate n) := by
    intro n; simp [hl, List.count_append, List.count_singleton]
  constructor
  · intro e hmem n hn'
    rw [hn]
    rw [hl] at hmem
    simp only [List.mem_append, List.mem_singleton] at hmem
    rcases hmem with hmem | rfl
    · exact h.fresh e hmem n hn'
    · simp [Effect.dialogSerial] at hn'
      subst hn'
      exact h.earlyLt _ hdin
  · intro n hmem
    rw [hn]
    exact h.earlyLt n (hsub n hmem).1
  · have hk := h.keys
    rw [hsplit] at hk
    simp only [List.map_append, List.map_cons] at hk
    rw [List.nodup_middle, List.nodup_cons] at hk
    rw [he]
    simpa using hk.2
  · rw [hes]
    exact hnd.2
  · intro n hmem
    obtain ⟨h1, h2⟩ := hsub n hmem
    rw [hcu, hct]
    have := h.earlyFresh n h1
    simp [this, Ne.symm h2]
  · intro d'' hd''
    rw [hd] at hd''
    cases hd''
    rw [hct, hn, hser]
    refine ⟨h.earlyLt _ hdin, (h.earlyFresh _ hdin).2, ?_⟩
    rw [hes]
    exact hnd.1
  · intro n hmem
    rw [hcu, hct]
    rw [hl] at hmem
    simp only [List.mem_append, List.mem_singleton, reduceCtorEq, or_false] at hmem
    by_cases hdn : d.serial = n
    · subst hdn
      right; left
      have := h.earlyFresh _ hdin
      simp [this]
    · simp only [hdn, if_false, Nat.add_zero]
      rcases h.ledger n hmem with h1 | h1 | h1
      · left
        rw [hes]
        rw [hes0] at h1
        simp only [List.mem_append, List.mem_cons] at h1 ⊢
        rcases h1 with h1 | h1 | h1
        · exact Or.inl h1
        · exact absurd h1.symm hdn
        · exact Or.inr h1
      · exact Or.inr (Or.inl h1)
      · exact Or.inr (Or.inr h1)
  · intro hterm
    rw [hs] at hterm
    have := h.closed hterm
    rw [hsplit] at this
    simp at this

theorem DialogInv.createDialog {s : Session} (h : DialogInv s) (m : Message) (ty : DialogType)
    (early : Bool) (hst : early = true → s.status ≠ .STATUS_TERMINATED) :
    DialogInv (createDialog s m ty early).2 := by
  have hbump : DialogInv { s with nextDialog := s.nextDialog + 1 } :=
    h.neutral rfl rfl (Nat.le_succ _) rfl (fun hs => hs)
  unfold JsSIP.createDialog
  simp only
  split
  · rename_i hearly
    split
    · exact h
    · rename_i hlook
      split
      · rename_i d hcons
        have hser := construct_serial _ _ _ _ _ hcons
        refine h.store _ d (lookupDialog_eq_none _ _ hlook) hser (hst hearly) rfl ?_ rfl ?_ rfl
        · simp [storeDialog_of_absent _ _ _ hlook]
        · simp [dialogLog, List.filter_append, Effect.dialogSerial]
      · exact hbump.failed _ _
  · split
    · rename_i d hlook
      obtain ⟨l1, l2, h1, h2⟩ := lookupDialog_split _ _ _ hlook h.keys
      refine h.promote _ d (d.update m ty) l1 l2 h1 rfl rfl ?_ rfl ?_ rfl
      · simpa using h2
      · simp [dialogLog, List.filter_append, Effect.dialogSerial]
    · split
      · rename_i d hcons
        have hser := construct_serial _ _ _ _ _ hcons
        refine h.install d hser rfl rfl rfl ?_ rfl
        simp [dialogLog, List.filter_append, Effect.dialogSerial]
      · exact hbump.failed _ _


theorem DialogInv.record {s : Session} (h : DialogInv s) (e : Effect)
    (he : e.dialogSerial = none) : DialogInv (s.record e) :=
  h.neutral rfl rfl (Nat.le_refl _) (by simp [dialogLog_record, he]) (fun hs => hs)

theorem DialogInv.reply {s : Session} (h : DialogInv s) (request : Message) (code : Nat)
    (reason : Option String) (hdrs : List String) (body : Option String) :
    DialogInv (s.reply request code reason hdrs body) :=
  h.record _ rfl

theorem DialogInv.sendRequest {s : Session} (h : DialogInv s) (method : Method)
    (hdrs : List String) (body : Option String) : DialogInv (s.sendRequest method hdrs body) :=
  h.record _ rfl

theorem DialogInv.cancel {s : Session} (h : DialogInv s) (reason : Option String) :
    DialogInv (s.cancel reason) :=
  h.record _ rfl

theorem DialogInv.await {s : Session} (h : DialogInv s) (cb : Callback) :
    DialogInv (s.await cb) :=
  h.neutral rfl rfl (Nat.le_refl _) rfl (fun hs => hs)

theorem DialogInv.resolve {s : Session} (h : DialogInv s) (cb : Callback) :
    DialogInv (s.resolve cb) :=
  h.neutral rfl rfl (Nat.le_refl _) rfl (fun hs => hs)

theorem DialogInv.expire {s : Session} (h : DialogInv s) (handle : Nat) :
    DialogInv (s.expire handle) :=
  h.neutral rfl rfl (Nat.le_refl _) rfl (fun hs => hs)

theorem DialogInv.setTimeout {s : Session} (h : DialogInv s) (slot : TimerSlot)
    (action : TimerAction) (delay : Nat) : DialogInv (s.setTimeout slot action delay) :=
  h.neutral rfl rfl (Nat.le_refl _)
    (by simp [dialogLog, Session.setTimeout, List.filter_append, Effect.dialogSerial])
    (fun hs => hs)

theorem DialogInv.clearTimeout {s : Session} (h : DialogInv s) (slot : TimerSlot) :
    DialogInv (s.clearTimeout slot) :=
  h.neutral rfl rfl (Nat.le_refl _)
    (by simp [dialogLog, Session.clearTimeout, List.filter_append, Effect.dialogSerial])
    (fun hs => hs)

theorem DialogInv.started {s : Session} (h : DialogInv s) (o : Originator) :
    DialogInv (started s o) :=
  h.emit _ _ _

theorem DialogInv.progress {s : Session} (h : DialogInv s) (o : Originator) :
    DialogInv (progress s o) :=
  h.emit _ _ _

theorem DialogInv.newRTCSession {s : Session} (h : DialogInv s) (o : Originator) :
    DialogInv (newRTCSession s o) := by
  unfold JsSIP.newRTCSession
  cases o
  · exact (h.neutral (t := { s with direction := some .outgoing }) rfl rfl (Nat.le_refl _) rfl
      (fun hs => hs)).record _ rfl
  · exact (h.neutral (t := { s with direction := some .incoming }) rfl rfl (Nat.le_refl _) rfl
      (fun hs => hs)).record _ rfl
  · exact h.record _ rfl

theorem DialogInv.acceptAndTerminate {s : Session} (h : DialogInv s) (env : Env)
    (response : Message) (code : Option Nat) (reason : Option String) :
    DialogInv (acceptAndTerminate env s response code reason) := by
  unfold JsSIP.acceptAndTerminate
  simp only
  split
  · exact (h.sendRequest _ _ _).sendRequest _ _ _
  · have hc := h.createDialog response .UAC false (by simp)
    split
    · rename_i heq
      rw [heq] at hc
      exact (hc.sendRequest _ _ _).sendRequest _ _ _
    · rename_i heq
      rw [heq] at hc
      exact hc


theorem DialogInv.setWaitingForAnswer {s : Session} (h : DialogInv s) :
    DialogInv  { s with status := .STATUS_WAITING_FOR_ANSWER } :=
  h.neutral rfl rfl (Nat.le_refl _) rfl (fun hs => by cases hs)

theorem DialogInv.setWaitingForAck {s : Session} (h : DialogInv s) :
    DialogInv  { s with status := .STATUS_WAITING_FOR_ACK } :=
  h.neutral rfl rfl (Nat.le_refl _) rfl (fun hs => by cases hs)

theorem DialogInv.setCanceledStatus {s : Session} (h : DialogInv s) :
    DialogInv  { s with status := .STATUS_CANCELED } :=
  h.neutral rfl rfl (Nat.le_refl _) rfl (fun hs => by cases hs)

theorem DialogInv.setConfirmed {s : Session} (h : DialogInv s) :
    DialogInv  { s with status := .STATUS_CONFIRMED } :=
  h.neutral rfl rfl (Nat.le_refl _) rfl (fun hs => by cases hs)

theorem DialogInv.setProvisional {s : Session} (h : DialogInv s) :
    DialogInv  { s with status := .STATUS_1XX_RECEIVED } :=
  h.neutral rfl rfl (Nat.le_refl _) rfl (fun hs => by cases hs)

theorem DialogInv.setRequestSent {s : Session} (h : DialogInv s) (r : Option Message) :
    DialogInv { s with request := r, status := .STATUS_INVITE_SENT } :=
  h.neutral rfl rfl (Nat.le_refl _) rfl (fun hs => by cases hs)

theorem DialogInv.setCanceled {s : Session} (h : DialogInv s) (r : Option String) :
    DialogInv { s with isCanceled := true, cancelReason := r } :=
  h.neutral rfl rfl (Nat.le_refl _) rfl (fun hs => hs)

theorem DialogInv.setMuted {s : Session} (h : DialogInv s) :
    DialogInv { s with muted := !s.muted } :=
  h.neutral rfl rfl (Nat.le_refl _) rfl (fun hs => hs)

theorem DialogInv.mapLocalStreams {s : Session} (h : DialogInv s) (f : MediaStream → MediaStream) :
    DialogInv { s with localMediaStreams := s.localMediaStreams.map f } :=
  h.neutral rfl rfl (Nat.le_refl _) rfl (fun hs => hs)

theorem DialogInv.pushLocalStream {s : Session} (h : DialogInv s) (m : MediaStream) :
    DialogInv { s with localMediaStreams := s.localMediaStreams ++ [m] } :=
  h.neutral rfl rfl (Nat.le_refl _) rfl (fun hs => hs)

theorem DialogInv.pushRemoteStream {s : Session} (h : DialogInv s) (m : MediaStream) :
    DialogInv { s with remoteMediaStreams := s.remoteMediaStreams ++ [m] } :=
  h.neutral rfl rfl (Nat.le_refl _) rfl (fun hs => hs)

theorem DialogInv.eraseLocalStream {s : Session} (h : DialogInv s) (m : MediaStream) :
    DialogInv { s with localMediaStreams := s.localMediaStreams.erase m } :=
  h.neutral rfl rfl (Nat.le_refl _) rfl (fun hs => hs)

theorem DialogInv.eraseRemoteStream {s : Session} (h : DialogInv s) (m : MediaStream) :
    DialogInv { s with remoteMediaStreams := s.remoteMediaStreams.erase m } :=
  h.neutral rfl rfl (Nat.le_refl _) rfl (fun hs => hs)

theorem DialogInv.setReceiveInvite {s : Session} (h : DialogInv s) :
    DialogInv { s with receiveResponse := .receiveInviteResponse } :=
  h.neutral rfl rfl (Nat.le_refl _) rfl (fun hs => hs)

theorem DialogInv.setReceiveReinvite {s : Session} (h : DialogInv s) :
    DialogInv { s with receiveResponse := .receiveReinviteResponse } :=
  h.neutral rfl rfl (Nat.le_refl _) rfl (fun hs => hs)

theorem DialogInv.setReinviteApplied {s : Session} (h : DialogInv s) :
    DialogInv { s with reinvite2XXResponseReceived := some true } :=
  h.neutral rfl rfl (Nat.le_refl _) rfl (fun hs => hs)

theorem DialogInv.setReinviteArmed {s : Session} (h : DialogInv s) :
    DialogInv { s with reinvite2XXResponseReceived := some false } :=
  h.neutral rfl rfl (Nat.le_refl _) rfl (fun hs => hs)

theorem DialogInv.setMediaHandler {s : Session} (h : DialogInv s) :
    DialogInv { s with rtcMediaHandler := true } :=
  h.neutral rfl rfl (Nat.le_refl _) rfl (fun hs => hs)

theorem DialogInv.setReceived100 {s : Session} (h : DialogInv s) :
    DialogInv { s with received_100 := true } :=
  h.neutral rfl rfl (Nat.le_refl _) rfl (fun hs => hs)

theorem DialogInv.initIncomingParams {s : Session} (h : DialogInv s) (env : Env)
    (request : Message) : DialogInv (initIncomingParams env s request) :=
  h.neutral rfl rfl (Nat.le_refl _) rfl (fun hs => by cases hs)

theorem DialogInv.connectParams {s : Session} (h : DialogInv s) (env : Env)
    (options : ConnectOptions) (newTag callId : String) (hdrs : List String) :
    DialogInv (connectParams env s options newTag callId hdrs) :=
  h.neutral rfl rfl (Nat.le_refl _)
    (by simp [dialogLog, JsSIP.connectParams, List.filter_append, Effect.dialogSerial])
    (fun hs => hs)

theorem DialogInv.fst {α : Type} {s : Session} {a : α} (h : DialogInv s) :
    DialogInv (s, a).1 :=
  h

theorem DialogInv.terminate {s : Session} (h : DialogInv s) (env : Env)
    (options : TerminateOptions) :
    DialogInv ((terminate env s options).1) := by
  unfold JsSIP.terminate
  conv => zeta
  repeat' split
  all_goals try apply DialogInv.fst
  all_goals first
    | exact h
    | apply_rules [DialogInv.close, DialogInv.failed, DialogInv.ended, DialogInv.reply,
          DialogInv.sendRequest, DialogInv.cancel, DialogInv.setCanceled]

theorem DialogInv.toggleMute {s : Session} (h : DialogInv s) :
    DialogInv (toggleMute s) := by
  unfold JsSIP.toggleMute
  conv => zeta
  repeat' split
  all_goals try apply DialogInv.fst
  all_goals first
    | exact h
    | apply_rules [DialogInv.emit, DialogInv.setMuted, DialogInv.mapLocalStreams]

theorem DialogInv.mediaStreamAdded {s : Session} (h : DialogInv s) (o : Originator)
    (m : MediaStream) :
    DialogInv (mediaStreamAdded s o m) := by
  unfold JsSIP.mediaStreamAdded
  conv => zeta
  repeat' split
  all_goals try apply DialogInv.fst
  all_goals first
    | exact h
    | apply_rules [DialogInv.emit, DialogInv.pushLocalStream, DialogInv.pushRemoteStream]

theorem DialogInv.mediaStreamRemoved {s : Session} (h : DialogInv s) (o : Originator)
    (m : MediaStream) :
    DialogInv (mediaStreamRemoved s o m) := by
  unfold JsSIP.mediaStreamRemoved
  conv => zeta
  repeat' split
  all_goals try apply DialogInv.fst
  all_goals first
    | exact h
    | apply_rules [DialogInv.emit, DialogInv.record, DialogInv.eraseLocalStream,
          DialogInv.eraseRemoteStream]

theorem DialogInv.sendReinvite {s : Session} (h : DialogInv s) (env : Env) (hdrs : List String) :
    DialogInv ((sendReinvite env s hdrs).1) := by
  unfold JsSIP.sendReinvite
  conv => zeta
  repeat' split
  all_goals try apply DialogInv.fst
  all_goals first
    | exact h
    | apply_rules [DialogInv.await, DialogInv.record, DialogInv.setReceiveReinvite]

theorem DialogInv.onTransportError {s : Session} (h : DialogInv s) :
    DialogInv (onTransportError s) := by
  unfold JsSIP.onTransportError
  conv => zeta
  repeat' split
  all_goals try apply DialogInv.fst
  all_goals first
    | exact h
    | apply_rules [DialogInv.failed, DialogInv.ended]

theorem DialogInv.onRequestTimeout {s : Session} (h : DialogInv s) :
    DialogInv (onRequestTimeout s) := by
  unfold JsSIP.onRequestTimeout
  conv => zeta
  repeat' split
  all_goals try apply DialogInv.fst
  all_goals first
    | exact h
    | apply_rules [DialogInv.failed, DialogInv.ended]

theorem DialogInv.onDialogError {s : Session} (h : DialogInv s) :
    DialogInv (onDialogError s) := by
  unfold JsSIP.onDialogError
  conv => zeta
  repeat' split
  all_goals try apply DialogInv.fst
  all_goals first
    | exact h
    | apply_rules [DialogInv.failed, DialogInv.ended]

theorem DialogInv.receiveReinvite {s : Session} (h : DialogInv s) (request : Message) :
    DialogInv (receiveReinvite s request) := by
  unfold JsSIP.receiveReinvite
  conv => zeta
  repeat' split
  all_goals try apply DialogInv.fst
  all_goals first
    | exact h
    | apply_rules [DialogInv.reply, DialogInv.await, DialogInv.record]

theorem DialogInv.addMediaStream {s : Session} (h : DialogInv s) (env : Env) (stream : StreamArg)
    (dontReinvite ok : Bool) :
    DialogInv ((addMediaStream env s stream dontReinvite ok).1) := by
  unfold JsSIP.addMediaStream
  conv => zeta
  repeat' split
  all_goals try apply DialogInv.fst
  all_goals first
    | exact h
    | exact h.record _ (by rfl)
    | exact ((h.record _ (by rfl)).mediaStreamAdded _ _).sendReinvite _ _
    | exact (h.record _ (by rfl)).mediaStreamAdded _ _

theorem DialogInv.removeMediaStream {s : Session} (h : DialogInv s) (env : Env) (stream : StreamArg)
    (dontReinvite ok : Bool) :
    DialogInv ((removeMediaStream env s stream dontReinvite ok).1) := by
  unfold JsSIP.removeMediaStream
  conv => zeta
  repeat' split
  all_goals try apply DialogInv.fst
  all_goals first
    | exact h
    | apply_rules [DialogInv.record, DialogInv.mediaStreamRemoved, DialogInv.sendReinvite]

theorem DialogInv.sendInvite {s : Session} (h : DialogInv s) :
    DialogInv (sendInvite s) := by
  unfold JsSIP.sendInvite
  conv => zeta
  repeat' split
  all_goals try apply DialogInv.fst
  all_goals first
    | exact h
    | apply_rules [DialogInv.await, DialogInv.record, DialogInv.setReceiveInvite]

theorem DialogInv.setInvite2xxTimer {s : Session} (h : DialogInv s) (env : Env) (request : Message)
    (body : String) :
    DialogInv (setInvite2xxTimer env s request body) := by
  unfold JsSIP.setInvite2xxTimer
  conv => zeta
  apply_rules [DialogInv.setTimeout]

theorem DialogInv.setACKTimer {s : Session} (h : DialogInv s) (env : Env) :
    DialogInv (setACKTimer env s) := by
  unfold JsSIP.setACKTimer
  conv => zeta
  apply_rules [DialogInv.setTimeout]

theorem DialogInv.invite2xxRetransmission {s : Session} (h : DialogInv s) (env : Env)
    (request : Message) (body : String) (n : Option Nat) :
    DialogInv (invite2xxRetransmission env s request body n) := by
  unfold JsSIP.invite2xxRetransmission
  conv => zeta
  repeat' split
  all_goals try apply DialogInv.fst
  all_goals first
    | exact h
    | apply_rules [DialogInv.reply, DialogInv.setTimeout, DialogInv.clearTimeout]

theorem DialogInv.ackTimerFired {s : Session} (h : DialogInv s) :
    DialogInv (ackTimerFired s) := by
  unfold JsSIP.ackTimerFired
  conv => zeta
  repeat' split
  all_goals try apply DialogInv.fst
  all_goals first
    | exact h
    | apply_rules [DialogInv.ended, DialogInv.sendRequest, DialogInv.clearTimeout]

theorem DialogInv.userNoAnswerTimerFired {s : Session} (h : DialogInv s) (request : Message) :
    DialogInv (userNoAnswerTimerFired s request) := by
  unfold JsSIP.userNoAnswerTimerFired
  conv => zeta
  apply_rules [DialogInv.failed, DialogInv.reply]

theorem DialogInv.expiresTimerFired {s : Session} (h : DialogInv s) (request : Message) :
    DialogInv (expiresTimerFired s request) := by
  unfold JsSIP.expiresTimerFired
  conv => zeta
  repeat' split
  all_goals try apply DialogInv.fst
  all_goals first
    | exact h
    | apply_rules [DialogInv.failed, DialogInv.reply]

theorem DialogInv.receiveRequest {s : Session} (h : DialogInv s) (request : Message) :
    DialogInv (receiveRequest s request) := by
  unfold JsSIP.receiveRequest
  cases request.method with
  | CANCEL =>
    simp only []
    split
    · split
      · exact ((h.setCanceledStatus).reply _ _ _ _ _).failed _ _
      · exact h.setCanceledStatus
    · exact h
  | ACK =>
    simp only []
    split
    · exact ((h.clearTimeout _).clearTimeout _).setConfirmed
    · exact h
  | BYE =>
    simp only []
    split
    · exact (h.reply _ _ _ _ _).ended _ _
    · exact h
  | INVITE =>
    simp only []
    split
    · exact h.receiveReinvite _
    · exact h
  | INFO =>
    simp only []
    split
    · split
      · split
        · exact h.record _ rfl
        · exact h
      · exact h
    · exact h
  | other _ => exact h

theorem DialogInv.receiveReinviteResponse {s : Session} (h : DialogInv s) (env : Env)
    (response : Message) :
    DialogInv (receiveReinviteResponse env s response) := by
  unfold JsSIP.receiveReinviteResponse
  conv => zeta
  repeat' split
  all_goals try apply DialogInv.fst
  all_goals first
    | exact h
    | apply_rules [DialogInv.await, DialogInv.acceptAndTerminate, DialogInv.record,
          DialogInv.setReinviteApplied]

theorem DialogInv.answer_onUserMediaFailure {s : Session} (h : DialogInv s) (request : Message) :
    DialogInv (answer_onUserMediaFailure s request) := by
  unfold JsSIP.answer_onUserMediaFailure
  conv => zeta
  apply_rules [DialogInv.failed, DialogInv.reply]

theorem DialogInv.answer_onAnswer {s : Session} (h : DialogInv s) (request : Message)
    (hdrs : List String) (body : String) :
    DialogInv (answer_onAnswer s request hdrs body) := by
  unfold JsSIP.answer_onAnswer
  conv => zeta
  apply_rules [DialogInv.reply, DialogInv.await]

theorem DialogInv.answer_onAnswerFailure {s : Session} (h : DialogInv s) (request : Message) :
    DialogInv (answer_onAnswerFailure s request) := by
  unfold JsSIP.answer_onAnswerFailure
  conv => zeta
  apply_rules [DialogInv.failed, DialogInv.reply]

theorem DialogInv.answer_onReply {s : Session} (h : DialogInv s) (env : Env) (request : Message)
    (body : String) :
    DialogInv (answer_onReply env s request body) := by
  unfold JsSIP.answer_onReply
  conv => zeta
  apply_rules [DialogInv.started, DialogInv.setWaitingForAck, DialogInv.setInvite2xxTimer,
      DialogInv.setACKTimer]

theorem DialogInv.answer_onReplyFailure {s : Session} (h : DialogInv s) :
    DialogInv (answer_onReplyFailure s) := by
  unfold JsSIP.answer_onReplyFailure
  conv => zeta
  apply_rules [DialogInv.failed]

theorem DialogInv.init_incoming_onOffer {s : Session} (h : DialogInv s) (env : Env)
    (request : Message) (expires : Option Nat) :
    DialogInv (init_incoming_onOffer env s request expires) := by
  unfold JsSIP.init_incoming_onOffer
  conv => zeta
  split
  · exact ((((h.reply _ _ _ _ _).setWaitingForAnswer).setTimeout _ _ _).setTimeout _ _
      _).newRTCSession _
  · exact (((h.reply _ _ _ _ _).setWaitingForAnswer).setTimeout _ _ _).newRTCSession _

theorem DialogInv.init_incoming_onOfferFailure {s : Session} (h : DialogInv s) (request : Message) :
    DialogInv (init_incoming_onOfferFailure s request) := by
  unfold JsSIP.init_incoming_onOfferFailure
  conv => zeta
  apply_rules [DialogInv.reply]

theorem DialogInv.connect_onUserMediaFailure {s : Session} (h : DialogInv s) :
    DialogInv (connect_onUserMediaFailure s) := by
  unfold JsSIP.connect_onUserMediaFailure
  conv => zeta
  apply_rules [DialogInv.failed]

theorem DialogInv.sendInvite_onOffer {s : Session} (h : DialogInv s) (body : String) :
    DialogInv (sendInvite_onOffer s body) := by
  unfold JsSIP.sendInvite_onOffer
  conv => zeta
  apply_rules [DialogInv.record, DialogInv.setRequestSent]

theorem DialogInv.sendInvite_onOfferFailure {s : Session} (h : DialogInv s) :
    DialogInv (sendInvite_onOfferFailure s) := by
  unfold JsSIP.sendInvite_onOfferFailure
  conv => zeta
  apply_rules [DialogInv.failed]

theorem DialogInv.sendReinvite_onOffer {s : Session} (h : DialogInv s) (hdrs : List String)
    (body : String) :
    DialogInv (sendReinvite_onOffer s hdrs body) := by
  unfold JsSIP.sendReinvite_onOffer
  conv => zeta
  repeat' split
  all_goals try apply DialogInv.fst
  all_goals first
    | exact h
    | apply_rules [DialogInv.record, DialogInv.setReinviteArmed]

theorem DialogInv.sendReinvite_onOfferFailure {s : Session} (h : DialogInv s) :
    DialogInv (sendReinvite_onOfferFailure s) := by
  unfold JsSIP.sendReinvite_onOfferFailure
  conv => zeta
  apply_rules [DialogInv.failed]

theorem DialogInv.receiveInviteResponse_onAnswer {s : Session} (h : DialogInv s) :
    DialogInv (receiveInviteResponse_onAnswer s) := by
  unfold JsSIP.receiveInviteResponse_onAnswer
  conv => zeta
  apply_rules [DialogInv.sendRequest, DialogInv.started, DialogInv.setConfirmed]

theorem DialogInv.receiveInviteResponse_onAnswerFailure {s : Session} (h : DialogInv s) (env : Env)
    (response : Message) :
    DialogInv (receiveInviteResponse_onAnswerFailure env s response) := by
  unfold JsSIP.receiveInviteResponse_onAnswerFailure
  conv => zeta
  apply_rules [DialogInv.failed, DialogInv.acceptAndTerminate]

theorem DialogInv.receiveReinviteResponse_onAnswer {s : Session} (h : DialogInv s) :
    DialogInv (receiveReinviteResponse_onAnswer s) := by
  unfold JsSIP.receiveReinviteResponse_onAnswer
  conv => zeta
  apply_rules [DialogInv.sendRequest, DialogInv.setConfirmed]

theorem DialogInv.receiveReinviteResponse_onAnswerFailure {s : Session} (h : DialogInv s)
    (env : Env) (response : Message) :
    DialogInv (receiveReinviteResponse_onAnswerFailure env s response) := by
  unfold JsSIP.receiveReinviteResponse_onAnswerFailure
  conv => zeta
  apply_rules [DialogInv.acceptAndTerminate]

theorem DialogInv.receiveReinvite_onOffer {s : Session} (h : DialogInv s) (request : Message) :
    DialogInv (receiveReinvite_onOffer s request) := by
  unfold JsSIP.receiveReinvite_onOffer
  conv => zeta
  repeat' split
  all_goals try apply DialogInv.fst
  all_goals first
    | exact h
    | apply_rules [DialogInv.await, DialogInv.record]

theorem DialogInv.receiveReinvite_onOfferFailure {s : Session} (h : DialogInv s)
    (request : Message) :
    DialogInv (receiveReinvite_onOfferFailure s request) := by
  unfold JsSIP.receiveReinvite_onOfferFailure
  conv => zeta
  apply_rules [DialogInv.reply]

theorem DialogInv.receiveReinvite_onAnswer {s : Session} (h : DialogInv s) (request : Message)
    (body : String) :
    DialogInv (receiveReinvite_onAnswer s request body) := by
  unfold JsSIP.receiveReinvite_onAnswer
  conv => zeta
  apply_rules [DialogInv.reply, DialogInv.await]

theorem DialogInv.receiveReinvite_onAnswerFailure {s : Session} (h : DialogInv s)
    (request : Message) :
    DialogInv (receiveReinvite_onAnswerFailure s request) := by
  unfold JsSIP.receiveReinvite_onAnswerFailure
  conv => zeta
  apply_rules [DialogInv.reply]

theorem DialogInv.receiveReinvite_onReply {s : Session} (h : DialogInv s) (env : Env)
    (request : Message) (body : String) :
    DialogInv (receiveReinvite_onReply env s request body) := by
  unfold JsSIP.receiveReinvite_onReply
  conv => zeta
  apply_rules [DialogInv.setWaitingForAck, DialogInv.setInvite2xxTimer, DialogInv.setACKTimer]

theorem DialogInv.runTimer {s : Session} (h : DialogInv s) (env : Env) (a : TimerAction) :
    DialogInv (runTimer env s a) := by
  unfold JsSIP.runTimer
  conv => zeta
  repeat' split
  all_goals try apply DialogInv.fst
  all_goals first
    | exact h
    | apply_rules [DialogInv.invite2xxRetransmission, DialogInv.ackTimerFired,
          DialogInv.userNoAnswerTimerFired, DialogInv.expiresTimerFired]

theorem DialogInv.answer {s : Session} (h : DialogInv s) (hdrs : List String) :
    DialogInv (answer s hdrs).1 := by
  unfold JsSIP.answer
  split
  · exact h
  · split
    · exact h
    · split
      · exact h
      · rename_i request _
        have hc := h.createDialog request .UAS false (by simp)
        generalize JsSIP.createDialog s request .UAS false = r at hc ⊢
        obtain ⟨b, s1⟩ := r
        simp only [] at hc
        cases b <;> simp only [] <;> apply_rules [DialogInv.failed, DialogInv.reply,
                                         DialogInv.await, DialogInv.clearTimeout, DialogInv.record]

theorem DialogInv.answer_onUserMedia {s : Session} (h : DialogInv s) (env : Env)
    (request : Message) (hdrs : List String) (m : MediaStream) (ok : Bool) :
    DialogInv (answer_onUserMedia env s request hdrs m ok) := by
  unfold JsSIP.answer_onUserMedia
  have hc := h.addMediaStream env (.stream m) false ok
  generalize JsSIP.addMediaStream env s (.stream m) false ok = r at hc ⊢
  obtain ⟨s1, e⟩ := r
  simp only [] at hc
  cases e
  · simp only []
    split <;> apply_rules [DialogInv.failed, DialogInv.reply, DialogInv.await, DialogInv.record]
  · simp only []
    apply_rules [DialogInv.failed, DialogInv.reply, DialogInv.await, DialogInv.record]

theorem DialogInv.connect_onUserMedia {s : Session} (h : DialogInv s) (env : Env)
    (m : MediaStream) (ok : Bool) : DialogInv (connect_onUserMedia env s m ok) := by
  unfold JsSIP.connect_onUserMedia
  have hc := h.addMediaStream env (.stream m) false ok
  generalize JsSIP.addMediaStream env s (.stream m) false ok = r at hc ⊢
  obtain ⟨s1, e⟩ := r
  simp only [] at hc
  cases e
  · exact hc.sendInvite
  · exact hc.failed _ _

theorem DialogInv.init_incoming {s : Session} (h : DialogInv s) (env : Env)
    (request : Message) (newTag : String) : DialogInv (init_incoming env s request newTag) := by
  unfold JsSIP.init_incoming
  conv => zeta
  have h0 := h.initIncomingParams env { request with to_tag := newTag }
  have hc := h0.createDialog { request with to_tag := newTag } .UAS true
    (by intro _ hs; cases hs)
  generalize JsSIP.createDialog _ { request with to_tag := newTag } .UAS true = r at hc ⊢
  obtain ⟨b, s1⟩ := r
  simp only [] at hc
  cases b
  · exact hc.reply _ _ _ _ _
  · simp only []
    split
    · split
      · exact hc.reply _ _ _ _ _
      · apply_rules [DialogInv.failed, DialogInv.reply, DialogInv.await, DialogInv.record,
            DialogInv.setMediaHandler]
    · exact hc

theorem DialogInv.connect {s : Session} (h : DialogInv s) (env : Env) (target : Option String)
    (valid : Bool) (options : ConnectOptions) (newTag callId : String) (ok : Bool) :
    DialogInv (connect env s target valid options newTag callId ok).1 := by
  unfold JsSIP.connect
  conv => zeta
  split
  · exact h
  · split
    · exact h
    · split
      · exact h
      · split
        · exact h
        · have h0 := (h.connectParams env options newTag callId (options.extraHeaders ++
            (if options.anonymous = true then
              ["P-Preferred-Identity: " ++ env.uri, "Privacy: id"] else []) ++
            ["Contact: " ++ env.contact, "Allow: " ++ env.allowedMethods,
              "Content-Type: application/sdp"])).newRTCSession .local
          split
          · apply DialogInv.fst
            apply DialogInv.await
            apply DialogInv.record
            · exact h0
            · rfl
          · have hc := h0.addMediaStream env options.mediaStream false ok
            generalize JsSIP.addMediaStream env _ options.mediaStream false ok = r at hc ⊢
            obtain ⟨s1, e⟩ := r
            simp only [] at hc
            cases e
            · exact hc.sendInvite
            · exact hc.failed _ _

theorem DialogInv.receiveInviteResponse {s : Session} (h : DialogInv s) (env : Env)
    (response : Message) : DialogInv (receiveInviteResponse env s response) := by
  unfold JsSIP.receiveInviteResponse
  conv => zeta
  split
  · exact h
  · rename_i hst
    have hne : s.status ≠ .STATUS_TERMINATED := by
      intro hs
      apply hst
      rw [hs]
      exact ⟨by decide, by decide⟩
    split
    · split
      · exact h.cancel _
      · split
        · exact h.acceptAndTerminate _ _ _ _
        · exact h
    · split
      · exact h.setReceived100
      · split
        · split
          · exact h.record _ rfl
          · split
            · exact ((h.createDialog response .UAC true (fun _ => hne)).setProvisional).progress _
            · exact h.setProvisional.progress _
        · split
          · split
            · exact h
            · split
              · exact (h.acceptAndTerminate _ _ _ _).failed _ _
              · split
                · exact (h.acceptAndTerminate _ _ _ _).failed _ _
                · have hc := h.createDialog response .UAC false (by simp)
                  generalize JsSIP.createDialog s response .UAC false = r at hc ⊢
                  obtain ⟨b, s1⟩ := r
                  simp only [] at hc
                  cases b
                  · exact hc
                  · simp only []
                    split <;> apply_rules [DialogInv.failed, DialogInv.cancel, DialogInv.await,
                                  DialogInv.progress, DialogInv.acceptAndTerminate,
                                  DialogInv.record, DialogInv.setProvisional,
                                  DialogInv.setReceived100]
          · exact h.failed _ _

theorem DialogInv.runCallback {s : Session} (h : DialogInv s) (env : Env) (cb : Callback)
    (r : CallbackResult) : DialogInv (runCallback env s cb r) := by
  cases cb with
  | answerUserMedia request hdrs =>
    cases r with
    | success => exact h
    | body sdp => exact h
    | stream m ok => exact h.answer_onUserMedia env request hdrs m ok
    | failure => exact h.answer_onUserMediaFailure request
  | answerCreateAnswer request hdrs =>
    cases r with
    | success => exact h
    | body sdp => exact h.answer_onAnswer request hdrs sdp
    | stream m ok => exact h
    | failure => exact h.answer_onAnswerFailure request
  | answerReply request body =>
    cases r with
    | success => exact h.answer_onReply env request body
    | body sdp => exact h
    | stream m ok => exact h
    | failure => exact h.answer_onReplyFailure
  | incomingOffer request expires =>
    cases r with
    | success => exact h.init_incoming_onOffer env request expires
    | body sdp => exact h
    | stream m ok => exact h
    | failure => exact h.init_incoming_onOfferFailure request
  | connectUserMedia =>
    cases r with
    | success => exact h
    | body sdp => exact h
    | stream m ok => exact h.connect_onUserMedia env m ok
    | failure => exact h.connect_onUserMediaFailure
  | inviteCreateOffer =>
    cases r with
    | success => exact h
    | body sdp => exact h.sendInvite_onOffer sdp
    | stream m ok => exact h
    | failure => exact h.sendInvite_onOfferFailure
  | reinviteCreateOffer hdrs =>
    cases r with
    | success => exact h
    | body sdp => exact h.sendReinvite_onOffer hdrs sdp
    | stream m ok => exact h
    | failure => exact h.sendReinvite_onOfferFailure
  | inviteAnswer response =>
    cases r with
    | success => exact h.receiveInviteResponse_onAnswer
    | body sdp => exact h
    | stream m ok => exact h
    | failure => exact h.receiveInviteResponse_onAnswerFailure env response
  | reinviteAnswer response =>
    cases r with
    | success => exact h.receiveReinviteResponse_onAnswer
    | body sdp => exact h
    | stream m ok => exact h
    | failure => exact h.receiveReinviteResponse_onAnswerFailure env response
  | reinviteOffer request =>
    cases r with
    | success => exact h.receiveReinvite_onOffer request
    | body sdp => exact h
    | stream m ok => exact h
    | failure => exact h.receiveReinvite_onOfferFailure request
  | reinviteCreateAnswer request =>
    cases r with
    | success => exact h
    | body sdp => exact h.receiveReinvite_onAnswer request sdp
    | stream m ok => exact h
    | failure => exact h.receiveReinvite_onAnswerFailure request
  | reinviteReply request body =>
    cases r with
    | success => exact h.receiveReinvite_onReply env request body
    | body sdp => exact h
    | stream m ok => exact h
    | failure => exact h

theorem DialogInv.dtmfSend {s : Session} (h : DialogInv s) (tone : Option Char) :
    DialogInv (s.dtmfSend tone) :=
  h.record _ (by rfl)

theorem DialogInv.setInterval {s : Session} (h : DialogInv s) (tones : String) (possition : Nat)
    (interToneGap : Int) : DialogInv (s.setInterval tones possition interToneGap) :=
  h.neutral rfl rfl (Nat.le_refl _) (by simp [dialogLog, Session.setInterval, Effect.dialogSerial])
    id

theorem DialogInv.clearInterval {s : Session} (h : DialogInv s) (timer : Nat) :
    DialogInv (s.clearInterval timer) :=
  h.neutral rfl rfl (Nat.le_refl _)
    (by simp [dialogLog, Session.clearInterval, Effect.dialogSerial]) id

theorem DialogInv.advanceTone {s : Session} (h : DialogInv s) (timer : Nat) :
    DialogInv (s.advanceTone timer) :=
  h.neutral rfl rfl (Nat.le_refl _) rfl id

theorem DialogInv.sendDTMF_onFailed {s : Session} (h : DialogInv s) (timer : Nat) :
    DialogInv (sendDTMF_onFailed s timer) :=
  h.neutral rfl rfl (Nat.le_refl _) rfl id

theorem DialogInv.sendDTMF {s : Session} (h : DialogInv s) (env : Env) (tones : TonesArg)
    (options : DtmfOptions) : DialogInv (sendDTMF env s tones options).1 := by
  unfold JsSIP.sendDTMF
  conv => zeta
  repeat' split
  all_goals try apply DialogInv.fst
  all_goals first
    | exact h
    | exact (h.dtmfSend _).setInterval _ _ _
    | exact ((h.record _ (by rfl)).dtmfSend _).setInterval _ _ _

theorem DialogInv.sendDTMF_onInterval {s : Session} (h : DialogInv s) (timer : Nat) :
    DialogInv (sendDTMF_onInterval s timer) := by
  unfold JsSIP.sendDTMF_onInterval
  split
  · exact h
  · split
    · exact (h.dtmfSend _).advanceTone _
    · exact h.clearInterval _

theorem DialogInv.step {s : Session} (h : DialogInv s) (env : Env) (ev : Event) :
    DialogInv (step env s ev) := by
  cases ev with
  | terminate options => exact h.terminate env options
  | answer hdrs => exact h.answer hdrs
  | connect target valid options newTag callId ok =>
    exact h.connect env target valid options newTag callId ok
  | toggleMute => exact h.toggleMute
  | sendReinvite hdrs => exact h.sendReinvite env hdrs
  | addMediaStream stream dontReinvite ok => exact h.addMediaStream env stream dontReinvite ok
  | removeMediaStream stream dontReinvite ok =>
    exact h.removeMediaStream env stream dontReinvite ok
  | init_incoming request newTag => exact h.init_incoming env request newTag
  | receiveRequest request => exact h.receiveRequest request
  | receiveResponse response =>
    simp only [JsSIP.step]
    split
    · exact h
    · exact h.receiveInviteResponse env response
    · exact h.receiveReinviteResponse env response
  | onTransportError => exact h.onTransportError
  | onRequestTimeout => exact h.onRequestTimeout
  | onDialogError => exact h.onDialogError
  | remoteStreamAdded m => exact h.mediaStreamAdded .remote m
  | remoteStreamRemoved m => exact h.mediaStreamRemoved .remote m
  | callback cb r => exact (h.resolve cb).runCallback env cb r
  | timeout t => exact (h.expire t.handle).runTimer env t.action
  | sendDTMF tones options => exact h.sendDTMF env tones options
  | toneInterval timer => exact h.sendDTMF_onInterval timer
  | toneFailed timer => exact h.sendDTMF_onFailed timer

theorem DialogInv.create (registry : List String) : DialogInv (Session.create registry) := by
  constructor <;> simp [Session.create, dialogLog, earlySerials]

theorem DialogInv.run {s : Session} (h : DialogInv s) (env : Env) (evs : List Event) :
    DialogInv (run env s evs) := by
  induction evs generalizing s with
  | nil => exact h
  | cons ev evs ih => exact ih (h.step env ev)

theorem count_dialogLog (s : Session) (e : Effect) (he : e.dialogSerial.isSome = true) :
    (dialogLog s).count e = s.log.count e := by
  unfold dialogLog
  exact List.count_filter he

/-- C10 (amended): no early dialog is leaked. After every sequence of events on a freshly
constructed session, each early Dialog ever stored in `earlyDialogs` (serial `n`) is in exactly
one of three conditions: it is still stored and has been neither promoted nor terminated; or it
is no longer stored and has been promoted to the confirmed dialog exactly once (and terminated
at most once, by the `close()` that found it in `dialog`); or it is no longer stored, was never
promoted, and `terminate()` has been invoked on it exactly once. Whenever the session is
Terminated `earlyDialogs` holds no entry, so only the last two conditions remain. After
`close()` `earlyDialogs` holds no entry, and a `close()` that finds the session not yet
Terminated leaves the `dialog` field absent. -/
theorem no_early_dialog_leaked (env : Env) (registry : List String) (evs : List Event) (n : Nat) :
    (Effect.dialogCreated n true ∈ (run env (Session.create registry) evs).log →
      (n ∈ earlySerials (run env (Session.create registry) evs) ∧
        promotions n (run env (Session.create registry) evs) = 0 ∧
        terminations n (run env (Session.create registry) evs) = 0) ∨
      (n ∉ earlySerials (run env (Session.create registry) evs) ∧
        promotions n (run env (Session.create registry) evs) = 1 ∧
        terminations n (run env (Session.create registry) evs) ≤ 1) ∨
      (n ∉ earlySerials (run env (Session.create registry) evs) ∧
        promotions n (run env (Session.create registry) evs) = 0 ∧
        terminations n (run env (Session.create registry) evs) = 1)) ∧
    ((run env (Session.create registry) evs).status = .STATUS_TERMINATED →
      (run env (Session.create registry) evs).earlyDialogs = []) ∧
    (close (run env (Session.create registry) evs)).earlyDialogs = [] ∧
    ((run env (Session.create registry) evs).status ≠ .STATUS_TERMINATED →
      (close (run env (Session.create registry) evs)).dialog = none) := by
  have h : DialogInv (run env (Session.create registry) evs) :=
    (DialogInv.create registry).run env evs
  generalize run env (Session.create registry) evs = s at h ⊢
  have hu : ∀ m, (dialogLog s).count (.dialogUpdate m) = promotions m s :=
    fun m => count_dialogLog s _ rfl
  have ht : ∀ m, (dialogLog s).count (.dialogTerminate m) = terminations m s :=
    fun m => count_dialogLog s _ rfl
  refine ⟨?_, h.closed, ?_, ?_⟩
  · intro hmem
    have hmem' : Effect.dialogCreated n true ∈ dialogLog s := by
      unfold dialogLog
      exact List.mem_filter.mpr ⟨hmem, rfl⟩
    by_cases hin : n ∈ earlySerials s
    · left
      have := h.earlyFresh n hin
      rw [hu, ht] at this
      exact ⟨hin, this⟩
    · right
      rcases h.ledger n hmem' with h1 | h1 | h1
      · exact absurd h1 hin
      · rw [hu, ht] at h1
        exact Or.inl ⟨hin, h1⟩
      · rw [hu, ht] at h1
        exact Or.inr ⟨hin, h1⟩
  · by_cases hst : s.status = .STATUS_TERMINATED
    · rw [close_of_terminated s hst]
      exact h.closed hst
    · rw [close_eq s hst]
  · intro hst
    rw [close_eq s hst]

/-- Counterexample to C10 as stated: an outgoing call is terminated by the user while the media
engine is applying the answer of the 200 (the confirmed dialog, serial 0, is terminated and
deleted by `close()`); the engine then reports failure, and its closure calls
`acceptAndTerminate`, which finds no dialog, constructs and installs a new one (serial 1), and
then `failed`, whose `close()` returns at once because the status is already Terminated. The
session is closed and its `dialog` field is present, also after one more `close()`. -/
theorem dialog_present_after_close :
    (runEnabled sampleEnv (Session.create []) terminatedWhileApplying).map
      (fun s => (s.status, s.dialog.map Dialog.serial, (close s).dialog.map Dialog.serial,
        confirmedInstalls s.log)) =
      some (.STATUS_TERMINATED, some 1, some 1, [0, 1]) := by
  decide

/-! ### Answering twice -/

/-- C1 (the code installs a confirmed dialog twice): an incoming call is answered twice before
local media is available. The status is still WaitingForAnswer at the second call, so both
calls pass the guard of `answer`: the first promotes the early dialog (serial 0) to `dialog`,
the second finds no early dialog any more, constructs a fresh confirmed dialog (serial 1) and
installs it over the first. -/
theorem answer_twice_installs_two_dialogs :
    (runEnabled sampleEnv (Session.create []) answeredTwice).map
      (fun s => (s.status, confirmedInstalls s.log, s.dialog.map Dialog.serial)) =
      some (.STATUS_WAITING_FOR_ANSWER, [0, 1], some 1) := by
  decide

/-! ### Leaving Terminated -/

/-- C11 (the code leaves Terminated): two runs in which a callback that was outstanding when
the session terminated takes it out of Terminated. In the first an outgoing call is terminated
by the user while the media engine is applying the answer of the 200; the engine then reports
success and its closure sends ACK, sets the status to Confirmed and emits `started`. In the
second the caller cancels an incoming call while the 200 of `answer()` is on its way; the
delivery of the 200 is then reported and its closure sets the status to WaitingForAck (and
emits `started`). In both runs the session was closed before: its status was Terminated and the
callback was still outstanding. -/
theorem terminated_is_left :
    (runEnabled sampleEnv (Session.create []) terminatedWhileApplyingAnswer).map
      (fun s => (s.status, enabled s (.callback (.inviteAnswer sample200) .success),
        (step sampleEnv s (.callback (.inviteAnswer sample200) .success)).status,
        signals s (step sampleEnv s (.callback (.inviteAnswer sample200) .success)))) =
      some (.STATUS_TERMINATED, true, .STATUS_CONFIRMED,
        [.sendRequest .ACK [] none, .emit .started (some .remote) none]) ∧
    (runEnabled sampleEnv (Session.create []) cancelledWhileReplying).map
      (fun s => (s.status, enabled s (.callback (.answerReply sampleInviteTagged "v=0") .success),
        (step sampleEnv s (.callback (.answerReply sampleInviteTagged "v=0") .success)).status,
        signals s (step sampleEnv s (.callback (.answerReply sampleInviteTagged "v=0")
          .success)))) =
      some (.STATUS_TERMINATED, true, .STATUS_WAITING_FOR_ACK,
        [.emit .started (some .local) none]) := by
  constructor <;> decide

/-! ### Commands issued from the wrong state -/

/-- C12 (amended): on every session whose status is Terminated, `terminate(options)` throws
InvalidStateError for any options; the session is returned unchanged, so no message is sent, no
event is emitted and no state changes. -/
theorem terminate_of_terminated (env : Env) (s : Session) (options : TerminateOptions)
    (hs : s.status = .STATUS_TERMINATED) :
    terminate env s options = (s, some (.InvalidStateError .STATUS_TERMINATED)) ∧
    signals s (terminate env s options).1 = [] := by
  have h : terminate env s options = (s, some (.InvalidStateError .STATUS_TERMINATED)) := by
    simp [terminate, hs]
  rw [h]
  exact ⟨rfl, by simp [signals, newEffects]⟩

/-- Witness of C12 (amended): a session terminated right after its construction, terminated
once more with status code 486. -/
theorem terminate_of_terminated_witness :
    sampleTerminated.status = .STATUS_TERMINATED ∧
    terminate sampleEnv sampleTerminated ⟨some 486, none, [], none⟩ =
      (sampleTerminated, some (.InvalidStateError .STATUS_TERMINATED)) :=
  ⟨by decide, (terminate_of_terminated sampleEnv sampleTerminated ⟨some 486, none, [], none⟩
    (by decide)).1⟩

/-- Counterexample to C12 as stated: `terminate()` on a Terminated session does not return
normally, it throws InvalidStateError. -/
theorem terminate_of_terminated_throws :
    sampleTerminated.status = .STATUS_TERMINATED ∧
    (terminate sampleEnv sampleTerminated ⟨none, none, [], none⟩).2 =
      some (.InvalidStateError .STATUS_TERMINATED) := by
  decide

/-- C13 (amended): the state-guarded commands are rejected atomically when issued from the
wrong state. `connect(target)` with a valid target throws NotSupportedError in every status
where WebRTC is not supported; where it is supported it throws InvalidStateError iff the status
is not Null. `answer()` throws NotSupportedError if the direction is not incoming and otherwise
InvalidStateError iff the status is not WaitingForAnswer. `sendReinvite()` throws
InvalidStateError iff the status is not Confirmed. `sendDTMF(tones)` with defined tones throws
InvalidStateError iff the status is neither Confirmed nor WaitingForAck. In each of these
throwing cases the session is returned unchanged: no message, no event, no change of a field,
timer or registry entry. -/
theorem state_guarded_commands (env : Env) (s : Session) :
    (∀ target options newTag callId ok,
      (env.webrtcSupported = false →
        connect env s (some target) true options newTag callId ok =
          (s, some (.NotSupportedError "WebRTC not supported"))) ∧
      (env.webrtcSupported = true →
        ((∃ st, (connect env s (some target) true options newTag callId ok).2 =
            some (.InvalidStateError st)) ↔ s.status ≠ .STATUS_NULL) ∧
        (s.status ≠ .STATUS_NULL →
          connect env s (some target) true options newTag callId ok =
            (s, some (.InvalidStateError s.status))))) ∧
    (∀ extraHeaders,
      (s.direction ≠ some .incoming →
        answer s extraHeaders =
          (s, some (.NotSupportedError "\"answer\" not supported for outgoing RTCSession"))) ∧
      (s.direction = some .incoming →
        ((∃ st, (answer s extraHeaders).2 = some (.InvalidStateError st)) ↔
          s.status ≠ .STATUS_WAITING_FOR_ANSWER) ∧
        (s.status ≠ .STATUS_WAITING_FOR_ANSWER →
          answer s extraHeaders = (s, some (.InvalidStateError s.status))))) ∧
    (∀ extraHeaders,
      ((∃ st, (sendReinvite env s extraHeaders).2 = some (.InvalidStateError st)) ↔
        s.status ≠ .STATUS_CONFIRMED) ∧
      (s.status ≠ .STATUS_CONFIRMED →
        sendReinvite env s extraHeaders = (s, some (.InvalidStateError s.status)))) ∧
    (∀ tones options, tones ≠ .undefined →
      ((∃ st, (sendDTMF env s tones options).2 = some (.InvalidStateError st)) ↔
        (s.status ≠ .STATUS_CONFIRMED ∧ s.status ≠ .STATUS_WAITING_FOR_ACK)) ∧
      (s.status ≠ .STATUS_CONFIRMED ∧ s.status ≠ .STATUS_WAITING_FOR_ACK →
        sendDTMF env s tones options = (s, some (.InvalidStateError s.status)))) := by
  refine ⟨?_, ?_, ?_, ?_⟩
  · intro target options newTag callId ok
    refine ⟨fun hw => by simp [connect, hw], fun hw => ?_⟩
    have hthrow : s.status ≠ .STATUS_NULL →
        connect env s (some target) true options newTag callId ok =
          (s, some (.InvalidStateError s.status)) := by
      intro hs
      simp [connect, hw, hs]
    refine ⟨⟨?_, fun hs => ⟨_, congrArg Prod.snd (hthrow hs)⟩⟩, hthrow⟩
    rintro ⟨st, hst⟩ hs
    unfold connect at hst
    simp only [Option.isNone_some, Bool.false_eq_true, if_false, hw, Bool.not_true, hs, ne_eq,
      not_true_eq_false] at hst
    revert hst
    split
    · simp
    · split <;> simp
  · intro extraHeaders
    refine ⟨fun hd => by simp [answer, hd], fun hd => ?_⟩
    have hthrow : s.status ≠ .STATUS_WAITING_FOR_ANSWER →
        answer s extraHeaders = (s, some (.InvalidStateError s.status)) := by
      intro hs
      simp [answer, hd, hs]
    refine ⟨⟨?_, fun hs => ⟨_, congrArg Prod.snd (hthrow hs)⟩⟩, hthrow⟩
    rintro ⟨st, hst⟩ hs
    unfold answer at hst
    simp only [hd, ne_eq, not_true_eq_false, if_false, hs] at hst
    revert hst
    split
    · simp
    · split <;> simp
  · intro extraHeaders
    have hthrow : s.status ≠ .STATUS_CONFIRMED →
        sendReinvite env s extraHeaders = (s, some (.InvalidStateError s.status)) := by
      intro hs
      simp [sendReinvite, hs]
    refine ⟨⟨?_, fun hs => ⟨_, congrArg Prod.snd (hthrow hs)⟩⟩, hthrow⟩
    rintro ⟨st, hst⟩ hs
    unfold sendReinvite at hst
    simp only [hs, ne_eq, not_true_eq_false, if_false] at hst
    revert hst
    split <;> simp
  · intro tones options ht
    have hthrow : s.status ≠ .STATUS_CONFIRMED ∧ s.status ≠ .STATUS_WAITING_FOR_ACK →
        sendDTMF env s tones options = (s, some (.InvalidStateError s.status)) := by
      intro hs
      simp [sendDTMF, ht, hs]
    refine ⟨⟨?_, fun hs => ⟨_, congrArg Prod.snd (hthrow hs)⟩⟩, hthrow⟩
    rintro ⟨st, hst⟩
    by_contra hs
    unfold sendDTMF at hst
    simp only [ht, if_false, hs] at hst
    revert hst
    split
    · simp
    · split <;> simp

/-- Witness of C13 (amended): `connect`, `sendReinvite` and `sendDTMF` on the sample session
that waits for the user's answer, and `answer` on the sample outgoing session. -/
theorem state_guarded_commands_witness :
    connect sampleEnv sampleWaitingForAnswer (some "bob") true ⟨[], false, .undefined⟩ "from2"
        "call2" true =
      (sampleWaitingForAnswer, some (.InvalidStateError .STATUS_WAITING_FOR_ANSWER)) ∧
    sendReinvite sampleEnv sampleWaitingForAnswer [] =
      (sampleWaitingForAnswer, some (.InvalidStateError .STATUS_WAITING_FOR_ANSWER)) ∧
    sendDTMF sampleEnv sampleWaitingForAnswer (.string "1") ⟨.undefined⟩ =
      (sampleWaitingForAnswer, some (.InvalidStateError .STATUS_WAITING_FOR_ANSWER)) :=
  have h := state_guarded_commands sampleEnv sampleWaitingForAnswer
  ⟨((h.1 "bob" ⟨[], false, .undefined⟩ "from2" "call2" true).2 rfl).2 (by decide),
    (h.2.2.1 []).2 (by decide),
    (h.2.2.2 (.string "1") ⟨.undefined⟩ (by decide)).2 (by decide)⟩

/-- Counterexample to C13 as stated: in a browser without WebRTC, `connect` with a valid target
on a session whose status is not Null (it is Terminated) throws NotSupportedError, not
InvalidStateError. -/
theorem connect_without_webrtc :
    sampleTerminated.status = .STATUS_TERMINATED ∧
    (connect sampleEnvNoWebRTC sampleTerminated (some "bob") true ⟨[], false, .undefined⟩ "from2"
      "call2" true).2 = some (.NotSupportedError "WebRTC not supported") := by
  decide

/-! ### Terminating a session -/

theorem signals_of_log (s s' : Session) (es : List Effect) (h : s'.log = s.log ++ es) :
    signals s s' = es.filter Effect.isSignal := by
  simp [signals, newEffects_of_log s s' es h]

theorem failed_after (s0 s : Session) (es : List Effect) (o : Originator) (c : Cause)
    (h : s.log = s0.log ++ es) :
    signals s0 (failed s o c) =
      es.filter Effect.isSignal ++ [.emit .failed (some o) (some c)] := by
  rw [signals_of_log s0 _ (es ++ closeEffects s ++ [.emit .failed (some o) (some c)])]
  · simp [List.filter_append, closeEffects_signals, Effect.isSignal]
  · rw [failed_log, h]
    simp

theorem ended_after (s0 s : Session) (es : List Effect) (o : Originator) (c : Cause)
    (h : s.log = s0.log ++ es) :
    signals s0 (ended s o c) =
      es.filter Effect.isSignal ++ [.emit .ended (some o) (some c)] := by
  rw [signals_of_log s0 _ (es ++ closeEffects s ++ [.emit .ended (some o) (some c)])]
  · simp [List.filter_append, closeEffects_signals, Effect.isSignal]
  · rw [ended_log, h]
    simp

theorem close_failed (s : Session) (o : Originator) (c : Cause) :
    close (failed s o c) = failed s o c :=
  close_of_terminated _ (failed_status _ _ _)

theorem close_ended (s : Session) (o : Originator) (c : Cause) :
    close (ended s o c) = ended s o c :=
  close_of_terminated _ (ended_status _ _ _)

theorem terminate_check_of_valid (options : TerminateOptions)
    (hv : ∀ c, options.status_code = some c → 200 ≤ c ∧ c < 700) :
    (truthyNum options.status_code &&
      (decide (options.status_code.getD 0 < 200) || decide (options.status_code.getD 0 ≥ 700)))
      = false := by
  cases hsc : options.status_code with
  | none => simp [truthyNum]
  | some c =>
    have := hv c hsc
    simp [truthyNum]
    omega

theorem truthyNum_of_valid (code : Option Nat) (hv : ∀ c, code = some c → 200 ≤ c ∧ c < 700) :
    truthyNum code = code.isSome := by
  cases hsc : code with
  | none => rfl
  | some c =>
    have := hv c hsc
    have hc : c ≠ 0 := by omega
    simp [truthyNum, hc]

/-- C14: `terminate()` with an absent status code or one in 200..699 acts according to the
status, throws nothing and ends in Terminated. In Null it sends nothing and records the pending
cancel; in InviteSent after a 100 and in ProvisionalReceived it sends exactly one CANCEL, whose
reason is `SIP ;cause=<code> ;text="<phrase>"` when a status code was given (absent otherwise);
in all three it then emits `failed` with originator local and cause CANCELED. In
WaitingForAnswer (the session holds its INVITE, the code is absent or in 300..699) it sends
exactly one reply to the INVITE with the given code, 480 when none is given, and emits `failed`
with originator local and cause REJECTED. In WaitingForAck and in Confirmed it sends exactly one
BYE, with a Reason header appended when a status code was given, and emits `ended` with
originator local and cause BYE. In the two remaining live states it only closes. Nothing else
is sent or emitted. -/
theorem terminate_by_status (env : Env) (s : Session) (options : TerminateOptions)
    (request : Message) (hv : ∀ c, options.status_code = some c → 200 ≤ c ∧ c < 700) :
    (s.status = .STATUS_NULL →
      (terminate env s options).2 = none ∧
      signals s (terminate env s options).1 = [.emit .failed (some .local) (some .CANCELED)] ∧
      (terminate env s options).1.isCanceled = true ∧
      (terminate env s options).1.cancelReason =
        options.status_code.map (fun c => cancelReasonText env c options.reason_phrase) ∧
      (terminate env s options).1.status = .STATUS_TERMINATED) ∧
    ((s.status = .STATUS_INVITE_SENT ∧ s.received_100 = true) ∨
        s.status = .STATUS_1XX_RECEIVED →
      (terminate env s options).2 = none ∧
      signals s (terminate env s options).1 =
        [.cancel (options.status_code.map
            (fun c => cancelReasonText env c options.reason_phrase)),
          .emit .failed (some .local) (some .CANCELED)] ∧
      (terminate env s options).1.status = .STATUS_TERMINATED) ∧
    (s.status = .STATUS_WAITING_FOR_ANSWER → s.request = some request →
        (∀ c, options.status_code = some c → 300 ≤ c) →
      (terminate env s options).2 = none ∧
      signals s (terminate env s options).1 =
        [.reply request (options.status_code.getD 480) options.reason_phrase
            options.extraHeaders options.body,
          .emit .failed (some .local) (some .REJECTED)] ∧
      (terminate env s options).1.status = .STATUS_TERMINATED) ∧
    (s.status = .STATUS_WAITING_FOR_ACK ∨ s.status = .STATUS_CONFIRMED →
      (terminate env s options).2 = none ∧
      signals s (terminate env s options).1 =
        [.sendRequest .BYE (options.extraHeaders ++ (options.status_code.map
            (fun c => reasonHeader env c options.reason_phrase)).toList) options.body,
          .emit .ended (some .local) (some .BYE)] ∧
      (terminate env s options).1.status = .STATUS_TERMINATED) ∧
    (s.status = .STATUS_INVITE_RECEIVED ∨ s.status = .STATUS_CANCELED →
      (terminate env s options).2 = none ∧
      signals s (terminate env s options).1 = [] ∧
      (terminate env s options).1.status = .STATUS_TERMINATED) := by
  have hcheck := terminate_check_of_valid options hv
  have htruthy := truthyNum_of_valid options.status_code hv
  have hreason : (if truthyNum options.status_code = true then
        some (cancelReasonText env (options.status_code.getD 0) options.reason_phrase)
      else none) =
      options.status_code.map (fun c => cancelReasonText env c options.reason_phrase) := by
    rw [htruthy]
    cases options.status_code <;> simp
  have hhdrs : (if truthyNum options.status_code = true then
        options.extraHeaders ++
          [reasonHeader env (options.status_code.getD 0) options.reason_phrase]
      else options.extraHeaders) =
      options.extraHeaders ++ (options.status_code.map
        (fun c => reasonHeader env c options.reason_phrase)).toList := by
    rw [htruthy]
    cases options.status_code <;> simp
  refine ⟨?_, ?_, ?_, ?_, ?_⟩
  · intro hs
    have hrun : terminate env s options =
        (failed { s with isCanceled := true, cancelReason :=
          (options.status_code.map (fun c => cancelReasonText env c options.reason_phrase)) }
          .local .CANCELED, none) := by
      unfold terminate
      simp only [hs, hcheck, hreason]
      simp [close_failed]
    have hne : ∀ r, ({ s with isCanceled := true, cancelReason := r } : Session).status ≠
        .STATUS_TERMINATED := by
      intro r
      simp [hs]
    rw [hrun]
    refine ⟨rfl, ?_, ?_, ?_, failed_status _ _ _⟩
    · simpa using failed_after s _ [] .local .CANCELED (by simp)
    · simp [failed, Session.emit, Session.record, close_eq _ (hne _)]
    · simp [failed, Session.emit, Session.record, close_eq _ (hne _)]
  · intro hs
    have hrun : terminate env s options =
        (failed (s.cancel (options.status_code.map
          (fun c => cancelReasonText env c options.reason_phrase))) .local .CANCELED, none) := by
      unfold terminate
      rcases hs with ⟨hs, h100⟩ | hs
      · simp only [hs, hcheck, hreason, h100]
        simp [close_failed]
      · simp only [hs, hcheck, hreason]
        simp [close_failed]
    rw [hrun]
    refine ⟨rfl, ?_, failed_status _ _ _⟩
    simpa [Effect.isSignal] using failed_after s (s.cancel (options.status_code.map
      (fun c => cancelReasonText env c options.reason_phrase))) [.cancel (options.status_code.map
      (fun c => cancelReasonText env c options.reason_phrase))] .local .CANCELED
      (by simp [Session.cancel, Session.record])
  · intro hs hr h3
    have hcode : (if truthyNum options.status_code = true then options.status_code.getD 0
        else 480) = options.status_code.getD 480 := by
      rw [htruthy]
      cases options.status_code <;> simp
    have hok : (decide (options.status_code.getD 480 < 300) ||
        decide (options.status_code.getD 480 ≥ 700)) = false := by
      cases hsc : options.status_code with
      | none => simp
      | some c =>
        have := hv c hsc
        have := h3 c hsc
        simp
        omega
    have hrun : terminate env s options =
        (failed (s.reply request (options.status_code.getD 480) options.reason_phrase
          options.extraHeaders options.body) .local .REJECTED, none) := by
      unfold terminate
      simp only [hs, hcode, hok, hr]
      simp [close_failed]
    rw [hrun]
    refine ⟨rfl, ?_, failed_status _ _ _⟩
    simpa [Effect.isSignal] using failed_after s (s.reply request (options.status_code.getD 480)
      options.reason_phrase options.extraHeaders options.body)
      [.reply request (options.status_code.getD 480) options.reason_phrase
        options.extraHeaders options.body] .local .REJECTED
      (by simp [Session.reply, Session.record])
  · intro hs
    have hrun : terminate env s options =
        (ended (s.sendRequest .BYE (options.extraHeaders ++ (options.status_code.map
          (fun c => reasonHeader env c options.reason_phrase)).toList) options.body)
          .local .BYE, none) := by
      unfold terminate
      rcases hs with hs | hs
      · simp only [hs, hcheck, hhdrs]
        simp [close_ended]
      · simp only [hs, hcheck, hhdrs]
        simp [close_ended]
    rw [hrun]
    refine ⟨rfl, ?_, ended_status _ _ _⟩
    simpa [Effect.isSignal] using ended_after s (s.sendRequest .BYE (options.extraHeaders ++
      (options.status_code.map (fun c => reasonHeader env c options.reason_phrase)).toList)
      options.body) [.sendRequest .BYE (options.extraHeaders ++
      (options.status_code.map (fun c => reasonHeader env c options.reason_phrase)).toList)
      options.body] .local .BYE (by simp [Session.sendRequest, Session.record])
  · intro hs
    have hrun : terminate env s options = (close s, none) := by
      unfold terminate
      rcases hs with hs | hs <;> simp [hs]
    rw [hrun]
    refine ⟨rfl, ?_, close_status _⟩
    rw [signals_of_log s _ _ (close_log s)]
    exact closeEffects_signals s

/-- Witness of C14: the sample sessions in status InviteSent after a 100, WaitingForAnswer and
Confirmed, terminated with status code 486. -/
theorem terminate_by_status_witness :
    signals (receiveInviteResponse sampleEnv sampleInviteSent sample100)
        (terminate sampleEnv (receiveInviteResponse sampleEnv sampleInviteSent sample100)
          ⟨some 486, none, [], none⟩).1 =
      [.cancel (some "SIP ;cause=486 ;text=\"Busy Here\""),
        .emit .failed (some .local) (some .CANCELED)] ∧
    signals sampleWaitingForAnswer
        (terminate sampleEnv sampleWaitingForAnswer ⟨some 486, none, [], none⟩).1 =
      [.reply sampleInviteTagged 486 none [] none,
        .emit .failed (some .local) (some .REJECTED)] ∧
    signals sampleConfirmed (terminate sampleEnv sampleConfirmed ⟨some 486, none, [], none⟩).1 =
      [.sendRequest .BYE ["Reason: SIP ;cause=486; text=\"Busy Here\""] none,
        .emit .ended (some .local) (some .BYE)] :=
  have hv : ∀ c, (⟨some 486, none, [], none⟩ : TerminateOptions).status_code = some c →
      200 ≤ c ∧ c < 700 := by
    intro c hc
    cases hc
    decide
  ⟨((terminate_by_status sampleEnv (receiveInviteResponse sampleEnv sampleInviteSent sample100)
      ⟨some 486, none, [], none⟩ sampleInviteTagged hv).2.1 (Or.inl (by decide))).2.1.trans
      (by decide),
    ((terminate_by_status sampleEnv sampleWaitingForAnswer ⟨some 486, none, [], none⟩
      sampleInviteTagged hv).2.2.1 (by decide) (by decide)
      (by intro c hc; cases hc; decide)).2.1,
    ((terminate_by_status sampleEnv sampleConfirmed ⟨some 486, none, [], none⟩
      sampleInviteTagged hv).2.2.2.1 (Or.inr (by decide))).2.1.trans (by decide)⟩

theorem terminate_throws_unchanged (env : Env) (s : Session) (options : TerminateOptions)
    (e : Exn) (h : (terminate env s options).2 = some e) : (terminate env s options).1 = s := by
  revert h
  unfold terminate
  conv => zeta
  repeat' split
  all_goals simp

/-- C15: `terminate()` validates the status code before it does anything. In Null, InviteSent,
ProvisionalReceived, WaitingForAck and Confirmed it throws TypeError iff a non-zero status code
is given that is below 200 or not below 700; in WaitingForAnswer (the session holds its INVITE)
it throws TypeError iff the effective status code (the given one, or 480 when none is given) is
below 300 or not below 700. Whenever `terminate()` throws, the session is returned unchanged:
no CANCEL, reply or BYE has been sent, no event emitted, no pending cancel recorded, and the
status is what it was. -/
theorem terminate_validates (env : Env) (s : Session) (options : TerminateOptions)
    (hr : s.status = .STATUS_WAITING_FOR_ANSWER → s.request.isSome = true) :
    (s.status = .STATUS_NULL ∨ s.status = .STATUS_INVITE_SENT ∨
        s.status = .STATUS_1XX_RECEIVED ∨ s.status = .STATUS_WAITING_FOR_ACK ∨
        s.status = .STATUS_CONFIRMED →
      ((∃ what, (terminate env s options).2 = some (.TypeError what)) ↔
        ∃ c, options.status_code = some c ∧ c ≠ 0 ∧ (c < 200 ∨ 700 ≤ c))) ∧
    (s.status = .STATUS_WAITING_FOR_ANSWER →
      ((∃ what, (terminate env s options).2 = some (.TypeError what)) ↔
        (rejectionCode options < 300 ∨ 700 ≤ rejectionCode options))) ∧
    (∀ e, (terminate env s options).2 = some e →
      (terminate env s options).1 = s ∧ signals s (terminate env s options).1 = []) := by
  refine ⟨?_, ?_, ?_⟩
  · intro hs
    by_cases hbad : ∃ c, options.status_code = some c ∧ c ≠ 0 ∧ (c < 200 ∨ 700 ≤ c)
    · refine ⟨fun _ => hbad, fun _ => ?_⟩
      obtain ⟨c, hc, h0, hrange⟩ := hbad
      have hcheck : (truthyNum options.status_code &&
          (decide (options.status_code.getD 0 < 200) ||
            decide (options.status_code.getD 0 ≥ 700))) = true := by
        simp [hc, truthyNum, h0]
        omega
      refine ⟨"Invalid status_code: " ++ toString (options.status_code.getD 0), ?_⟩
      unfold terminate
      rcases hs with hs | hs | hs | hs | hs <;> simp only [hs, hcheck] <;> simp
    · refine ⟨fun h => ?_, fun h => absurd h hbad⟩
      exfalso
      have hcheck : (truthyNum options.status_code &&
          (decide (options.status_code.getD 0 < 200) ||
            decide (options.status_code.getD 0 ≥ 700))) = false := by
        cases hc : options.status_code with
        | none => simp [truthyNum]
        | some c =>
          by_cases h0 : c = 0
          · simp [truthyNum, h0]
          · have : ¬ (c < 200 ∨ 700 ≤ c) := fun hrange => hbad ⟨c, hc, h0, hrange⟩
            simp [truthyNum, h0]
            omega
      obtain ⟨what, hw⟩ := h
      unfold terminate at hw
      rcases hs with hs | hs | hs | hs | hs <;> simp only [hs, hcheck] at hw <;> simp at hw
  · intro hs
    have hcode : (if truthyNum options.status_code = true then options.status_code.getD 0
        else 480) = rejectionCode options := by
      unfold rejectionCode
      cases options.status_code with
      | none => simp [truthyNum]
      | some c => by_cases h0 : c = 0 <;> simp [truthyNum, h0]
    obtain ⟨request, hreq⟩ := Option.isSome_iff_exists.mp (hr hs)
    by_cases hbad : rejectionCode options < 300 ∨ 700 ≤ rejectionCode options
    · refine ⟨fun _ => hbad, fun _ => ?_⟩
      have hcheck : (decide (rejectionCode options < 300) ||
          decide (rejectionCode options ≥ 700)) = true := by
        simp
        omega
      refine ⟨"Invalid status_code: " ++ toString (rejectionCode options), ?_⟩
      unfold terminate
      simp only [hs, hcode, hcheck]
      simp
    · refine ⟨fun h => ?_, fun h => absurd h hbad⟩
      exfalso
      have hcheck : (decide (rejectionCode options < 300) ||
          decide (rejectionCode options ≥ 700)) = false := by
        simp
        omega
      obtain ⟨what, hw⟩ := h
      unfold terminate at hw
      simp only [hs, hcode, hcheck, hreq] at hw
      simp at hw
  · intro e he
    have h := terminate_throws_unchanged env s options e he
    rw [h]
    exact ⟨rfl, by simp [signals, newEffects]⟩

/-- Witness of C15: the sample session that waits for the user's answer holds its INVITE;
rejecting it with status code 200 throws TypeError and changes nothing, while 486 is accepted.
-/
theorem terminate_validates_witness :
    sampleWaitingForAnswer.status = .STATUS_WAITING_FOR_ANSWER ∧
    (∃ what, (terminate sampleEnv sampleWaitingForAnswer ⟨some 200, none, [], none⟩).2 =
      some (.TypeError what)) ∧
    (∀ e, (terminate sampleEnv sampleWaitingForAnswer ⟨some 200, none, [], none⟩).2 = some e →
      (terminate sampleEnv sampleWaitingForAnswer ⟨some 200, none, [], none⟩).1 =
        sampleWaitingForAnswer) ∧
    ¬ (∃ what, (terminate sampleEnv sampleWaitingForAnswer ⟨some 486, none, [], none⟩).2 =
      some (.TypeError what)) :=
  ⟨by decide,
    ((terminate_validates sampleEnv sampleWaitingForAnswer ⟨some 200, none, [], none⟩
      (fun _ => by decide)).2.1 (by decide)).mpr (Or.inl (by decide)),
    fun e he => ((terminate_validates sampleEnv sampleWaitingForAnswer
      ⟨some 200, none, [], none⟩ (fun _ => by decide)).2.2 e he).1,
    fun h => absurd (((terminate_validates sampleEnv sampleWaitingForAnswer
      ⟨some 486, none, [], none⟩ (fun _ => by decide)).2.1 (by decide)).mp h) (by decide)⟩

/-! ### Reception of ACK -/

/-- C17: an ACK received in status WaitingForAck cancels the ACK-wait timer and the
2xx-retransmission timer (their handles leave the timer table) and sets the status to
Confirmed; no other field changes, nothing is sent and nothing is emitted. In every other
status an ACK leaves the session exactly as it was. -/
theorem receiveRequest_ack (s : Session) (request : Message) (hm : request.method = .ACK) :
    (s.status = .STATUS_WAITING_FOR_ACK →
      receiveRequest s request = { s with
        status := .STATUS_CONFIRMED
        timeouts := (s.timeouts.filter (fun t => some t.handle != s.timers.ackTimer)).filter
          (fun t => some t.handle != s.timers.invite2xxTimer)
        log := s.log ++ [.clearTimeout .ackTimer s.timers.ackTimer,
          .clearTimeout .invite2xxTimer s.timers.invite2xxTimer] } ∧
      (∀ u ∈ (receiveRequest s request).timeouts,
        some u.handle ≠ s.timers.ackTimer ∧ some u.handle ≠ s.timers.invite2xxTimer) ∧
      signals s (receiveRequest s request) = []) ∧
    (s.status ≠ .STATUS_WAITING_FOR_ACK → receiveRequest s request = s) := by
  constructor
  · intro hs
    have hrun : receiveRequest s request = { s with
        status := .STATUS_CONFIRMED
        timeouts := (s.timeouts.filter (fun t => some t.handle != s.timers.ackTimer)).filter
          (fun t => some t.handle != s.timers.invite2xxTimer)
        log := s.log ++ [.clearTimeout .ackTimer s.timers.ackTimer,
          .clearTimeout .invite2xxTimer s.timers.invite2xxTimer] } := by
      simp [receiveRequest, hm, hs, Session.clearTimeout, Timers.get]
    rw [hrun]
    refine ⟨rfl, ?_, ?_⟩
    · intro u hu
      simp only [List.mem_filter] at hu
      simpa using And.intro hu.1.2 hu.2
    · rw [signals_of_log s _ [.clearTimeout .ackTimer s.timers.ackTimer,
        .clearTimeout .invite2xxTimer s.timers.invite2xxTimer] rfl]
      simp [Effect.isSignal]
  · intro hs
    simp [receiveRequest, hm, hs]

/-- Witness of C17: the sample answered session receives the ACK of the caller. -/
theorem receiveRequest_ack_witness :
    sampleWaitingForAck.status = .STATUS_WAITING_FOR_ACK ∧
    (receiveRequest sampleWaitingForAck sampleAck).status = .STATUS_CONFIRMED ∧
    (receiveRequest sampleWaitingForAck sampleAck).timeouts = [] ∧
    receiveRequest sampleWaitingForAnswer sampleAck = sampleWaitingForAnswer :=
  ⟨by decide,
    (congrArg Session.status ((receiveRequest_ack sampleWaitingForAck sampleAck rfl).1
      (by decide)).1).trans rfl,
    (congrArg Session.timeouts ((receiveRequest_ack sampleWaitingForAck sampleAck rfl).1
      (by decide)).1).trans (by decide),
    (receiveRequest_ack sampleWaitingForAnswer sampleAck rfl).2 (by decide)⟩

/-! ### Failure routing -/

/-- C19: on a session that is not Terminated, `onTransportError`, `onRequestTimeout` and
`onDialogError` emit exactly one event, `ended` if the status is Confirmed and `failed` in
every other status, with cause CONNECTION_ERROR, REQUEST_TIMEOUT and DIALOG_ERROR respectively
(originator system, system and remote), send nothing, and leave the session Terminated. On a
Terminated session each of them returns the session unchanged. -/
theorem failure_routing (s : Session) :
    (s.status = .STATUS_TERMINATED →
      onTransportError s = s ∧ onRequestTimeout s = s ∧ onDialogError s = s) ∧
    (s.status = .STATUS_CONFIRMED →
      signals s (onTransportError s) =
        [.emit .ended (some .system) (some .CONNECTION_ERROR)] ∧
      signals s (onRequestTimeout s) = [.emit .ended (some .system) (some .REQUEST_TIMEOUT)] ∧
      signals s (onDialogError s) = [.emit .ended (some .remote) (some .DIALOG_ERROR)]) ∧
    (s.status ≠ .STATUS_TERMINATED → s.status ≠ .STATUS_CONFIRMED →
      signals s (onTransportError s) =
        [.emit .failed (some .system) (some .CONNECTION_ERROR)] ∧
      signals s (onRequestTimeout s) =
        [.emit .failed (some .system) (some .REQUEST_TIMEOUT)] ∧
      signals s (onDialogError s) = [.emit .failed (some .remote) (some .DIALOG_ERROR)]) ∧
    (onTransportError s).status = .STATUS_TERMINATED ∧
    (onRequestTimeout s).status = .STATUS_TERMINATED ∧
    (onDialogError s).status = .STATUS_TERMINATED := by
  refine ⟨?_, ?_, ?_, ?_, ?_, ?_⟩
  · intro hs
    simp [onTransportError, onRequestTimeout, onDialogError, hs]
  · intro hs
    have e1 : onTransportError s = ended s .system .CONNECTION_ERROR := by
      simp [onTransportError, hs]
    have e2 : onRequestTimeout s = ended s .system .REQUEST_TIMEOUT := by
      simp [onRequestTimeout, hs]
    have e3 : onDialogError s = ended s .remote .DIALOG_ERROR := by
      simp [onDialogError, hs]
    rw [e1, e2, e3]
    exact ⟨by simpa using ended_after s s [] .system .CONNECTION_ERROR (by simp),
      by simpa using ended_after s s [] .system .REQUEST_TIMEOUT (by simp),
      by simpa using ended_after s s [] .remote .DIALOG_ERROR (by simp)⟩
  · intro ht hc
    have e1 : onTransportError s = failed s .system .CONNECTION_ERROR := by
      simp [onTransportError, ht, hc]
    have e2 : onRequestTimeout s = failed s .system .REQUEST_TIMEOUT := by
      simp [onRequestTimeout, ht, hc]
    have e3 : onDialogError s = failed s .remote .DIALOG_ERROR := by
      simp [onDialogError, ht, hc]
    rw [e1, e2, e3]
    exact ⟨by simpa using failed_after s s [] .system .CONNECTION_ERROR (by simp),
      by simpa using failed_after s s [] .system .REQUEST_TIMEOUT (by simp),
      by simpa using failed_after s s [] .remote .DIALOG_ERROR (by simp)⟩
  · unfold onTransportError
    split
    · split
      · exact ended_status _ _ _
      · exact failed_status _ _ _
    · simpa using ‹¬ s.status ≠ .STATUS_TERMINATED›
  · unfold onRequestTimeout
    split
    · split
      · exact ended_status _ _ _
      · exact failed_status _ _ _
    · simpa using ‹¬ s.status ≠ .STATUS_TERMINATED›
  · unfold onDialogError
    split
    · split
      · exact ended_status _ _ _
      · exact failed_status _ _ _
    · simpa using ‹¬ s.status ≠ .STATUS_TERMINATED›

/-- Witness of C19: a transport error on the confirmed sample session is reported by `ended`,
on the sample session in status InviteSent by `failed`, and on a terminated session not at
all. -/
theorem failure_routing_witness :
    signals sampleConfirmed (onTransportError sampleConfirmed) =
      [.emit .ended (some .system) (some .CONNECTION_ERROR)] ∧
    signals sampleInviteSent (onTransportError sampleInviteSent) =
      [.emit .failed (some .system) (some .CONNECTION_ERROR)] ∧
    onTransportError sampleTerminated = sampleTerminated :=
  ⟨((failure_routing sampleConfirmed).2.1 (by decide)).1,
    ((failure_routing sampleInviteSent).2.2.1 (by decide) (by decide)).1,
    ((failure_routing sampleTerminated).1 (by decide)).1⟩

/-! ### A failed re-INVITE -/

/-- C20: on a Confirmed session a final non-2xx response (status 300..699) given to
`receiveReinviteResponse` leaves the session exactly as it was: the status stays Confirmed, the
confirmed dialog, the timers and the streams are untouched, no request is sent and neither
`failed` nor `ended` is emitted. -/
theorem reinvite_failure_absorbed (env : Env) (s : Session) (response : Message)
    (hs : s.status = .STATUS_CONFIRMED)
    (hc : 300 ≤ response.status_code ∧ response.status_code ≤ 699) :
    receiveReinviteResponse env s response = s ∧
    (receiveReinviteResponse env s response).status = .STATUS_CONFIRMED ∧
    signals s (receiveReinviteResponse env s response) = [] := by
  have h1 : is1xx response.status_code = false := by
    simp [is1xx]; omega
  have h2 : is2xx response.status_code = false := by
    simp [is2xx]; omega
  have hrun : receiveReinviteResponse env s response = s := by
    simp [receiveReinviteResponse, hs, h1, h2]
  rw [hrun]
  exact ⟨rfl, hs, by simp [signals, newEffects]⟩

/-- Witness of C20: the confirmed sample session whose re-INVITE is answered with 486. -/
theorem reinvite_failure_absorbed_witness :
    sampleReinviting.status = .STATUS_CONFIRMED ∧
    receiveReinviteResponse sampleEnv sampleReinviting sample486 = sampleReinviting :=
  ⟨by decide, (reinvite_failure_absorbed sampleEnv sampleReinviting sample486 (by decide)
    (by decide)).1⟩

/-! ### The first 2xx -/

theorem createDialog_confirmed_eq (s : Session) (m : Message) (ty : DialogType)
    (h : (createDialog s m ty false).1 = true) :
    ∃ d eds tt nd e, e.isSignal = false ∧
      createDialog s m ty false =
        (true, { s with dialog := some d, earlyDialogs := eds, to_tag := tt, nextDialog := nd,
                        log := s.log ++ [e] }) := by
  revert h
  unfold createDialog
  simp only [Bool.false_eq_true, if_false]
  split
  · rename_i d hl
    intro _
    exact ⟨_, _, s.to_tag, s.nextDialog, .dialogUpdate d.serial, rfl, rfl⟩
  · split
    · rename_i d hd
      intro _
      exact ⟨_, s.earlyDialogs, _, _, .dialogCreated d.serial false, rfl, rfl⟩
    · intro h
      simp at h

theorem filter_signal_cons (e : Effect) (es : List Effect) (he : e.isSignal = false) :
    (e :: es).filter Effect.isSignal = es.filter Effect.isSignal := by
  simp [List.filter_cons, he]

theorem createDialog_of_contact (s : Session) (m : Message) (ty : DialogType)
    (h : m.hasContact = true) : (createDialog s m ty false).1 = true := by
  unfold createDialog
  simp only [Bool.false_eq_true, if_false]
  split
  · rfl
  · simp [Dialog.construct, h]

/-- C18: the outcome of the first 2xx is decided by the media engine. For every outgoing
session (it has its media handler) in status InviteSent or ProvisionalReceived with no pending
cancel and no confirmed dialog, a 2xx with a non-empty body of Content-Type application/sdp
whose dialog can be installed hands the body to the media engine and sends nothing yet; the
status is unchanged. If the engine accepts the answer, exactly one ACK is sent, the status
becomes Confirmed and `started` is emitted with originator remote. If the engine rejects it, ACK
and then BYE with the Reason header of cause 488 are sent, `failed` is emitted with originator
remote and cause BAD_MEDIA_DESCRIPTION, and the session ends Terminated without ever having
been Confirmed. -/
theorem first_2xx_outcome (env : Env) (s : Session) (response : Message)
    (hs : s.status = .STATUS_INVITE_SENT ∨ s.status = .STATUS_1XX_RECEIVED)
    (hc : s.isCanceled = false) (hd : s.dialog = none) (hm : s.rtcMediaHandler = true)
    (h2 : sdp2xx response) (hk : dialogCreatable s response) :
    signals s (receiveInviteResponse env s response) = [] ∧
    Effect.onMessage "answer" (response.body.getD "") ∈
      newEffects s (receiveInviteResponse env s response) ∧
    (receiveInviteResponse env s response).status = s.status ∧
    enabled (receiveInviteResponse env s response) (.callback (.inviteAnswer response) .success)
      = true ∧
    signals s (step env (receiveInviteResponse env s response)
        (.callback (.inviteAnswer response) .success)) =
      [.sendRequest .ACK [] none, .emit .started (some .remote) none] ∧
    (step env (receiveInviteResponse env s response)
      (.callback (.inviteAnswer response) .success)).status = .STATUS_CONFIRMED ∧
    signals s (step env (receiveInviteResponse env s response)
        (.callback (.inviteAnswer response) .failure)) =
      [.sendRequest .ACK [] none, .sendRequest .BYE [reasonHeader env 488 none] none,
        .emit .failed (some .remote) (some .BAD_MEDIA_DESCRIPTION)] ∧
    (step env (receiveInviteResponse env s response)
      (.callback (.inviteAnswer response) .failure)).status = .STATUS_TERMINATED ∧
    (receiveInviteResponse env s response).status ≠ .STATUS_CONFIRMED := by
  obtain ⟨hlo, hhi, hb, hct⟩ := h2
  obtain ⟨d, eds, tt, nd, e, he, hcd⟩ := createDialog_confirmed_eq s response .UAC
    (createDialog_uac_confirmed s response hk).choose_spec.1
  have hst : ¬ (s.status ≠ .STATUS_INVITE_SENT ∧ s.status ≠ .STATUS_1XX_RECEIVED) := by
    rcases hs with h | h <;> simp [h]
  have h100 : is100 response.status_code = false := by
    simp [is100]; omega
  have h1xx : is1xx response.status_code = false := by
    simp [is1xx]; omega
  have h2xx : is2xx response.status_code = true := by
    simp [is2xx]; omega
  have hrun : receiveInviteResponse env s response =
      { s with dialog := some d, earlyDialogs := eds, to_tag := tt, nextDialog := nd,
               pending := s.pending ++ [.inviteAnswer response],
               log := s.log ++ [e, .onMessage "answer" (response.body.getD "")] } := by
    unfold receiveInviteResponse
    simp only [hst, if_false, hc, h100, h1xx, h2xx, if_true, hd, Option.isSome_none, hb,
      Bool.not_true, Bool.false_eq_true, hct, ne_eq, not_true_eq_false, hcd, hm]
    simp [Session.record, Session.await]
  have hnc : s.status ≠ .STATUS_CONFIRMED := by
    rcases hs with h | h <;> simp [h]
  generalize receiveInviteResponse env s response = s1 at hrun ⊢
  have hlog1 : s1.log = s.log ++ [e, .onMessage "answer" (response.body.getD "")] := by
    rw [hrun]
  have hdlg1 : s1.dialog.isSome = true := by
    rw [hrun]
    rfl
  have hst1 : s1.status = s.status := by
    rw [hrun]
  have hpend1 : s1.pending = s.pending ++ [.inviteAnswer response] := by
    rw [hrun]
  refine ⟨?_, ?_, hst1, ?_, ?_, ?_, ?_, ?_, hst1 ▸ hnc⟩
  · rw [signals_of_log s _ _ hlog1]
    rw [filter_signal_cons _ _ he]
    simp [Effect.isSignal]
  · rw [newEffects_of_log s _ _ hlog1]
    simp
  · simp [enabled, hpend1]
  · rw [signals_of_log s _ [e, .onMessage "answer" (response.body.getD ""),
      .sendRequest .ACK [] none, .emit .started (some .remote) none]
      (by simp [step, runCallback, receiveInviteResponse_onAnswer, started, Session.emit,
        Session.sendRequest, Session.record, Session.resolve, hlog1])]
    rw [filter_signal_cons _ _ he]
    simp [Effect.isSignal]
  · simp [step, runCallback, receiveInviteResponse_onAnswer, started, Session.emit,
      Session.sendRequest, Session.record, Session.resolve]
  · have hstep : step env s1 (.callback (.inviteAnswer response) .failure) =
        failed (((s1.resolve (.inviteAnswer response)).sendRequest .ACK [] none).sendRequest .BYE
          [reasonHeader env 488 none] none) .remote .BAD_MEDIA_DESCRIPTION := by
      simp [step, runCallback, receiveInviteResponse_onAnswerFailure, acceptAndTerminate,
        Session.resolve, truthyNum, hdlg1]
    rw [hstep]
    have := failed_after s (((s1.resolve (.inviteAnswer response)).sendRequest .ACK []
        none).sendRequest .BYE [reasonHeader env 488 none] none)
      [e, .onMessage "answer" (response.body.getD ""), .sendRequest .ACK [] none,
        .sendRequest .BYE [reasonHeader env 488 none] none] .remote .BAD_MEDIA_DESCRIPTION
      (by simp [Session.sendRequest, Session.record, Session.resolve, hlog1])
    rw [filter_signal_cons _ _ he] at this
    simpa [Effect.isSignal] using this
  · simp only [step, runCallback, receiveInviteResponse_onAnswerFailure]
    exact failed_status _ _ _

/-- Witness of C18: the sample session in status InviteSent receives the sample 200. -/
theorem first_2xx_outcome_witness :
    sampleInviteSent.status = .STATUS_INVITE_SENT ∧
    signals sampleInviteSent (step sampleEnv
        (receiveInviteResponse sampleEnv sampleInviteSent sample200)
        (.callback (.inviteAnswer sample200) .success)) =
      [.sendRequest .ACK [] none, .emit .started (some .remote) none] ∧
    signals sampleInviteSent (step sampleEnv
        (receiveInviteResponse sampleEnv sampleInviteSent sample200)
        (.callback (.inviteAnswer sample200) .failure)) =
      [.sendRequest .ACK [] none, .sendRequest .BYE ["Reason: SIP ;cause=488; text=\"\""] none,
        .emit .failed (some .remote) (some .BAD_MEDIA_DESCRIPTION)] :=
  have h := first_2xx_outcome sampleEnv sampleInviteSent sample200 (Or.inl (by decide))
    (by decide) (by decide) (by decide) (by decide) (Or.inr (by decide))
  ⟨by decide, h.2.2.2.2.1, h.2.2.2.2.2.2.1.trans (by decide)⟩

/-! ### Answering -/

theorem answer_accepts (s : Session) (request : Message) (extraHeaders : List String)
    (hd : s.direction = some .incoming) (hs : s.status = .STATUS_WAITING_FOR_ANSWER)
    (hr : s.request = some request) (hk : request.hasContact = true) :
    ∃ e, e.isSignal = false ∧ (answer s extraHeaders).2 = none ∧
      (answer s extraHeaders).1.log = s.log ++
        [e, .clearTimeout .userNoAnswerTimer s.timers.userNoAnswerTimer, .getUserMedia] ∧
      (answer s extraHeaders).1.status = s.status ∧
      (answer s extraHeaders).1.rtcMediaHandler = s.rtcMediaHandler ∧
      (answer s extraHeaders).1.pending = s.pending ++ [.answerUserMedia request extraHeaders] ∧
      (answer s extraHeaders).1.timeouts =
        s.timeouts.filter (fun t => some t.handle != s.timers.userNoAnswerTimer) ∧
      (answer s extraHeaders).1.timers = s.timers ∧
      (answer s extraHeaders).1.nextHandle = s.nextHandle ∧
      (answer s extraHeaders).1.contact = s.contact ∧
      (answer s extraHeaders).1.localMediaStreams = s.localMediaStreams := by
  obtain ⟨d, eds, tt, nd, e, he, hcd⟩ := createDialog_confirmed_eq s request .UAS
    (createDialog_of_contact s request .UAS hk)
  refine ⟨e, he, ?_⟩
  unfold answer
  simp only [hd, hs, hr, hcd, ne_eq, not_true_eq_false, if_false]
  simp [Session.await, Session.record, Session.clearTimeout, Timers.get]

theorem answer_onUserMedia_accepts (env : Env) (s : Session) (request : Message)
    (extraHeaders : List String) (stream : MediaStream) (hm : s.rtcMediaHandler = true)
    (hs : s.status = .STATUS_WAITING_FOR_ANSWER) :
    (answer_onUserMedia env s request extraHeaders stream true).log =
        s.log ++ addStreamEffects s stream ++ [.createAnswer] ∧
      (answer_onUserMedia env s request extraHeaders stream true).status = s.status ∧
      (answer_onUserMedia env s request extraHeaders stream true).pending =
        s.pending ++ [.answerCreateAnswer request extraHeaders] ∧
      (answer_onUserMedia env s request extraHeaders stream true).timeouts = s.timeouts ∧
      (answer_onUserMedia env s request extraHeaders stream true).timers = s.timers ∧
      (answer_onUserMedia env s request extraHeaders stream true).nextHandle = s.nextHandle ∧
      (answer_onUserMedia env s request extraHeaders stream true).contact = s.contact := by
  unfold answer_onUserMedia addMediaStream addStreamEffects
  by_cases hp : (getStreamById s stream.id).isSome = true
  · simp [hp, hm, Session.record, Session.await]
  · simp [hp, hm, hs, Session.record, Session.await, mediaStreamAdded, Session.emit]

/-- C16: for every incoming session in status WaitingForAnswer (it holds its INVITE, which
carries a Contact header, and its media handler), when `answer()` is called, local media is
obtained, the media engine produces an answer body and the delivery of the 200 is reported,
each of these callbacks being outstanding when it arrives, then: the no-answer timer has been
cancelled (its handle has left the timer table); exactly one reply has been sent, a 200 that
carries the answer body and, after the headers of the caller, a Contact header; the status is
WaitingForAck; the 2xx-retransmission timer (delay T1) and the ACK-wait timer (delay TIMER_H)
are scheduled; and exactly one `started` event, with originator local, has been emitted, the
only other event being `mediaStreamAdded` for a stream not yet held. -/
theorem answer_succeeds (env : Env) (s : Session) (request : Message)
    (extraHeaders : List String) (stream : MediaStream) (body : String)
    (hd : s.direction = some .incoming) (hs : s.status = .STATUS_WAITING_FOR_ANSWER)
    (hr : s.request = some request) (hk : request.hasContact = true)
    (hm : s.rtcMediaHandler = true) :
    runEnabled env s (answerEvents request extraHeaders stream body) =
      some (run env s (answerEvents request extraHeaders stream body)) ∧
    (run env s (answerEvents request extraHeaders stream body)).status =
      .STATUS_WAITING_FOR_ACK ∧
    Effect.clearTimeout .userNoAnswerTimer s.timers.userNoAnswerTimer ∈
      newEffects s (run env s (answerEvents request extraHeaders stream body)) ∧
    (run env s (answerEvents request extraHeaders stream body)).timeouts =
      s.timeouts.filter (fun t => some t.handle != s.timers.userNoAnswerTimer) ++
        [⟨s.nextHandle, .invite2xx request body none, env.T1⟩,
          ⟨s.nextHandle + 1, .ack, env.TIMER_H⟩] ∧
    (run env s (answerEvents request extraHeaders stream body)).timers.invite2xxTimer =
      some s.nextHandle ∧
    (run env s (answerEvents request extraHeaders stream body)).timers.ackTimer =
      some (s.nextHandle + 1) ∧
    signals s (run env s (answerEvents request extraHeaders stream body)) =
      (addStreamEffects s stream).filter Effect.isSignal ++
        [.reply request 200 none (extraHeaders ++ ["Contact: " ++ s.contact.getD "undefined"])
            (some body),
          .emit .started (some .local) none] := by
  obtain ⟨e, he, hA2, hAlog, hAst, hAm, hAp, hAto, hAti, hAnh, hAc, hAl⟩ :=
    answer_accepts s request extraHeaders hd hs hr hk
  generalize hsA : (answer s extraHeaders).1 = sA at hAlog hAst hAm hAp hAto hAti hAnh hAc hAl
  have hB := answer_onUserMedia_accepts env (sA.resolve (.answerUserMedia request extraHeaders))
    request extraHeaders stream (by simpa [Session.resolve] using hAm.trans hm)
    (by simpa [Session.resolve] using hAst.trans hs)
  generalize hsB : answer_onUserMedia env (sA.resolve (.answerUserMedia request extraHeaders))
    request extraHeaders stream true = sB at hB
  obtain ⟨hBlog, hBst, hBp, hBto, hBti, hBnh, hBc⟩ := hB
  have hfx : addStreamEffects (sA.resolve (.answerUserMedia request extraHeaders)) stream =
      addStreamEffects s stream := by
    simp [addStreamEffects, getStreamById, Session.resolve, hAl]
  have hBlog' : sB.log = s.log ++
      [e, .clearTimeout .userNoAnswerTimer s.timers.userNoAnswerTimer, .getUserMedia] ++
      addStreamEffects s stream ++ [.createAnswer] := by
    rw [hBlog, hfx]
    simp [Session.resolve, hAlog]
  have hBnh' : sB.nextHandle = s.nextHandle := (hBnh.trans rfl).trans hAnh
  have hBto' : sB.timeouts =
      s.timeouts.filter (fun t => some t.handle != s.timers.userNoAnswerTimer) :=
    (hBto.trans rfl).trans hAto
  have hBc' : sB.contact = s.contact := (hBc.trans rfl).trans hAc
  have hCp : Callback.answerReply request body ∈ (answer_onAnswer
      (sB.resolve (.answerCreateAnswer request extraHeaders)) request extraHeaders
      body).pending := by
    simp [answer_onAnswer, Session.await]
  have hClog : (answer_onAnswer (sB.resolve (.answerCreateAnswer request extraHeaders)) request
      extraHeaders body).log = sB.log ++
        [.reply request 200 none (extraHeaders ++ ["Contact: " ++ s.contact.getD "undefined"])
          (some body)] := by
    simp [answer_onAnswer, Session.await, Session.reply, Session.record, Session.resolve, hBc']
  have hCto : (answer_onAnswer (sB.resolve (.answerCreateAnswer request extraHeaders)) request
      extraHeaders body).timeouts = sB.timeouts := rfl
  have hCnh : (answer_onAnswer (sB.resolve (.answerCreateAnswer request extraHeaders)) request
      extraHeaders body).nextHandle = sB.nextHandle := rfl
  generalize hsC : answer_onAnswer (sB.resolve (.answerCreateAnswer request extraHeaders))
    request extraHeaders body = sC at hCp hClog hCto hCnh
  have m1 : Callback.answerUserMedia request extraHeaders ∈ sA.pending := by
    simp [hAp]
  have m2 : Callback.answerCreateAnswer request extraHeaders ∈ sB.pending := by
    rw [hBp]
    simp
  have hrun : run env s (answerEvents request extraHeaders stream body) =
      answer_onReply env (sC.resolve (.answerReply request body)) request body := by
    simp only [run, answerEvents, List.foldl, step, runCallback, hsA, hsB, hsC]
  have hen : runEnabled env s (answerEvents request extraHeaders stream body) =
      some (run env s (answerEvents request extraHeaders stream body)) := by
    rw [hrun]
    simp only [runEnabled, answerEvents, enabled, step, runCallback, hsA, hsB, hsC, m1, m2, hCp,
      decide_True, if_true]
  refine ⟨hen, ?_⟩
  rw [hrun]
  have hlog : (answer_onReply env (sC.resolve (.answerReply request body)) request body).log =
      s.log ++ ([e, .clearTimeout .userNoAnswerTimer s.timers.userNoAnswerTimer, .getUserMedia] ++
        addStreamEffects s stream ++
        [.createAnswer,
          .reply request 200 none (extraHeaders ++ ["Contact: " ++ s.contact.getD "undefined"])
            (some body),
          .setTimeout .invite2xxTimer s.nextHandle env.T1,
          .setTimeout .ackTimer (s.nextHandle + 1) env.TIMER_H,
          .emit .started (some .local) none]) := by
    simp [answer_onReply, started, setACKTimer, setInvite2xxTimer,
      Session.setTimeout, Session.emit, Session.record,
      Session.resolve, hClog, hCnh, hBlog', hBnh']
  refine ⟨?_, ?_, ?_, ?_, ?_, ?_⟩
  · simp [answer_onReply, started, setACKTimer, setInvite2xxTimer, Session.setTimeout,
      Session.emit, Session.record]
  · rw [newEffects_of_log _ _ _ hlog]
    simp
  · simp [answer_onReply, started, setACKTimer, setInvite2xxTimer,
      Session.setTimeout, Session.emit, Session.record,
      Session.resolve, hCto, hCnh, hBto', hBnh']
  · simp [answer_onReply, started, setACKTimer, setInvite2xxTimer,
      Session.setTimeout, Session.emit, Session.record,
      Session.resolve, Timers.set, hCnh, hBnh']
  · simp [answer_onReply, started, setACKTimer, setInvite2xxTimer,
      Session.setTimeout, Session.emit, Session.record,
      Session.resolve, Timers.set, hCnh, hBnh']
  · rw [signals_of_log _ _ _ hlog]
    rw [List.append_assoc, List.cons_append, filter_signal_cons _ _ he]
    simp [List.filter_append, Effect.isSignal]

/-- Witness of C16: the sample incoming session is answered. -/
theorem answer_succeeds_witness :
    sampleWaitingForAnswer.status = .STATUS_WAITING_FOR_ANSWER ∧
    (run sampleEnv sampleWaitingForAnswer
      (answerEvents sampleInviteTagged [] sampleStream "v=0")).status =
        .STATUS_WAITING_FOR_ACK ∧
    signals sampleWaitingForAnswer (run sampleEnv sampleWaitingForAnswer
        (answerEvents sampleInviteTagged [] sampleStream "v=0")) =
      [.emit .mediaStreamAdded (some .local) none,
        .reply sampleInviteTagged 200 none ["Contact: sip:alice@example.com"] (some "v=0"),
        .emit .started (some .local) none] :=
  have h := answer_succeeds sampleEnv sampleWaitingForAnswer sampleInviteTagged [] sampleStream
    "v=0" (by decide) (by decide) (by decide) (by decide) (by decide)
  ⟨by decide, h.2.1, h.2.2.2.2.2.2.trans (by decide)⟩

/-! ### What close() leaves behind -/

/-- C21: for every session whose status is not Terminated, `close()` does exactly this, in
this order: it closes the media handler (if the session has one), invokes `stop()` on the
extra local stream (if any), on every local and on every remote stream, cancels each of the
four timers, invokes `terminate()` once on the confirmed dialog (if any) and once on every
early dialog. Afterwards no timer of the four slots is in the timer table, no dialog is held,
the status is Terminated, and `ua.sessions` no longer contains the session's id while every
other registry entry is kept. -/
theorem close_postcondition (s : Session) (hs : s.status ≠ .STATUS_TERMINATED) :
    newEffects s (close s) =
      (if s.rtcMediaHandler then [Effect.mediaHandlerClose] else []) ++
      s.localMediaStream.toList.map (fun m => Effect.streamStop .local m.id) ++
      s.localMediaStreams.map (fun m => Effect.streamStop .local m.id) ++
      s.remoteMediaStreams.map (fun m => Effect.streamStop .remote m.id) ++
      [.clearTimeout .ackTimer s.timers.ackTimer,
        .clearTimeout .expiresTimer s.timers.expiresTimer,
        .clearTimeout .invite2xxTimer s.timers.invite2xxTimer,
        .clearTimeout .userNoAnswerTimer s.timers.userNoAnswerTimer] ++
      s.dialog.toList.map (fun d => Effect.dialogTerminate d.serial) ++
      s.earlyDialogs.map (fun e => Effect.dialogTerminate e.2.serial) ∧
    (∀ u ∈ (close s).timeouts, u ∈ s.timeouts ∧
      some u.handle ≠ s.timers.ackTimer ∧ some u.handle ≠ s.timers.expiresTimer ∧
      some u.handle ≠ s.timers.invite2xxTimer ∧ some u.handle ≠ s.timers.userNoAnswerTimer) ∧
    (close s).dialog = none ∧ (close s).earlyDialogs = [] ∧
    (close s).status = .STATUS_TERMINATED ∧
    s.key ∉ (close s).uaSessions ∧
    (∀ k, k ≠ s.key → (k ∈ (close s).uaSessions ↔ k ∈ s.uaSessions)) ∧
    (close s).uaSessions = s.uaSessions.filter (fun k => k != s.key) := by
  refine ⟨?_, ?_, ?_, ?_, close_status s, ?_, ?_, ?_⟩
  · rw [newEffects_of_log s _ _ (close_log s)]
    unfold closeEffects
    rw [if_neg hs]
    cases s.localMediaStream <;> cases s.dialog <;> simp
  · intro u hu
    rw [close_eq s hs] at hu
    simp only [closeTimeouts, List.mem_filter] at hu
    refine ⟨hu.1.1.1.1, ?_, ?_, ?_, ?_⟩
    · simpa using hu.1.1.1.2
    · simpa using hu.1.1.2
    · simpa using hu.1.2
    · simpa using hu.2
  · rw [close_eq s hs]
  · rw [close_eq s hs]
  · rw [close_eq s hs]
    simp [List.mem_filter]
  · intro k hk
    rw [close_eq s hs]
    simp [List.mem_filter, hk]
  · rw [close_eq s hs]

/-- Witness of C21: the sample answered session is closed; it holds its media handler, one
local stream, a confirmed dialog and both answer timers, and is registered under its id. -/
theorem close_postcondition_witness :
    sampleWaitingForAck.status ≠ .STATUS_TERMINATED ∧
    sampleWaitingForAck.uaSessions = ["call1from1"] ∧
    newEffects sampleWaitingForAck (close sampleWaitingForAck) =
      [.mediaHandlerClose, .streamStop .local "stream1", .clearTimeout .ackTimer (some 2),
        .clearTimeout .expiresTimer none, .clearTimeout .invite2xxTimer (some 1),
        .clearTimeout .userNoAnswerTimer (some 0), .dialogTerminate 0] ∧
    (close sampleWaitingForAck).uaSessions = [] :=
  ⟨by decide, by decide,
    (close_postcondition sampleWaitingForAck (by decide)).1.trans (by decide),
    (close_postcondition sampleWaitingForAck (by decide)).2.2.2.2.2.2.2.trans (by decide)⟩

/-! ### Rejecting an inbound INVITE -/

theorem createDialog_early_eq (s : Session) (m : Message) (ty : DialogType)
    (h : (createDialog s m ty true).1 = true) :
    ∃ eds nd es, (∀ e ∈ es, ∃ n, e = Effect.dialogCreated n true) ∧
      createDialog s m ty true =
        (true, { s with earlyDialogs := eds, nextDialog := nd, log := s.log ++ es }) := by
  revert h
  unfold createDialog
  simp only [if_true]
  split
  · intro _
    exact ⟨s.earlyDialogs, s.nextDialog, [], by simp, by simp⟩
  · split
    · rename_i d hd
      intro _
      exact ⟨_, _, [.dialogCreated d.serial true], by simp, rfl⟩
    · intro h
      simp at h

/-- C22: rejecting an inbound INVITE has no effect beyond the reply. For every inbound INVITE
that carries a body and whose early dialog was created: if the Content-Type is not exactly
`application/sdp`, `init_incoming` sends exactly one reply, 415, and nothing is handed to the
media engine; if it is `application/sdp` the body is handed to the engine and, when the engine
rejects the offer, exactly one reply, 488, is sent. In both cases the status is InviteReceived
(never WaitingForAnswer), no timer is scheduled, no `newRTCSession` event (no event at all) is
emitted, and the status, the confirmed dialog, the early dialogs and the `ua.sessions` registry
are the same after the rejection as immediately before it. -/
theorem init_incoming_rejects (env : Env) (s : Session) (request : Message) (newTag : String)
    (hb : truthy request.body = true)
    (hk : (createDialog (initIncomingParams env s (taggedInvite request newTag))
      (taggedInvite request newTag) .UAS true).1 = true) :
    (request.contentType ≠ some "application/sdp" →
      signals s (init_incoming env s request newTag) =
        [.reply (taggedInvite request newTag) 415 none [] none] ∧
      (∀ type body, Effect.onMessage type body ∉
        newEffects s (init_incoming env s request newTag)) ∧
      (∀ slot h d, Effect.setTimeout slot h d ∉
        newEffects s (init_incoming env s request newTag)) ∧
      (init_incoming env s request newTag).status = .STATUS_INVITE_RECEIVED ∧
      (init_incoming env s request newTag).status =
        (beforeRejection env s request newTag).status ∧
      (init_incoming env s request newTag).dialog =
        (beforeRejection env s request newTag).dialog ∧
      (init_incoming env s request newTag).earlyDialogs =
        (beforeRejection env s request newTag).earlyDialogs ∧
      (init_incoming env s request newTag).uaSessions =
        (beforeRejection env s request newTag).uaSessions ∧
      (init_incoming env s request newTag).timeouts = s.timeouts) ∧
    (request.contentType = some "application/sdp" →
      signals s (init_incoming env s request newTag) = [] ∧
      Effect.onMessage "offer" (request.body.getD "") ∈
        newEffects s (init_incoming env s request newTag) ∧
      enabled (init_incoming env s request newTag)
        (.callback (.incomingOffer (taggedInvite request newTag)
          (request.expires.map (fun e => e * 1000))) .failure) = true ∧
      signals s (step env (init_incoming env s request newTag)
        (.callback (.incomingOffer (taggedInvite request newTag)
          (request.expires.map (fun e => e * 1000))) .failure)) =
        [.reply (taggedInvite request newTag) 488 none [] none] ∧
      (∀ slot h d, Effect.setTimeout slot h d ∉
        newEffects s (step env (init_incoming env s request newTag)
          (.callback (.incomingOffer (taggedInvite request newTag)
            (request.expires.map (fun e => e * 1000))) .failure))) ∧
      (step env (init_incoming env s request newTag)
        (.callback (.incomingOffer (taggedInvite request newTag)
          (request.expires.map (fun e => e * 1000))) .failure)).status =
        .STATUS_INVITE_RECEIVED ∧
      (step env (init_incoming env s request newTag)
        (.callback (.incomingOffer (taggedInvite request newTag)
          (request.expires.map (fun e => e * 1000))) .failure)).dialog =
        (init_incoming env s request newTag).dialog ∧
      (step env (init_incoming env s request newTag)
        (.callback (.incomingOffer (taggedInvite request newTag)
          (request.expires.map (fun e => e * 1000))) .failure)).earlyDialogs =
        (init_incoming env s request newTag).earlyDialogs ∧
      (step env (init_incoming env s request newTag)
        (.callback (.incomingOffer (taggedInvite request newTag)
          (request.expires.map (fun e => e * 1000))) .failure)).uaSessions =
        (init_incoming env s request newTag).uaSessions ∧
      (step env (init_incoming env s request newTag)
        (.callback (.incomingOffer (taggedInvite request newTag)
          (request.expires.map (fun e => e * 1000))) .failure)).timeouts = s.timeouts) := by
  obtain ⟨eds, nd, es, hes, hcd⟩ := createDialog_early_eq _ _ _ hk
  have hfil : es.filter Effect.isSignal = [] := by
    rw [List.filter_eq_nil_iff]
    intro e he
    obtain ⟨n, rfl⟩ := hes e he
    simp [Effect.isSignal]
  have hb' : truthy (taggedInvite request newTag).body = true := hb
  constructor
  · intro hct
    have hrun : init_incoming env s request newTag =
        (beforeRejection env s request newTag).reply (taggedInvite request newTag) 415 none []
          none := by
      unfold init_incoming beforeRejection
      simp only [taggedInvite] at hcd hb' ⊢
      simp only [hcd, hb', if_true, hct, ne_eq, not_false_eq_true]
    have hlog : (init_incoming env s request newTag).log =
        s.log ++ (es ++ [.reply (taggedInvite request newTag) 415 none [] none]) := by
      rw [hrun]
      unfold beforeRejection
      rw [hcd]
      simp [Session.reply, Session.record, initIncomingParams]
    refine ⟨?_, ?_, ?_, ?_, ?_, ?_, ?_, ?_, ?_⟩
    · rw [signals_of_log _ _ _ hlog]
      simp [List.filter_append, hfil, Effect.isSignal]
    · intro type body hmem
      rw [newEffects_of_log _ _ _ hlog] at hmem
      simp only [List.mem_append, List.mem_singleton, reduceCtorEq, or_false] at hmem
      obtain ⟨n, hn⟩ := hes _ hmem
      cases hn
    · intro slot h d hmem
      rw [newEffects_of_log _ _ _ hlog] at hmem
      simp only [List.mem_append, List.mem_singleton, reduceCtorEq, or_false] at hmem
      obtain ⟨n, hn⟩ := hes _ hmem
      cases hn
    · rw [hrun]
      unfold beforeRejection
      rw [hcd]
      rfl
    · rw [hrun]
      rfl
    · rw [hrun]
      rfl
    · rw [hrun]
      rfl
    · rw [hrun]
      rfl
    · rw [hrun]
      unfold beforeRejection
      rw [hcd]
      rfl
  · intro hct
    have hrun : init_incoming env s request newTag =
        ((({ beforeRejection env s request newTag with rtcMediaHandler := true }.record
          .mediaHandlerNew).record (.onMessage "offer" (request.body.getD ""))).await
            (.incomingOffer (taggedInvite request newTag)
              (request.expires.map (fun e => e * 1000)))) := by
      unfold init_incoming beforeRejection
      simp only [taggedInvite] at hcd hb' ⊢
      simp only [hcd]
      simp only [hb', if_true, hct, ne_eq, not_true_eq_false, if_false]
    have hlog : (init_incoming env s request newTag).log =
        s.log ++ (es ++ [.mediaHandlerNew, .onMessage "offer" (request.body.getD "")]) := by
      rw [hrun]
      unfold beforeRejection
      rw [hcd]
      simp [Session.await, Session.record, initIncomingParams]
    have hstep : step env (init_incoming env s request newTag)
        (.callback (.incomingOffer (taggedInvite request newTag)
          (request.expires.map (fun e => e * 1000))) .failure) =
        ((init_incoming env s request newTag).resolve (.incomingOffer
          (taggedInvite request newTag) (request.expires.map (fun e => e * 1000)))).reply
          (taggedInvite request newTag) 488 none [] none := rfl
    have hlog2 : (step env (init_incoming env s request newTag)
        (.callback (.incomingOffer (taggedInvite request newTag)
          (request.expires.map (fun e => e * 1000))) .failure)).log =
        s.log ++ (es ++ [.mediaHandlerNew, .onMessage "offer" (request.body.getD ""),
          .reply (taggedInvite request newTag) 488 none [] none]) := by
      rw [hstep]
      simp [Session.reply, Session.record, Session.resolve, hlog]
    refine ⟨?_, ?_, ?_, ?_, ?_, ?_, ?_, ?_, ?_, ?_⟩
    · rw [signals_of_log _ _ _ hlog]
      simp [List.filter_append, hfil, Effect.isSignal]
    · rw [newEffects_of_log _ _ _ hlog]
      simp
    · rw [hrun]
      simp [enabled, Session.await]
    · rw [signals_of_log _ _ _ hlog2]
      simp [List.filter_append, hfil, Effect.isSignal]
    · intro slot h d hmem
      rw [newEffects_of_log _ _ _ hlog2] at hmem
      simp only [List.mem_append, List.mem_cons, List.mem_singleton, reduceCtorEq, or_false,
        false_or, List.mem_nil_iff] at hmem
      obtain ⟨n, hn⟩ := hes _ hmem
      cases hn
    · rw [hstep, hrun]
      unfold beforeRejection
      rw [hcd]
      rfl
    · rw [hstep]
      rfl
    · rw [hstep]
      rfl
    · rw [hstep]
      rfl
    · rw [hstep, hrun]
      unfold beforeRejection
      rw [hcd]
      rfl

/-- Witness of C22: an INVITE with a text body is rejected with 415, and the sample INVITE
with 488 when the media engine rejects its offer. -/
theorem init_incoming_rejects_witness :
    signals (Session.create []) (init_incoming sampleEnv (Session.create []) sampleInviteText
        "to1") =
      [.reply (taggedInvite sampleInviteText "to1") 415 none [] none] ∧
    signals (Session.create []) (step sampleEnv
        (init_incoming sampleEnv (Session.create []) sampleInvite "to1")
        (.callback (.incomingOffer (taggedInvite sampleInvite "to1")
          (sampleInvite.expires.map (fun e => e * 1000))) .failure)) =
      [.reply (taggedInvite sampleInvite "to1") 488 none [] none] :=
  ⟨((init_incoming_rejects sampleEnv (Session.create []) sampleInviteText "to1" (by decide)
      (by decide)).1 (by decide)).1,
    ((init_incoming_rejects sampleEnv (Session.create []) sampleInvite "to1" (by decide)
      (by decide)).2 (by decide)).2.2.2.1⟩

/-! ### Tone signalling -/

theorem sendDTMF_checks (s : Session) (tones : TonesArg)
    (hs : s.status = .STATUS_CONFIRMED ∨ s.status = .STATUS_WAITING_FOR_ACK)
    (ht : tones.truthy = true) (hty : tones.isStringOrNumber = true)
    (hv : validTones tones.toString = true) :
    tones ≠ .undefined ∧
    ¬ (s.status ≠ .STATUS_CONFIRMED ∧ s.status ≠ .STATUS_WAITING_FOR_ACK) ∧
    (!tones.truthy || !tones.isStringOrNumber || !validTones tones.toString) = false := by
  refine ⟨?_, ?_, by simp [ht, hty, hv]⟩
  · rintro rfl
    simp [TonesArg.truthy] at ht
  · rcases hs with h | h <;> simp [h]

theorem sendDTMF_accepts (env : Env) (s : Session) (tones : TonesArg) (options : DtmfOptions)
    (hs : s.status = .STATUS_CONFIRMED ∨ s.status = .STATUS_WAITING_FOR_ACK)
    (ht : tones.truthy = true) (hty : tones.isStringOrNumber = true)
    (hv : validTones tones.toString = true)
    (hg : (options.interToneGap.truthy && !options.interToneGap.isDecimal) = false) :
    ∃ ws gap, (∀ e ∈ ws, e.isSignal = false ∧ ∃ what, e = .warn what) ∧
      sendDTMF env s tones options =
        ({ s with
            toneSequences := s.toneSequences ++ [⟨s.nextHandle, tones.toString, 1, true, gap⟩]
            nextHandle := s.nextHandle + 1
            log := s.log ++ (ws ++ [.dtmfSend (tones.toString.toList.get? 0),
              .setInterval s.nextHandle gap]) }, none) ∧
      gap = (if !options.interToneGap.truthy then env.DEFAULT_INTER_TONE_GAP
        else if options.interToneGap.value < env.MIN_INTER_TONE_GAP then env.MIN_INTER_TONE_GAP
        else options.interToneGap.value.natAbs) := by
  obtain ⟨h1, h2, h3⟩ := sendDTMF_checks s tones hs ht hty hv
  by_cases hw : (options.interToneGap.truthy &&
      decide (options.interToneGap.value < env.MIN_INTER_TONE_GAP)) = true
  · refine ⟨[.warn "\"interToneGap\" value is lower than the minimum allowed"], _, ?_, ?_, rfl⟩
    · intro e he
      simp only [List.mem_singleton] at he
      subst he
      exact ⟨rfl, _, rfl⟩
    · unfold sendDTMF
      simp only [h1, h2, h3, hg, hw, if_false, if_true, Bool.false_eq_true]
      simp [Session.setInterval, Session.dtmfSend, Session.record]
  · refine ⟨[], _, by simp, ?_, rfl⟩
    unfold sendDTMF
    simp only [h1, h2, h3, hg, hw, if_false, Bool.false_eq_true]
    simp [Session.setInterval, Session.dtmfSend, Session.record]

/-- C23 (amended): the inter-tone gap has a floor. For every call of `sendDTMF` in a legal
state (Confirmed or WaitingForAck) with valid tones, the floor MIN_INTER_TONE_GAP being a
non-negative duration: if `options.interToneGap` is a decimal number `g` other than 0, the
spacing of the interval is `max g MIN_INTER_TONE_GAP` (values below the floor, negative ones
included, are raised to the floor); if it is absent or falsy (0, and also `''`, `false`,
`null`, `NaN`), the spacing is DEFAULT_INTER_TONE_GAP and the first tone is sent; if it is
truthy and not a decimal number, TypeError is thrown and the session is unchanged, so no tone
is sent. Hence, where DEFAULT_INTER_TONE_GAP is not below the floor, the spacing of the
interval that the call creates is never below the floor. -/
theorem interToneGap_floor (env : Env) (s : Session) (tones : TonesArg) (options : DtmfOptions)
    (hs : s.status = .STATUS_CONFIRMED ∨ s.status = .STATUS_WAITING_FOR_ACK)
    (ht : tones.truthy = true) (hty : tones.isStringOrNumber = true)
    (hv : validTones tones.toString = true) (hmin : 0 ≤ env.MIN_INTER_TONE_GAP) :
    (∀ g, options.interToneGap = .decimal g → g ≠ 0 →
      (sendDTMF env s tones options).2 = none ∧
      (sendDTMF env s tones options).1.toneSequences = s.toneSequences ++
        [⟨s.nextHandle, tones.toString, 1, true, max g env.MIN_INTER_TONE_GAP⟩] ∧
      Effect.setInterval s.nextHandle (max g env.MIN_INTER_TONE_GAP) ∈
        newEffects s (sendDTMF env s tones options).1) ∧
    (options.interToneGap.truthy = false →
      (sendDTMF env s tones options).2 = none ∧
      (sendDTMF env s tones options).1.toneSequences = s.toneSequences ++
        [⟨s.nextHandle, tones.toString, 1, true, env.DEFAULT_INTER_TONE_GAP⟩] ∧
      newEffects s (sendDTMF env s tones options).1 =
        [.dtmfSend (tones.toString.toList.get? 0),
          .setInterval s.nextHandle env.DEFAULT_INTER_TONE_GAP]) ∧
    (∀ text, options.interToneGap = .other true text →
      sendDTMF env s tones options =
        (s, some (.TypeError ("Invalid interToneGap: " ++ text)))) ∧
    (env.MIN_INTER_TONE_GAP ≤ env.DEFAULT_INTER_TONE_GAP →
      ∀ delay, Effect.setInterval s.nextHandle delay ∈
          newEffects s (sendDTMF env s tones options).1 →
        env.MIN_INTER_TONE_GAP ≤ delay) := by
  have key : ∀ gap, (options.interToneGap.truthy && !options.interToneGap.isDecimal) = false →
      (if !options.interToneGap.truthy then env.DEFAULT_INTER_TONE_GAP
        else if options.interToneGap.value < env.MIN_INTER_TONE_GAP then env.MIN_INTER_TONE_GAP
        else options.interToneGap.value.natAbs) = gap →
      (sendDTMF env s tones options).2 = none ∧
      (sendDTMF env s tones options).1.toneSequences = s.toneSequences ++
        [⟨s.nextHandle, tones.toString, 1, true, gap⟩] ∧
      Effect.setInterval s.nextHandle gap ∈ newEffects s (sendDTMF env s tones options).1 ∧
      ∀ delay, Effect.setInterval s.nextHandle delay ∈
          newEffects s (sendDTMF env s tones options).1 → delay = gap := by
    intro gap hg hgap
    obtain ⟨ws, gap', hws, hrun, hgap'⟩ := sendDTMF_accepts env s tones options hs ht hty hv hg
    have : gap' = gap := hgap'.trans hgap
    subst this
    rw [hrun]
    refine ⟨rfl, rfl, ?_, ?_⟩
    · rw [newEffects_of_log s _ _ rfl]
      simp
    · intro delay hmem
      rw [newEffects_of_log s _ _ rfl] at hmem
      simp only [List.mem_append, List.mem_cons, List.mem_singleton, reduceCtorEq, false_or,
        List.mem_nil_iff, or_false] at hmem
      rcases hmem with hmem | hmem
      · obtain ⟨_, what, hw⟩ := hws _ hmem
        cases hw
      · cases hmem
        rfl
  refine ⟨?_, ?_, ?_, ?_⟩
  · intro g hg h0
    have := key (max g env.MIN_INTER_TONE_GAP) (by simp [hg, GapArg.truthy, GapArg.isDecimal])
      (by
        by_cases hlt : g < env.MIN_INTER_TONE_GAP
        · simp [hg, GapArg.truthy, GapArg.value, h0, hlt]
          omega
        · simp [hg, GapArg.truthy, GapArg.value, h0, hlt]
          rw [abs_of_nonneg (by omega : (0 : Int) ≤ g)]
          exact (max_eq_left (not_lt.mp hlt)).symm)
    exact ⟨this.1, this.2.1, this.2.2.1⟩
  · intro hg
    have := key env.DEFAULT_INTER_TONE_GAP (by simp [hg]) (by simp [hg])
    refine ⟨this.1, this.2.1, ?_⟩
    obtain ⟨h1, h2, h3⟩ := sendDTMF_checks s tones hs ht hty hv
    unfold sendDTMF
    simp only [h1, h2, h3, hg, if_false, Bool.false_eq_true, Bool.false_and, Bool.not_false,
      if_true]
    simp [newEffects, Session.setInterval, Session.dtmfSend, Session.record]
  · intro text hg
    obtain ⟨h1, h2, h3⟩ := sendDTMF_checks s tones hs ht hty hv
    unfold sendDTMF
    simp only [h1, h2, h3, hg, if_false, Bool.false_eq_true]
    simp [GapArg.truthy, GapArg.isDecimal, GapArg.toString]
  · intro hdef delay hmem
    cases hgap : options.interToneGap with
    | other truthy text =>
      cases truthy with
      | true =>
        obtain ⟨h1, h2, h3⟩ := sendDTMF_checks s tones hs ht hty hv
        have hrun : sendDTMF env s tones options =
            (s, some (.TypeError ("Invalid interToneGap: " ++ text))) := by
          unfold sendDTMF
          simp only [h1, h2, h3, hgap, if_false, Bool.false_eq_true]
          simp [GapArg.truthy, GapArg.isDecimal, GapArg.toString]
        rw [hrun] at hmem
        simp [newEffects] at hmem
      | false =>
        have := (key env.DEFAULT_INTER_TONE_GAP
          (by simp [hgap, GapArg.truthy, GapArg.isDecimal])
          (by simp [hgap, GapArg.truthy])).2.2.2 delay hmem
        omega
    | undefined =>
      have := (key env.DEFAULT_INTER_TONE_GAP (by simp [hgap, GapArg.truthy, GapArg.isDecimal])
        (by simp [hgap, GapArg.truthy])).2.2.2 delay hmem
      omega
    | decimal g =>
      by_cases h0 : g = 0
      · have := (key env.DEFAULT_INTER_TONE_GAP
          (by simp [hgap, GapArg.truthy, GapArg.isDecimal])
          (by simp [hgap, GapArg.truthy, h0])).2.2.2 delay hmem
        omega
      · have := (key (max g env.MIN_INTER_TONE_GAP)
          (by simp [hgap, GapArg.truthy, GapArg.isDecimal])
          (by
            by_cases hlt : g < env.MIN_INTER_TONE_GAP
            · simp [hgap, GapArg.truthy, GapArg.value, h0, hlt]
              omega
            · simp [hgap, GapArg.truthy, GapArg.value, h0, hlt]
              rw [abs_of_nonneg (by omega : (0 : Int) ≤ g)]
              exact (max_eq_left (not_lt.mp hlt)).symm)).2.2.2 delay hmem
        omega

/-- Witness of C23: tones sent on the confirmed sample session with a gap of 10 ms (raised to
the floor of 50 ms), with a gap of 70 ms, without a gap (500 ms), and with a gap that is the
string `abc` (TypeError). -/
theorem interToneGap_floor_witness :
    (sendDTMF sampleEnv sampleConfirmed (.string "12") ⟨.decimal 10⟩).1.toneSequences =
      [⟨3, "12", 1, true, 50⟩] ∧
    (sendDTMF sampleEnv sampleConfirmed (.string "12") ⟨.decimal 70⟩).1.toneSequences =
      [⟨3, "12", 1, true, 70⟩] ∧
    (sendDTMF sampleEnv sampleConfirmed (.string "12") ⟨.undefined⟩).1.toneSequences =
      [⟨3, "12", 1, true, 500⟩] ∧
    sendDTMF sampleEnv sampleConfirmed (.string "12") ⟨.other true "abc"⟩ =
      (sampleConfirmed, some (.TypeError "Invalid interToneGap: abc")) :=
  ⟨((interToneGap_floor sampleEnv sampleConfirmed (.string "12") ⟨.decimal 10⟩
      (Or.inl (by decide)) (by decide) (by decide) (by decide) (by decide)).1 10 rfl
      (by decide)).2.1.trans (by decide),
    ((interToneGap_floor sampleEnv sampleConfirmed (.string "12") ⟨.decimal 70⟩
      (Or.inl (by decide)) (by decide) (by decide) (by decide) (by decide)).1 70 rfl
      (by decide)).2.1.trans (by decide),
    ((interToneGap_floor sampleEnv sampleConfirmed (.string "12") ⟨.undefined⟩
      (Or.inl (by decide)) (by decide) (by decide) (by decide) (by decide)).2.1
      rfl).2.1.trans (by decide),
    ((interToneGap_floor sampleEnv sampleConfirmed (.string "12") ⟨.other true "abc"⟩
      (Or.inl (by decide)) (by decide) (by decide) (by decide) (by decide)).2.2.1
      "abc" rfl).trans (by decide)⟩

/-- Counterexample to C23 as stated: on the confirmed sample session, `sendDTMF('12',
{interToneGap: ''})`. The option is present and it is not a decimal number, yet no TypeError
is thrown: the empty string is falsy, so `options.interToneGap || null` is `null`, the first
tone is sent and the interval is set with DEFAULT_INTER_TONE_GAP (500 ms). The same holds for
`false`. -/
theorem interToneGap_empty_string :
    sampleConfirmed.status = .STATUS_CONFIRMED ∧
    (GapArg.other false "").present = true ∧ (GapArg.other false "").isDecimal = false ∧
    (sendDTMF sampleEnv sampleConfirmed (.string "12") ⟨.other false ""⟩).2 = none ∧
    signals sampleConfirmed
        (sendDTMF sampleEnv sampleConfirmed (.string "12") ⟨.other false ""⟩).1 =
      [.dtmfSend (some '1')] ∧
    (sendDTMF sampleEnv sampleConfirmed (.string "12") ⟨.other false ""⟩).1.toneSequences =
      [⟨3, "12", 1, true, 500⟩] ∧
    (sendDTMF sampleEnv sampleConfirmed (.string "12") ⟨.other false "false"⟩).2 = none ∧
    (sendDTMF sampleEnv sampleConfirmed (.string "12")
      ⟨.other false "false"⟩).1.toneSequences = [⟨3, "12", 1, true, 500⟩] := by
  decide

/-- C25 (the code rejects the tone 0 given as a number): on the confirmed sample session,
`sendDTMF(0)` with the number 0, whose string form `0` is non-empty and made of valid tone
characters only, throws TypeError and sends no tone, because the test `!tones` is true for the
number 0; the same tone given as the string `'0'` and the number 10 are accepted and their
first tone is sent. -/
theorem sendDTMF_number_zero :
    sampleConfirmed.status = .STATUS_CONFIRMED ∧
    (TonesArg.number 0).toString = "0" ∧ validTones (TonesArg.number 0).toString = true ∧
    sendDTMF sampleEnv sampleConfirmed (.number 0) ⟨.undefined⟩ =
      (sampleConfirmed, some (.TypeError "Invalid tones: 0")) ∧
    ((sendDTMF sampleEnv sampleConfirmed (.string "0") ⟨.undefined⟩).2,
      signals sampleConfirmed (sendDTMF sampleEnv sampleConfirmed (.string "0") ⟨.undefined⟩).1) =
      (none, [.dtmfSend (some '0')]) ∧
    ((sendDTMF sampleEnv sampleConfirmed (.number 10) ⟨.undefined⟩).2,
      signals sampleConfirmed (sendDTMF sampleEnv sampleConfirmed (.number 10) ⟨.undefined⟩).1) =
      (none, [.dtmfSend (some '1')]) := by
  decide

theorem find_advanceTone (qs : List ToneSequence) (timer : Nat) :
    (qs.map (fun (q : ToneSequence) =>
        if q.timer == timer then { q with possition := q.possition + 1 } else q)).find?
      (fun q => q.timer == timer) =
    (qs.find? (fun q => q.timer == timer)).map
      (fun q => { q with possition := q.possition + 1 }) := by
  induction qs with
  | nil => rfl
  | cons q qs ih =>
    by_cases h : (q.timer == timer) = true
    · have e : (if (q.timer == timer) = true then { q with possition := q.possition + 1 } else q) =
          { q with possition := q.possition + 1 } := if_pos h
      rw [List.map_cons, e, List.find?_cons_of_pos _ (by exact h),
        List.find?_cons_of_pos (p := fun (q : ToneSequence) => q.timer == timer) qs h]
      rfl
    · have e : (if (q.timer == timer) = true then { q with possition := q.possition + 1 } else q) = q :=
        if_neg h
      rw [List.map_cons, e,
        List.find?_cons_of_neg (p := fun (q : ToneSequence) => q.timer == timer) _ h,
        List.find?_cons_of_neg (p := fun (q : ToneSequence) => q.timer == timer) qs h]
      exact ih

theorem find_onFailed (qs : List ToneSequence) (timer : Nat) :
    (qs.map (fun (q : ToneSequence) =>
        if q.timer == timer then { q with ready := false } else q)).find?
      (fun q => q.timer == timer) =
    (qs.find? (fun q => q.timer == timer)).map (fun q => { q with ready := false }) := by
  induction qs with
  | nil => rfl
  | cons q qs ih =>
    by_cases h : (q.timer == timer) = true
    · have e : (if (q.timer == timer) = true then { q with ready := false } else q) =
          { q with ready := false } := if_pos h
      rw [List.map_cons, e, List.find?_cons_of_pos _ (by exact h),
        List.find?_cons_of_pos (p := fun (q : ToneSequence) => q.timer == timer) qs h]
      rfl
    · have e : (if (q.timer == timer) = true then { q with ready := false } else q) = q :=
        if_neg h
      rw [List.map_cons, e,
        List.find?_cons_of_neg (p := fun (q : ToneSequence) => q.timer == timer) _ h,
        List.find?_cons_of_neg (p := fun (q : ToneSequence) => q.timer == timer) qs h]
      exact ih

theorem find_clearInterval (qs : List ToneSequence) (timer : Nat) :
    (qs.filter (fun q => q.timer != timer)).find? (fun q => q.timer == timer) = none := by
  rw [List.find?_eq_none]
  intro q hq
  simp only [List.mem_filter] at hq
  simpa using hq.2

theorem tones_of_map (cs : List Char) :
    (cs.map (fun c => Effect.dtmfSend (some c))).filterMap Effect.tone = cs.map some := by
  induction cs with
  | nil => rfl
  | cons c cs ih => simp [Effect.tone, ih]

theorem tick_sends (s : Session) (timer : Nat) (q : ToneSequence)
    (hq : toneSequence s timer = some q) (hs : s.status ≠ .STATUS_TERMINATED)
    (hr : q.ready = true) (hp : q.possition < q.tones.length) :
    (sendDTMF_onInterval s timer).log = s.log ++ [.dtmfSend (q.tones.toList.get? q.possition)] ∧
    toneSequence (sendDTMF_onInterval s timer) timer =
      some { q with possition := q.possition + 1 } ∧
    (sendDTMF_onInterval s timer).status = s.status := by
  have hrun : sendDTMF_onInterval s timer =
      (s.dtmfSend (q.tones.toList.get? q.possition)).advanceTone timer := by
    unfold toneSequence at hq
    unfold sendDTMF_onInterval
    simp only [hq]
    rw [if_pos ⟨hs, hr, hp⟩]
  rw [hrun]
  refine ⟨rfl, ?_, rfl⟩
  simp only [toneSequence, Session.advanceTone, Session.dtmfSend, Session.record]
  unfold toneSequence at hq
  rw [find_advanceTone, hq]
  rfl

theorem tick_clears (s : Session) (timer : Nat) (q : ToneSequence)
    (hq : toneSequence s timer = some q)
    (h : s.status = .STATUS_TERMINATED ∨ q.ready = false ∨ q.tones.length ≤ q.possition) :
    sendDTMF_onInterval s timer = s.clearInterval timer ∧
    toneSequence (sendDTMF_onInterval s timer) timer = none := by
  have hrun : sendDTMF_onInterval s timer = s.clearInterval timer := by
    unfold toneSequence at hq
    unfold sendDTMF_onInterval
    simp only [hq]
    rw [if_neg]
    rintro ⟨h1, h2, h3⟩
    rcases h with h | h | h
    · exact h1 h
    · simp [h] at h2
    · omega
  rw [hrun]
  exact ⟨rfl, find_clearInterval _ _⟩

theorem tick_idle (s : Session) (timer : Nat) (hq : toneSequence s timer = none) :
    sendDTMF_onInterval s timer = s := by
  unfold toneSequence at hq
  unfold sendDTMF_onInterval
  simp only [hq]

theorem ticks_send (env : Env) (timer : Nat) (k : Nat) :
    ∀ (s : Session) (q : ToneSequence), toneSequence s timer = some q →
      s.status ≠ .STATUS_TERMINATED → q.ready = true → q.possition + k ≤ q.tones.length →
      (run env s (toneTicks timer k)).log =
        s.log ++ ((q.tones.toList.drop q.possition).take k).map
          (fun c => Effect.dtmfSend (some c)) ∧
      toneSequence (run env s (toneTicks timer k)) timer =
        some { q with possition := q.possition + k } ∧
      (run env s (toneTicks timer k)).status = s.status := by
  induction k with
  | zero =>
    intro s q hq _ _ _
    simp [toneTicks, run, hq]
  | succ k ih =>
    intro s q hq hs hr hp
    have hlen : q.possition < q.tones.toList.length := by
      have : q.tones.length = q.tones.toList.length := rfl
      omega
    obtain ⟨h1, h2, h3⟩ := tick_sends s timer q hq hs hr (by omega)
    have hrun : run env s (toneTicks timer (k + 1)) =
        run env (sendDTMF_onInterval s timer) (toneTicks timer k) := by
      simp [toneTicks, run, List.replicate_succ, step]
    obtain ⟨i1, i2, i3⟩ := ih (sendDTMF_onInterval s timer)
      { q with possition := q.possition + 1 } h2 (h3 ▸ hs) hr (by simp only; omega)
    rw [hrun]
    refine ⟨?_, ?_, i3.trans h3⟩
    · rw [i1, h1]
      simp only [List.append_assoc, List.singleton_append]
      congr 1
      rw [List.drop_eq_getElem_cons hlen, List.take_succ_cons, List.map_cons,
        List.get?_eq_getElem?, List.getElem?_eq_getElem hlen]
    · rw [i2]
      simp only [Option.some.injEq, ToneSequence.mk.injEq, and_true, true_and]
      omega

/-- C24: the tones of a call are sent in order, one per tick, each once. For every call of
`sendDTMF` in a legal state with valid tones `t` of length `n` and an acceptable gap, the
handle of the new interval being fresh: the call itself sends `t[0]` and nothing else; after
`k` ticks of the interval, for `k < n`, with no failure reported and the session not
Terminated, the tones sent are exactly the prefix `t[0..k]` in order, so after `n - 1` ticks
all `n` tones have been sent, each once; the next tick sends no tone and clears the interval.
Whenever a tick finds the session Terminated, or finds that a tone of the call has reported
`failed`, it sends no tone and clears the interval, after which further ticks do nothing; and
the `failed` report of a tone makes the next tick find exactly that. -/
theorem sendDTMF_sequence (env : Env) (s : Session) (tones : TonesArg) (options : DtmfOptions)
    (hs : s.status = .STATUS_CONFIRMED ∨ s.status = .STATUS_WAITING_FOR_ACK)
    (ht : tones.truthy = true) (hty : tones.isStringOrNumber = true)
    (hv : validTones tones.toString = true)
    (hg : (options.interToneGap.truthy && !options.interToneGap.isDecimal) = false)
    (hfresh : ∀ q ∈ s.toneSequences, q.timer ≠ s.nextHandle) :
    (sendDTMF env s tones options).2 = none ∧
    (∀ k, k < tones.toString.length →
      tonesSent s (run env (sendDTMF env s tones options).1 (toneTicks s.nextHandle k)) =
        (tones.toString.toList.take (k + 1)).map some ∧
      enabled (run env (sendDTMF env s tones options).1 (toneTicks s.nextHandle k))
        (.toneInterval s.nextHandle) = true) ∧
    tonesSent s (run env (sendDTMF env s tones options).1
        (toneTicks s.nextHandle tones.toString.length)) = tones.toString.toList.map some ∧
    Effect.clearInterval s.nextHandle ∈ newEffects s (run env (sendDTMF env s tones options).1
      (toneTicks s.nextHandle tones.toString.length)) ∧
    enabled (run env (sendDTMF env s tones options).1
      (toneTicks s.nextHandle tones.toString.length)) (.toneInterval s.nextHandle) = false ∧
    (∀ (u : Session) (timer : Nat) (q : ToneSequence), toneSequence u timer = some q →
      (u.status = .STATUS_TERMINATED ∨ q.ready = false →
        tonesSent u (step env u (.toneInterval timer)) = [] ∧
        Effect.clearInterval timer ∈ newEffects u (step env u (.toneInterval timer)) ∧
        toneSequence (step env u (.toneInterval timer)) timer = none ∧
        step env (step env u (.toneInterval timer)) (.toneInterval timer) =
          step env u (.toneInterval timer)) ∧
      toneSequence (step env u (.toneFailed timer)) timer = some { q with ready := false } ∧
      newEffects u (step env u (.toneFailed timer)) = []) := by
  obtain ⟨ws, gap, hws, hrun, _⟩ := sendDTMF_accepts env s tones options hs ht hty hv hg
  have hne : tones.toString ≠ "" := by
    intro h
    simp [validTones, h] at hv
  have hpos : 0 < tones.toString.toList.length := by
    cases hl : tones.toString.toList with
    | nil =>
      exfalso
      apply hne
      exact String.ext (by simpa using hl)
    | cons c cs => simp
  have hlen : tones.toString.length = tones.toString.toList.length := rfl
  have hfst := congrArg Prod.fst hrun
  have hsnd : (sendDTMF env s tones options).2 = none := congrArg Prod.snd hrun
  simp only at hfst
  generalize (sendDTMF env s tones options).1 = s1 at hfst ⊢
  have hst1 : s1.status ≠ .STATUS_TERMINATED := by
    rw [hfst]
    rcases hs with h | h <;> simp [h]
  have hlog1 : s1.log = s.log ++ (ws ++ [.dtmfSend (tones.toString.toList.get? 0),
      .setInterval s.nextHandle gap]) := by
    rw [hfst]
  have hq1 : toneSequence s1 s.nextHandle = some ⟨s.nextHandle, tones.toString, 1, true, gap⟩ := by
    rw [hfst]
    simp only [toneSequence]
    rw [List.find?_append, List.find?_eq_none.mpr]
    · simp
    · intro q hq
      simpa using hfresh q hq
  have hws' : ws.filterMap Effect.tone = [] := by
    rw [List.filterMap_eq_nil_iff]
    intro e he
    obtain ⟨_, what, rfl⟩ := hws e he
    rfl
  obtain ⟨c, cs, hl⟩ : ∃ c cs, tones.toString.toList = c :: cs := by
    cases hl : tones.toString.toList with
    | nil =>
      rw [hl] at hpos
      simp at hpos
    | cons c cs => exact ⟨c, cs, rfl⟩
  have hsent : ∀ k, k + 1 ≤ tones.toString.toList.length →
      tonesSent s (run env s1 (toneTicks s.nextHandle k)) =
        (tones.toString.toList.take (k + 1)).map some ∧
      toneSequence (run env s1 (toneTicks s.nextHandle k)) s.nextHandle =
        some ⟨s.nextHandle, tones.toString, 1 + k, true, gap⟩ ∧
      (run env s1 (toneTicks s.nextHandle k)).status ≠ .STATUS_TERMINATED ∧
      (run env s1 (toneTicks s.nextHandle k)).log = s.log ++ (ws ++
        [.dtmfSend (tones.toString.toList.get? 0), .setInterval s.nextHandle gap] ++
        ((tones.toString.toList.drop 1).take k).map (fun c => Effect.dtmfSend (some c))) := by
    intro k hk
    obtain ⟨h1, h2, h3⟩ := ticks_send env s.nextHandle k s1 _ hq1 hst1 rfl
      (by simp only; omega)
    have hlog : (run env s1 (toneTicks s.nextHandle k)).log = s.log ++ (ws ++
        [.dtmfSend (tones.toString.toList.get? 0), .setInterval s.nextHandle gap] ++
        ((tones.toString.toList.drop 1).take k).map (fun c => Effect.dtmfSend (some c))) := by
      rw [h1, hlog1]
      simp
    refine ⟨?_, h2, h3 ▸ hst1, hlog⟩
    unfold tonesSent
    rw [newEffects_of_log _ _ _ hlog]
    simp only [List.filterMap_append, hws', List.nil_append]
    rw [hl, tones_of_map]
    simp [Effect.tone]
  have hfin : tonesSent s (run env s1 (toneTicks s.nextHandle tones.toString.length)) =
        tones.toString.toList.map some ∧
      Effect.clearInterval s.nextHandle ∈
        newEffects s (run env s1 (toneTicks s.nextHandle tones.toString.length)) ∧
      enabled (run env s1 (toneTicks s.nextHandle tones.toString.length))
        (.toneInterval s.nextHandle) = false := by
    have hn : tones.toString.length = cs.length + 1 := by
      rw [hlen, hl]
      rfl
    obtain ⟨_, h2, h3, h4⟩ := hsent cs.length (by rw [hl]; simp)
    have hsplit : run env s1 (toneTicks s.nextHandle tones.toString.length) =
        sendDTMF_onInterval (run env s1 (toneTicks s.nextHandle cs.length)) s.nextHandle := by
      rw [hn]
      simp only [toneTicks, run, List.replicate_succ', List.foldl_append, List.foldl_cons,
        List.foldl_nil, step]
    have hc := tick_clears (run env s1 (toneTicks s.nextHandle cs.length)) s.nextHandle _ h2
      (Or.inr (Or.inr (by
        show tones.toString.length ≤ 1 + cs.length
        omega)))
    rw [hsplit, hc.1]
    have hlog : ((run env s1 (toneTicks s.nextHandle cs.length)).clearInterval
        s.nextHandle).log = s.log ++ (ws ++
        [.dtmfSend (tones.toString.toList.get? 0), .setInterval s.nextHandle gap] ++
        ((tones.toString.toList.drop 1).take cs.length).map
          (fun c => Effect.dtmfSend (some c)) ++ [.clearInterval s.nextHandle]) := by
      simp [Session.clearInterval, h4]
    refine ⟨?_, ?_, ?_⟩
    · unfold tonesSent
      rw [newEffects_of_log _ _ _ hlog]
      simp only [List.filterMap_append, hws', List.nil_append]
      rw [hl, tones_of_map]
      simp [Effect.tone]
    · rw [newEffects_of_log _ _ _ hlog]
      simp
    · have hnone := hc.2
      rw [hc.1] at hnone
      unfold toneSequence at hnone
      simp only [enabled]
      rw [List.any_eq_false]
      intro q hq
      have := List.find?_eq_none.mp hnone q hq
      simpa using this
  refine ⟨hsnd, ?_, ?_, ?_, ?_, ?_⟩
  · intro k hk
    obtain ⟨h1, h2, _, _⟩ := hsent k (by omega)
    refine ⟨h1, ?_⟩
    have h2' := h2
    unfold toneSequence at h2'
    simp only [enabled]
    rw [List.any_eq_true]
    exact ⟨_, List.mem_of_find?_eq_some h2', by simp⟩
  · exact hfin.1
  · exact hfin.2.1
  · exact hfin.2.2
  · intro u timer q hq
    refine ⟨?_, ?_, by simp [newEffects, step, sendDTMF_onFailed]⟩
    · intro h
      have hc := tick_clears u timer q hq (by
        rcases h with h | h
        · exact Or.inl h
        · exact Or.inr (Or.inl h))
      have hstep : step env u (.toneInterval timer) = u.clearInterval timer := hc.1
      rw [hstep]
      refine ⟨?_, ?_, ?_, ?_⟩
      · unfold tonesSent
        rw [newEffects_of_log u _ [.clearInterval timer] rfl]
        rfl
      · rw [newEffects_of_log u _ [.clearInterval timer] rfl]
        simp
      · exact hstep ▸ hc.2
      · exact tick_idle _ _ (hstep ▸ hc.2)
    · simp only [step, toneSequence, sendDTMF_onFailed]
      unfold toneSequence at hq
      rw [find_onFailed, hq]
      rfl

/-- Witness of C24: the tones `12#` sent on the confirmed sample session, whose next timer
handle is 3: the call sends `1`, two ticks send `2` and `#`, the third tick clears the
interval. -/
theorem sendDTMF_sequence_witness :
    tonesSent sampleConfirmed (sendDTMF sampleEnv sampleConfirmed (.string "12#") ⟨.undefined⟩).1 =
      [some '1'] ∧
    tonesSent sampleConfirmed (run sampleEnv
        (sendDTMF sampleEnv sampleConfirmed (.string "12#") ⟨.undefined⟩).1 (toneTicks 3 2)) =
      [some '1', some '2', some '#'] ∧
    tonesSent sampleConfirmed (run sampleEnv
        (sendDTMF sampleEnv sampleConfirmed (.string "12#") ⟨.undefined⟩).1 (toneTicks 3 3)) =
      [some '1', some '2', some '#'] ∧
    enabled (run sampleEnv
        (sendDTMF sampleEnv sampleConfirmed (.string "12#") ⟨.undefined⟩).1 (toneTicks 3 3))
      (.toneInterval 3) = false :=
  have h := sendDTMF_sequence sampleEnv sampleConfirmed (.string "12#") ⟨.undefined⟩
    (Or.inl (by decide)) (by decide) (by decide) (by decide) (by decide) (by decide)
  ⟨((h.2.1 0 (by decide)).1).trans (by decide), ((h.2.1 2 (by decide)).1).trans (by decide),
    h.2.2.1.trans (by decide), h.2.2.2.2.1⟩

/-! ### Dialog construction -/

/-- C26 (amended): when no early dialog is stored under the key of the message, `createDialog`
constructs a Dialog, in early and in confirmed mode alike. If the construction yields no
identity (the message has no Contact header), `createDialog` returns false, emits exactly
`failed` with originator remote and cause INTERNAL_ERROR, leaves the session Terminated and
stores nothing: the `dialog` field and `earlyDialogs` are empty, or, on a session that was
already Terminated, what they were. If the construction succeeds, it returns true and sends and
emits nothing. When an early dialog is stored under the key, no Dialog is constructed: the call
returns true and sends and emits nothing, whatever the message. -/
theorem createDialog_outcome (s : Session) (m : Message) (ty : DialogType) (early : Bool) :
    (lookupDialog s.earlyDialogs (dialogKey m ty) = none →
      Dialog.construct s.nextDialog m ty early = none →
        (createDialog s m ty early).1 = false ∧
        signals s (createDialog s m ty early).2 =
          [.emit .failed (some .remote) (some .INTERNAL_ERROR)] ∧
        (createDialog s m ty early).2.status = .STATUS_TERMINATED ∧
        (s.status ≠ .STATUS_TERMINATED →
          (createDialog s m ty early).2.dialog = none ∧
          (createDialog s m ty early).2.earlyDialogs = []) ∧
        (s.status = .STATUS_TERMINATED →
          (createDialog s m ty early).2.dialog = s.dialog ∧
          (createDialog s m ty early).2.earlyDialogs = s.earlyDialogs)) ∧
    (lookupDialog s.earlyDialogs (dialogKey m ty) = none →
      ∀ d, Dialog.construct s.nextDialog m ty early = some d →
        (createDialog s m ty early).1 = true ∧
        signals s (createDialog s m ty early).2 = []) ∧
    (∀ d, lookupDialog s.earlyDialogs (dialogKey m ty) = some d →
      (createDialog s m ty early).1 = true ∧
      signals s (createDialog s m ty early).2 = []) := by
  have hfail : createDialog s m ty early =
        (false, failed { s with nextDialog := s.nextDialog + 1 } .remote .INTERNAL_ERROR) →
      (createDialog s m ty early).1 = false ∧
      signals s (createDialog s m ty early).2 =
        [.emit .failed (some .remote) (some .INTERNAL_ERROR)] ∧
      (createDialog s m ty early).2.status = .STATUS_TERMINATED ∧
      (s.status ≠ .STATUS_TERMINATED →
        (createDialog s m ty early).2.dialog = none ∧
        (createDialog s m ty early).2.earlyDialogs = []) ∧
      (s.status = .STATUS_TERMINATED →
        (createDialog s m ty early).2.dialog = s.dialog ∧
        (createDialog s m ty early).2.earlyDialogs = s.earlyDialogs) := by
    intro hrun
    rw [hrun]
    refine ⟨rfl, ?_, failed_status _ _ _, ?_, ?_⟩
    · simpa using failed_after s { s with nextDialog := s.nextDialog + 1 } [] .remote
        .INTERNAL_ERROR (by simp)
    · intro hs
      have hne : ({ s with nextDialog := s.nextDialog + 1 } : Session).status ≠
          .STATUS_TERMINATED := hs
      simp [failed, Session.emit, Session.record, close_eq _ hne]
    · intro hs
      have he : ({ s with nextDialog := s.nextDialog + 1 } : Session).status =
          .STATUS_TERMINATED := hs
      simp [failed, Session.emit, Session.record, close_of_terminated _ he]
  refine ⟨?_, ?_, ?_⟩
  · intro hl hc
    apply hfail
    have hc' : ∀ e, Dialog.construct s.nextDialog m ty e = none := by
      intro e
      revert hc
      unfold Dialog.construct
      split <;> simp
    cases ty <;> cases early <;> simp only [dialogKey] at hl <;>
      simp only [createDialog, hl, hc', Bool.false_eq_true, if_false, if_true]
  · intro hl d hc
    have hc' : ∀ e, Dialog.construct s.nextDialog m ty e = some { d with early := e } := by
      intro e
      revert hc
      unfold Dialog.construct
      split
      · intro h
        cases h
        rfl
      · intro h
        cases h
    cases ty <;> cases early <;> simp only [dialogKey] at hl <;>
      simp only [createDialog, hl, hc', Bool.false_eq_true, if_false, if_true] <;>
      exact ⟨trivial, by rw [signals_of_log s _ [.dialogCreated d.serial _] rfl]; rfl⟩
  · intro d hl
    cases ty <;> cases early <;> simp only [dialogKey] at hl <;>
      simp only [createDialog, hl, Bool.false_eq_true, if_false, if_true] <;>
      first
        | exact ⟨trivial, by rw [signals_of_log s _ [.dialogUpdate d.serial] rfl]; rfl⟩
        | exact ⟨trivial, by simp [signals, newEffects]⟩

/-- Witness of C26 (amended): on the sample session in status InviteSent, which holds no early
dialog, a 200 without Contact header makes `createDialog` fail in both modes. -/
theorem createDialog_outcome_witness :
    sampleInviteSent.earlyDialogs = [] ∧
    (createDialog sampleInviteSent sample200Bare .UAC false).1 = false ∧
    signals sampleInviteSent (createDialog sampleInviteSent sample200Bare .UAC true).2 =
      [.emit .failed (some .remote) (some .INTERNAL_ERROR)] :=
  ⟨by decide,
    ((createDialog_outcome sampleInviteSent sample200Bare .UAC false).1 (by decide)
      (by decide)).1,
    ((createDialog_outcome sampleInviteSent sample200Bare .UAC true).1 (by decide)
      (by decide)).2.1⟩

/-- Counterexample to C26 as stated: the sample outgoing session has received a 180 with a
Contact header and holds the early dialog of that branch. For the 200 of the same branch
without Contact header the construction of a Dialog yields no identity, yet `createDialog`
returns true in both modes and emits nothing: it promotes, respectively keeps, the early
dialog without constructing anything. -/
theorem createDialog_with_early_dialog :
    Dialog.construct sampleProvisional.nextDialog sample200Bare .UAC false = none ∧
    Dialog.construct sampleProvisional.nextDialog sample200Bare .UAC true = none ∧
    ((createDialog sampleProvisional sample200Bare .UAC false).1,
      signals sampleProvisional (createDialog sampleProvisional sample200Bare .UAC false).2,
      (createDialog sampleProvisional sample200Bare .UAC false).2.status) =
      (true, [], .STATUS_1XX_RECEIVED) ∧
    ((createDialog sampleProvisional sample200Bare .UAC true).1,
      signals sampleProvisional (createDialog sampleProvisional sample200Bare .UAC true).2,
      (createDialog sampleProvisional sample200Bare .UAC true).2.status) =
      (true, [], .STATUS_1XX_RECEIVED) := by
  decide

/-! ### The media handler -/

/-- C27 (the code does not report a failed offer): when the peer connection fails to create
the description, `RTCMediaHandler.createOffer` invokes neither `onSuccess` nor `onFailure`,
whatever else the peer connection would do, whereas `createAnswer` invokes `onFailure` and only
that. When the description is created both do the same. -/
theorem createOffer_failure_unreported (setLocalOk : Bool) (ice : IceGathering)
    (localSdp : String) :
    RTCMediaHandler.createOffer ⟨false, setLocalOk, ice, localSdp⟩ = [] ∧
    RTCMediaHandler.createAnswer ⟨false, setLocalOk, ice, localSdp⟩ = [.onFailure] ∧
    RTCMediaHandler.createOffer ⟨true, setLocalOk, ice, localSdp⟩ =
      RTCMediaHandler.createAnswer ⟨true, setLocalOk, ice, localSdp⟩ := by
  simp [RTCMediaHandler.createOffer, RTCMediaHandler.createAnswer]

/-! ### Retransmission of the 200 -/

/-- C28: the back-off of the 2xx retransmission doubles. `setInvite2xxTimer` schedules the
first firing T1 after the timer is set. For every `k ≥ 1`, the `k`-th firing, when it
retransmits (`k * T1 ≤ T2`), sends the 200 once more and schedules the next firing, which is the
`k+1`-th, exactly `T1 * 2^k` later; this is twice the delay that led to the `k`-th firing, so
the delays are T1, 2*T1, 4*T1, ... -/
theorem invite2xx_backoff_doubles (env : Env) (s : Session) (request : Message) (body : String) :
    setInvite2xxTimer env s request body =
      s.setTimeout .invite2xxTimer (.invite2xx request body (firingArgument 1)) env.T1 ∧
    (∀ k, 1 ≤ k → k * env.T1 ≤ env.T2 →
      invite2xxRetransmission env s request body (firingArgument k) =
        (s.reply request 200 none ["Contact: " ++ s.contact.getD "undefined"]
          (some body)).setTimeout .invite2xxTimer
            (.invite2xx request body (firingArgument (k + 1))) (env.T1 * 2 ^ k) ∧
      (invite2xxRetransmission env s request body (firingArgument k)).timeouts =
        s.timeouts ++ [⟨s.nextHandle, .invite2xx request body (firingArgument (k + 1)),
          env.T1 * 2 ^ k⟩] ∧
      env.T1 * 2 ^ k = 2 * (env.T1 * 2 ^ (k - 1))) := by
  refine ⟨rfl, ?_⟩
  intro k hk hle
  have harg : (if truthyNum (firingArgument k) = true then (firingArgument k).getD 0 else 1)
      = k := by
    unfold firingArgument
    by_cases h1 : k ≤ 1
    · have : k = 1 := by omega
      subst this
      simp [truthyNum]
    · have h0 : k ≠ 0 := by omega
      simp [h1, truthyNum, h0]
  have hnext : firingArgument (k + 1) = some (k + 1) := by
    unfold firingArgument
    have : ¬ (k + 1 ≤ 1) := by omega
    simp [this]
  have hrun : invite2xxRetransmission env s request body (firingArgument k) =
      (s.reply request 200 none ["Contact: " ++ s.contact.getD "undefined"]
        (some body)).setTimeout .invite2xxTimer
          (.invite2xx request body (firingArgument (k + 1))) (env.T1 * 2 ^ k) := by
    unfold invite2xxRetransmission
    simp only [harg, hle, if_true, hnext]
  refine ⟨hrun, ?_, ?_⟩
  · rw [hrun]
    rfl
  · obtain ⟨j, rfl⟩ : ∃ j, k = j + 1 := ⟨k - 1, by omega⟩
    simp only [Nat.add_sub_cancel, pow_succ]
    ring

/-- Witness of C28: with T1 = 500 ms and T2 = 4000 ms the third firing schedules the fourth
4000 ms later. -/
theorem invite2xx_backoff_doubles_witness :
    (invite2xxRetransmission sampleEnv sampleWaitingForAck sampleInviteTagged "v=0"
      (firingArgument 3)).timeouts =
      sampleWaitingForAck.timeouts ++
        [⟨3, .invite2xx sampleInviteTagged "v=0" (some 4), 4000⟩] :=
  ((invite2xx_backoff_doubles sampleEnv sampleWaitingForAck sampleInviteTagged "v=0").2 3
    (by decide) (by decide)).2.1.trans (by decide)

/-- C29 (the code does not cap the back-off at T2): with T1 = 500 ms and T2 = 4000 ms the
2xx-retransmission timer of the sample answered session is fired four times in a row (no ACK
arrives; the ACK-wait timer, 32000 ms, is still pending). The delays handed to the scheduler
by these firings are 1000, 2000, 4000 and 8000 ms: the fourth exceeds T2, because the closure
compares `retransmissions * T1` with T2, not the delay. -/
theorem invite2xx_backoff_exceeds_T2 :
    sampleEnv.T1 = 500 ∧ sampleEnv.T2 = 4000 ∧
    (runEnabled sampleEnv sampleWaitingForAck
      [sampleRetransmission 1 1 500, sampleRetransmission 3 2 1000,
        sampleRetransmission 4 3 2000, sampleRetransmission 5 4 4000]).map
      (fun s => (s.status, (newEffects sampleWaitingForAck s).filterMap Effect.delay,
        s.timeouts.map Timeout.delay)) =
      some (.STATUS_WAITING_FOR_ACK, [1000, 2000, 4000, 8000], [32000, 8000]) := by
  decide

/-! ### Timers that fire late -/

/-- C30 (two of the four timer closures do not re-check the status): an incoming call is
answered twice by the user, both answers complete and the caller acknowledges. The session is
Confirmed, and the 2xx-retransmission timer set by the first answer (handle 1) is still in the
timer table, because the second answer overwrote the slot before the ACK cleared it. When it
fires, the closure retransmits the 200 and schedules itself again, in status Confirmed. The
ACK-wait timer of the first answer (handle 2) is also left, and its closure, which tests the
status, does nothing. Likewise the closure of the no-answer timer, run on the confirmed sample
session, replies 408 and fails the session, while the closure of the expires timer, which
tests the status, does nothing. -/
theorem timers_without_guard :
    (runEnabled sampleEnv (Session.create []) answeredTwiceAcknowledged).map
      (fun s => (s.status, enabled s (sampleRetransmission 1 1 500),
        signals s (step sampleEnv s (sampleRetransmission 1 1 500)),
        (step sampleEnv s (sampleRetransmission 1 1 500)).timeouts.map Timeout.delay)) =
      some (.STATUS_CONFIRMED, true,
        [.reply sampleInviteTagged 200 none ["Contact: sip:alice@example.com"] (some "v=0")],
        [32000, 1000]) ∧
    (runEnabled sampleEnv (Session.create []) answeredTwiceAcknowledged).map
      (fun s => (enabled s (.timeout ⟨2, .ack, 32000⟩),
        decide (step sampleEnv s (.timeout ⟨2, .ack, 32000⟩) = s.expire 2))) =
      some (true, true) ∧
    sampleConfirmed.status = .STATUS_CONFIRMED ∧
    signals sampleConfirmed (userNoAnswerTimerFired sampleConfirmed sampleInviteTagged) =
      [.reply sampleInviteTagged 408 none [] none,
        .emit .failed (some .local) (some .NO_ANSWER)] ∧
    expiresTimerFired sampleConfirmed sampleInviteTagged = sampleConfirmed := by
  decide

/-! ### Provisional responses -/

theorem lookupDialog_append_self (l : List (String × Dialog)) (id : String) (d : Dialog) :
    (lookupDialog (l ++ [(id, d)]) id).isSome = true := by
  simp only [lookupDialog, List.find?_append]
  cases l.find? (fun e => e.1 == id) <;> simp

/-- C31 (amended): for every response with status 101–199 given to `receiveInviteResponse` in
status InviteSent or ProvisionalReceived with no pending cancel. If it carries a to-tag, the
status is ProvisionalReceived afterwards, exactly one `progress` event (originator remote) has
been emitted and nothing else was signalled; and if it also carries a Contact header, an early
dialog keyed by call-id, from-tag, to-tag is held afterwards: the list of early dialogs is left
as it is when it already has that key, and a fresh early dialog is appended under that key
otherwise. Without Contact header the early dialogs are left as they are. If the response
carries no to-tag, a warning is logged and nothing else changes: no dialog, no event. The
confirmed dialog is never touched. -/
theorem provisional_response (env : Env) (s : Session) (response : Message)
    (hs : s.status = .STATUS_INVITE_SENT ∨ s.status = .STATUS_1XX_RECEIVED)
    (hc : s.isCanceled = false)
    (h1 : 101 ≤ response.status_code) (h2 : response.status_code ≤ 199) :
    (response.to_tag ≠ "" →
      (receiveInviteResponse env s response).status = .STATUS_1XX_RECEIVED ∧
      signals s (receiveInviteResponse env s response) =
        [.emit .progress (some .remote) none] ∧
      (receiveInviteResponse env s response).dialog = s.dialog ∧
      (response.hasContact = true →
        (lookupDialog (receiveInviteResponse env s response).earlyDialogs
          (uacKey response)).isSome = true ∧
        ((lookupDialog s.earlyDialogs (uacKey response)).isSome = true →
          (receiveInviteResponse env s response).earlyDialogs = s.earlyDialogs) ∧
        (lookupDialog s.earlyDialogs (uacKey response) = none →
          (receiveInviteResponse env s response).earlyDialogs =
            s.earlyDialogs ++ [(uacKey response, ⟨s.nextDialog, uacKey response, true⟩)])) ∧
      (response.hasContact = false →
        (receiveInviteResponse env s response).earlyDialogs = s.earlyDialogs)) ∧
    (response.to_tag = "" →
      receiveInviteResponse env s response =
        s.record (.warn "1xx response received without to tag") ∧
      signals s (receiveInviteResponse env s response) = [] ∧
      (receiveInviteResponse env s response).status = s.status ∧
      (receiveInviteResponse env s response).earlyDialogs = s.earlyDialogs ∧
      (receiveInviteResponse env s response).dialog = s.dialog) := by
  have hguard : ¬ (s.status ≠ .STATUS_INVITE_SENT ∧ s.status ≠ .STATUS_1XX_RECEIVED) := by
    rcases hs with h | h <;> simp [h]
  have h100 : is100 response.status_code = false := by
    simp [is100]
    omega
  have h1xx : is1xx response.status_code = true := by
    simp [is1xx]
    omega
  refine ⟨?_, ?_⟩
  · intro ht
    cases hk : response.hasContact with
    | false =>
      have hrun : receiveInviteResponse env s response =
          progress { s with status := .STATUS_1XX_RECEIVED } .remote := by
        unfold receiveInviteResponse
        simp only [hguard, if_false, hc, Bool.false_eq_true, h100, h1xx, if_true, ht, hk]
      rw [hrun]
      refine ⟨rfl, ?_, rfl, ?_, fun _ => rfl⟩
      · simp [signals, newEffects, progress, Session.emit, Session.record, Effect.isSignal]
      · intro h
        cases h
    | true =>
      have hrun : receiveInviteResponse env s response =
          progress { (createDialog s response .UAC true).2 with
            status := .STATUS_1XX_RECEIVED } .remote := by
        unfold receiveInviteResponse
        simp only [hguard, if_false, hc, Bool.false_eq_true, h100, h1xx, if_true, ht, hk]
      rw [hrun]
      cases hl : lookupDialog s.earlyDialogs (uacKey response) with
      | some d =>
        have hcd : createDialog s response .UAC true = (true, s) := by
          simp only [uacKey] at hl
          simp only [createDialog, hl, if_true]
        rw [hcd]
        refine ⟨rfl, ?_, rfl, fun _ => ⟨?_, fun _ => rfl, ?_⟩, ?_⟩
        · simp [signals, newEffects, progress, Session.emit, Session.record, Effect.isSignal]
        · simp [progress, Session.emit, Session.record, hl]
        · intro h
          cases h
        · intro h
          cases h
      | none =>
        have hcd : createDialog s response .UAC true =
            (true, { s with
              earlyDialogs := s.earlyDialogs ++
                [(uacKey response, ⟨s.nextDialog, uacKey response, true⟩)]
              nextDialog := s.nextDialog + 1
              log := s.log ++ [.dialogCreated s.nextDialog true] }) := by
          have hst := storeDialog_of_absent s.earlyDialogs (uacKey response)
            ⟨s.nextDialog, uacKey response, true⟩ hl
          simp only [uacKey] at hl hst
          simp only [createDialog, hl, if_true, Dialog.construct, hk, hst, uacKey]
        rw [hcd]
        refine ⟨rfl, ?_, rfl, fun _ => ⟨?_, ?_, fun _ => rfl⟩, ?_⟩
        · simp [signals, newEffects, progress, Session.emit, Session.record, Effect.isSignal]
        · simpa [progress, Session.emit, Session.record] using
            lookupDialog_append_self s.earlyDialogs (uacKey response) _
        · intro h
          simp at h
        · intro h
          cases h
  · intro ht
    have hrun : receiveInviteResponse env s response =
        s.record (.warn "1xx response received without to tag") := by
      unfold receiveInviteResponse
      simp only [hguard, if_false, hc, Bool.false_eq_true, h100, h1xx, if_true, ht]
    rw [hrun]
    refine ⟨rfl, ?_, rfl, rfl, rfl⟩
    simp [signals, newEffects, Session.record, Effect.isSignal]

/-- Witness of C31: the sample outgoing session receives a 180 with to-tag and Contact
header. -/
theorem provisional_response_witness :
    sampleInviteSent.status = .STATUS_INVITE_SENT ∧ sample180.to_tag = "to2" ∧
    sampleInviteSent.earlyDialogs = [] ∧
    (receiveInviteResponse sampleEnv sampleInviteSent sample180).earlyDialogs =
      [("call2from2to2", ⟨0, "call2from2to2", true⟩)] ∧
    signals sampleInviteSent (receiveInviteResponse sampleEnv sampleInviteSent sample180) =
      [.emit .progress (some .remote) none] :=
  have h := (provisional_response sampleEnv sampleInviteSent sample180 (Or.inl (by decide))
    (by decide) (by decide) (by decide)).1 (by decide)
  ⟨by decide, by decide, by decide, ((h.2.2.2.1 (by decide)).2.2 (by decide)).trans (by decide),
    h.2.1⟩

/-- Counterexample to C31 as stated: the sample outgoing session, in status InviteSent with no
pending cancel, receives a 180 that carries a to-tag and no Contact header. The status becomes
ProvisionalReceived and `progress` is emitted, and no early dialog exists afterwards: the
code creates the early dialog only "if 1XX comes with contact". -/
theorem provisional_without_contact :
    sampleInviteSent.status = .STATUS_INVITE_SENT ∧ sampleInviteSent.isCanceled = false ∧
    sample180NoContact.status_code = 180 ∧ sample180NoContact.to_tag = "to2" ∧
    (receiveInviteResponse sampleEnv sampleInviteSent sample180NoContact).status =
      .STATUS_1XX_RECEIVED ∧
    signals sampleInviteSent
        (receiveInviteResponse sampleEnv sampleInviteSent sample180NoContact) =
      [.emit .progress (some .remote) none] ∧
    (receiveInviteResponse sampleEnv sampleInviteSent sample180NoContact).earlyDialogs = [] ∧
    lookupDialog (receiveInviteResponse sampleEnv sampleInviteSent sample180NoContact).earlyDialogs
      (uacKey sample180NoContact) = none := by
  decide

/-! ### The stream collections -/

theorem sendReinvite_streams (env : Env) (s : Session) (extraHeaders : List String) :
    (sendReinvite env s extraHeaders).1.localMediaStreams = s.localMediaStreams ∧
    (sendReinvite env s extraHeaders).1.remoteMediaStreams = s.remoteMediaStreams := by
  unfold sendReinvite
  split
  · exact ⟨rfl, rfl⟩
  · simp only
    split <;> exact ⟨rfl, rfl⟩

theorem getStreamById_none (s : Session) (id : String)
    (h : (getStreamById s id).isSome = false) : id ∉ streamIds s.localMediaStreams := by
  have h0 : s.localMediaStreams.find? (fun m => m.id == id) = none := by
    unfold getStreamById at h
    cases hf : s.localMediaStreams.find? (fun m => m.id == id) with
    | none => rfl
    | some x =>
      rw [hf] at h
      cases h
  rw [List.find?_eq_none] at h0
  simp only [streamIds, List.mem_map, not_exists, not_and]
  intro m hm he
  exact h0 m hm (by simp [he])

theorem addMediaStream_streams (env : Env) (s : Session) (stream : StreamArg)
    (dontReinvite ok : Bool) :
    ((addMediaStream env s stream dontReinvite ok).1.localMediaStreams = s.localMediaStreams ∨
      ∃ m, stream = .stream m ∧ m.id ∉ streamIds s.localMediaStreams ∧
        (addMediaStream env s stream dontReinvite ok).1.localMediaStreams =
          s.localMediaStreams ++ [m]) ∧
    (addMediaStream env s stream dontReinvite ok).1.remoteMediaStreams =
      s.remoteMediaStreams := by
  unfold addMediaStream
  cases stream with
  | undefined => exact ⟨Or.inl rfl, rfl⟩
  | notAStream => exact ⟨Or.inl rfl, rfl⟩
  | stream m =>
    simp only
    cases hg : (getStreamById s m.id).isSome with
    | true => exact ⟨Or.inl rfl, rfl⟩
    | false =>
      have hfresh := getStreamById_none s m.id hg
      simp only [Bool.false_eq_true, if_false]
      cases hm : s.rtcMediaHandler with
      | false => exact ⟨Or.inl rfl, rfl⟩
      | true =>
        simp only [if_true]
        cases ok with
        | false => exact ⟨Or.inl rfl, rfl⟩
        | true =>
          simp only [if_true]
          split
          · have h := sendReinvite_streams env (mediaStreamAdded (s.record (.addStream m.id))
              .local m) []
            refine ⟨Or.inr ⟨m, rfl, hfresh, ?_⟩, ?_⟩
            · rw [h.1]
              rfl
            · rw [h.2]
              rfl
          · exact ⟨Or.inr ⟨m, rfl, hfresh, rfl⟩, rfl⟩

theorem mediaStreamRemoved_local (s : Session) (m : MediaStream) :
    (mediaStreamRemoved s .local m).localMediaStreams = s.localMediaStreams.erase m ∧
    (mediaStreamRemoved s .local m).remoteMediaStreams = s.remoteMediaStreams := by
  unfold mediaStreamRemoved
  simp only
  split
  · exact ⟨rfl, rfl⟩
  · rename_i h
    exact ⟨(List.erase_of_not_mem h).symm, rfl⟩

theorem mediaStreamRemoved_remote (s : Session) (m : MediaStream) :
    (mediaStreamRemoved s .remote m).remoteMediaStreams = s.remoteMediaStreams.erase m ∧
    (mediaStreamRemoved s .remote m).localMediaStreams = s.localMediaStreams := by
  unfold mediaStreamRemoved
  simp only
  split
  · exact ⟨rfl, rfl⟩
  · rename_i h
    exact ⟨(List.erase_of_not_mem h).symm, rfl⟩

theorem removeMediaStream_streams (env : Env) (s : Session) (stream : StreamArg)
    (dontReinvite ok : Bool) :
    ((removeMediaStream env s stream dontReinvite ok).1.localMediaStreams =
        s.localMediaStreams ∨
      ∃ m, stream = .stream m ∧
        (removeMediaStream env s stream dontReinvite ok).1.localMediaStreams =
          s.localMediaStreams.erase m) ∧
    (removeMediaStream env s stream dontReinvite ok).1.remoteMediaStreams =
      s.remoteMediaStreams := by
  unfold removeMediaStream
  cases stream with
  | undefined => exact ⟨Or.inl rfl, rfl⟩
  | notAStream => exact ⟨Or.inl rfl, rfl⟩
  | stream m =>
    simp only
    cases hg : (getStreamById s m.id).isSome with
    | false => exact ⟨Or.inl rfl, rfl⟩
    | true =>
      simp only [if_true]
      cases hm : s.rtcMediaHandler with
      | false => exact ⟨Or.inl rfl, rfl⟩
      | true =>
        simp only [if_true]
        cases ok with
        | false => exact ⟨Or.inl rfl, rfl⟩
        | true =>
          simp only [if_true]
          have hr := mediaStreamRemoved_local (s.record (.removeStream m.id)) m
          split
          · have h := sendReinvite_streams env (mediaStreamRemoved (s.record (.removeStream m.id))
              .local m) []
            refine ⟨Or.inr ⟨m, rfl, ?_⟩, ?_⟩
            · rw [h.1, hr.1]
              rfl
            · rw [h.2, hr.2]
              rfl
          · exact ⟨Or.inr ⟨m, rfl, hr.1⟩, hr.2⟩

theorem streamIds_erase_nodup (l : List MediaStream) (m : MediaStream)
    (h : (streamIds l).Nodup) : (streamIds (l.erase m)).Nodup :=
  List.Nodup.sublist ((List.erase_sublist m l).map MediaStream.id) h

theorem streamIds_append_nodup (l : List MediaStream) (m : MediaStream)
    (h : (streamIds l).Nodup) (hm : m.id ∉ streamIds l) : (streamIds (l ++ [m])).Nodup := by
  simp only [streamIds, List.map_append, List.map_cons, List.map_nil] at *
  rw [List.nodup_append]
  refine ⟨h, List.nodup_singleton _, ?_⟩
  intro a ha hb
  simp only [List.mem_singleton] at hb
  exact hm (hb ▸ ha)

theorem step_streams (env : Env) (s : Session) (ev : Event) (hev : ev.isStreamEvent = true) :
    ((step env s ev).localMediaStreams = s.localMediaStreams ∨
      (∃ m, m.id ∉ streamIds s.localMediaStreams ∧
        (step env s ev).localMediaStreams = s.localMediaStreams ++ [m]) ∨
      (∃ m, (step env s ev).localMediaStreams = s.localMediaStreams.erase m)) ∧
    ((step env s ev).remoteMediaStreams = s.remoteMediaStreams ∨
      (∃ m, ev = .remoteStreamAdded m ∧
        (step env s ev).remoteMediaStreams = s.remoteMediaStreams ++ [m]) ∨
      (∃ m, (step env s ev).remoteMediaStreams = s.remoteMediaStreams.erase m)) := by
  cases ev <;> simp only [Event.isStreamEvent, Bool.false_eq_true] at hev
  case addMediaStream stream d ok =>
    obtain ⟨h1, h2⟩ := addMediaStream_streams env s stream d ok
    refine ⟨?_, Or.inl h2⟩
    rcases h1 with h | ⟨m, _, hm, h⟩
    · exact Or.inl h
    · exact Or.inr (Or.inl ⟨m, hm, h⟩)
  case removeMediaStream stream d ok =>
    obtain ⟨h1, h2⟩ := removeMediaStream_streams env s stream d ok
    refine ⟨?_, Or.inl h2⟩
    rcases h1 with h | ⟨m, _, h⟩
    · exact Or.inl h
    · exact Or.inr (Or.inr ⟨m, h⟩)
  case remoteStreamAdded m =>
    exact ⟨Or.inl rfl, Or.inr (Or.inl ⟨m, rfl, rfl⟩)⟩
  case remoteStreamRemoved m =>
    obtain ⟨h1, h2⟩ := mediaStreamRemoved_remote s m
    exact ⟨Or.inl h2, Or.inr (Or.inr ⟨m, h1⟩)⟩

/-- C32 (amended): the stream collections are insertion-ordered, and unique by identifier as
far as the session checks it. For every session and every sequence of `addMediaStream` /
`removeMediaStream` calls and remote stream added / removed callbacks: if the local streams
had pairwise different ids before, they have afterwards; if the remote streams had pairwise
different ids before and the peer connection announces a remote stream only while no remote
stream of that id is held, they have afterwards. Each such call or callback leaves a
collection as it is, or appends one stream at its end (for the local collection a stream
whose id was not held), or erases one stream, the others keeping their order; a remote
stream that is announced is always appended, whatever its id. -/
theorem stream_collections (env : Env) (s : Session) (evs : List Event)
    (hev : ∀ ev ∈ evs, ev.isStreamEvent = true) :
    ((streamIds s.localMediaStreams).Nodup →
      (streamIds (run env s evs).localMediaStreams).Nodup) ∧
    ((streamIds s.remoteMediaStreams).Nodup → announcedOnce env s evs = true →
      (streamIds (run env s evs).remoteMediaStreams).Nodup) ∧
    (∀ (t : Session) ev, ev.isStreamEvent = true →
      ((step env t ev).localMediaStreams = t.localMediaStreams ∨
        (∃ m, m.id ∉ streamIds t.localMediaStreams ∧
          (step env t ev).localMediaStreams = t.localMediaStreams ++ [m]) ∨
        (∃ m, (step env t ev).localMediaStreams = t.localMediaStreams.erase m)) ∧
      ((step env t ev).remoteMediaStreams = t.remoteMediaStreams ∨
        (∃ m, ev = .remoteStreamAdded m ∧
          (step env t ev).remoteMediaStreams = t.remoteMediaStreams ++ [m]) ∨
        (∃ m, (step env t ev).remoteMediaStreams = t.remoteMediaStreams.erase m))) ∧
    (∀ (t : Session) m,
      (step env t (.remoteStreamAdded m)).remoteMediaStreams = t.remoteMediaStreams ++ [m] ∧
      (step env t (.remoteStreamRemoved m)).remoteMediaStreams =
        t.remoteMediaStreams.erase m) := by
  refine ⟨?_, ?_, fun t ev h => step_streams env t ev h, ?_⟩
  · induction evs generalizing s with
    | nil => exact fun h => h
    | cons ev evs ih =>
      intro h
      have hev1 := hev ev (by simp)
      have hrest : ∀ e ∈ evs, e.isStreamEvent = true := fun e he => hev e (by simp [he])
      apply ih (step env s ev) hrest
      rcases (step_streams env s ev hev1).1 with h1 | ⟨m, hm, h1⟩ | ⟨m, h1⟩
      · rw [h1]
        exact h
      · rw [h1]
        exact streamIds_append_nodup _ m h hm
      · rw [h1]
        exact streamIds_erase_nodup _ m h
  · induction evs generalizing s with
    | nil => exact fun h _ => h
    | cons ev evs ih =>
      intro h ha
      have hev1 := hev ev (by simp)
      have hrest : ∀ e ∈ evs, e.isStreamEvent = true := fun e he => hev e (by simp [he])
      simp only [announcedOnce, Bool.and_eq_true] at ha
      apply ih (step env s ev) hrest _ ha.2
      rcases (step_streams env s ev hev1).2 with h1 | ⟨m, hm, h1⟩ | ⟨m, h1⟩
      · rw [h1]
        exact h
      · rw [h1]
        have hnew := ha.1
        rw [hm] at hnew
        simp only [announcesNew, Bool.not_eq_true', List.contains_eq_any_beq,
          List.any_eq_false, beq_iff_eq] at hnew
        refine streamIds_append_nodup _ m h ?_
        intro hmem
        exact hnew m.id hmem rfl
      · rw [h1]
        exact streamIds_erase_nodup _ m h
  · intro t m
    exact ⟨rfl, (mediaStreamRemoved_remote t m).1⟩

/-- Witness of C32: the sample outgoing session, which holds the sample stream as its local
stream, is given that stream twice more and is announced it once as a remote stream. -/
theorem stream_collections_witness :
    streamIds (run sampleEnv sampleInviteSent
      [.addMediaStream (.stream sampleStream) true true,
        .remoteStreamAdded sampleStream,
        .addMediaStream (.stream sampleStream) true true]).localMediaStreams = ["stream1"] ∧
    (streamIds (run sampleEnv sampleInviteSent
      [.addMediaStream (.stream sampleStream) true true,
        .remoteStreamAdded sampleStream,
        .addMediaStream (.stream sampleStream) true true]).remoteMediaStreams).Nodup :=
  ⟨by decide,
    (stream_collections sampleEnv sampleInviteSent
      [.addMediaStream (.stream sampleStream) true true,
        .remoteStreamAdded sampleStream,
        .addMediaStream (.stream sampleStream) true true] (by decide)).2.1
      (by decide) (by decide)⟩

/-- Counterexample to C32 as stated: the peer connection announces the sample stream twice
(two `addstream` callbacks carrying a stream of the same id). `mediaStreamAdded` pushes both,
so the remote
collection holds two entries with the id `stream1`; the local collection, which
`addMediaStream` guards with `getStreamById`, refuses further copies of the stream it
holds. -/
theorem remote_stream_announced_twice :
    streamIds (run sampleEnv sampleInviteSent
      [.remoteStreamAdded sampleStream, .remoteStreamAdded sampleStream]).remoteMediaStreams =
      ["stream1", "stream1"] ∧
    streamIds sampleInviteSent.remoteMediaStreams = [] ∧
    announcedOnce sampleEnv sampleInviteSent
      [.remoteStreamAdded sampleStream, .remoteStreamAdded sampleStream] = false ∧
    streamIds (run sampleEnv sampleInviteSent
      [.addMediaStream (.stream sampleStream) true true,
        .addMediaStream (.stream sampleStream) true true]).localMediaStreams = ["stream1"] := by
  decide

/-! ### The retransmission chain ends -/

theorem firingArgument_value (k : Nat) (hk : 1 ≤ k) :
    (if truthyNum (firingArgument k) = true then (firingArgument k).getD 0 else 1) = k := by
  unfold firingArgument
  by_cases h1 : k ≤ 1
  · have : k = 1 := by omega
    subst this
    simp [truthyNum]
  · have h0 : k ≠ 0 := by omega
    simp [h1, truthyNum, h0]

theorem firingArgument_succ (k : Nat) (hk : 1 ≤ k) : firingArgument (k + 1) = some (k + 1) := by
  unfold firingArgument
  have : ¬ (k + 1 ≤ 1) := by omega
  simp [this]

theorem invite2xxRetransmission_sends (env : Env) (u : Session) (request : Message)
    (body : String) (k : Nat) (hk : 1 ≤ k) (hle : k * env.T1 ≤ env.T2) :
    invite2xxRetransmission env u request body (firingArgument k) =
      (u.reply request 200 none ["Contact: " ++ u.contact.getD "undefined"]
        (some body)).setTimeout .invite2xxTimer
          (.invite2xx request body (firingArgument (k + 1))) (env.T1 * 2 ^ k) := by
  unfold invite2xxRetransmission
  simp only [firingArgument_value k hk, hle, if_true, firingArgument_succ k hk]

theorem invite2xxRetransmission_stops (env : Env) (u : Session) (request : Message)
    (body : String) (k : Nat) (hk : 1 ≤ k) (hgt : ¬ k * env.T1 ≤ env.T2) :
    invite2xxRetransmission env u request body (firingArgument k) =
      u.clearTimeout .invite2xxTimer := by
  unfold invite2xxRetransmission
  simp only [firingArgument_value k hk, hgt, if_false]

theorem replicate_snoc (k : Nat) (e : Effect) :
    List.replicate k e ++ [e] = List.replicate (k + 1) e := by
  induction k with
  | zero => rfl
  | succ k ih => simp [List.replicate_succ, ih]

theorem find_of_fresh (l : List Timeout) (x : Timeout)
    (hl : ∀ t ∈ l, t.handle < x.handle) :
    (l ++ [x]).find? (fun t => some t.handle == some x.handle) = some x := by
  induction l with
  | nil => simp
  | cons a l ih =>
    have ha : a.handle ≠ x.handle := by
      have := hl a (by simp)
      omega
    have hl' : ∀ t ∈ l, t.handle < x.handle := fun t ht => hl t (by simp [ht])
    simp only [List.cons_append, List.find?_cons]
    have : (some a.handle == some x.handle) = false := by simp [ha]
    rw [this]
    exact ih hl'

theorem filter_of_fresh (l : List Timeout) (h : Nat) (hl : ∀ t ∈ l, t.handle < h) :
    l.filter (fun t => t.handle != h) = l := by
  rw [List.filter_eq_self]
  intro t ht
  have := hl t ht
  simp
  omega

theorem filter_some_of_fresh (l : List Timeout) (h : Nat) (hl : ∀ t ∈ l, t.handle < h) :
    l.filter (fun t => some t.handle != some h) = l := by
  rw [List.filter_eq_self]
  intro t ht
  have := hl t ht
  simp
  omega

theorem find_none_of_fresh (l : List Timeout) (h : Nat) (hl : ∀ t ∈ l, t.handle < h) :
    l.find? (fun t => some t.handle == some h) = none := by
  rw [List.find?_eq_none]
  intro t ht
  have := hl t ht
  simp
  omega

theorem ChainInv.pending (s : Session) (request : Message) (body : String) (k : Nat)
    (u : Session) (hu : ChainInv s request body k u) :
    ∃ h d, pendingRetransmission u =
        some ⟨h, .invite2xx request body (firingArgument (k + 1)), d⟩ ∧
      u.timers.invite2xxTimer = some h ∧ (∀ t ∈ s.timeouts, t.handle < h) ∧
      (u.expire h).timeouts = s.timeouts := by
  obtain ⟨h, d, es, hto, hsl, hfr, hnh, hlog, hsig, hct⟩ := hu
  refine ⟨h, d, ?_, hsl, hfr, ?_⟩
  · unfold pendingRetransmission
    rw [hto, hsl]
    exact find_of_fresh s.timeouts ⟨h, .invite2xx request body (firingArgument (k + 1)), d⟩ hfr
  · simp only [Session.expire, hto, List.filter_append, filter_of_fresh s.timeouts h hfr]
    simp

theorem ChainInv.start (env : Env) (s : Session) (request : Message) (body : String)
    (hfresh : ∀ t ∈ s.timeouts, t.handle < s.nextHandle) :
    ChainInv s request body 0 (setInvite2xxTimer env s request body) := by
  refine ⟨s.nextHandle, env.T1, [.setTimeout .invite2xxTimer s.nextHandle env.T1], ?_, ?_,
    hfresh, rfl, rfl, ?_, rfl⟩
  · simp [setInvite2xxTimer, Session.setTimeout, firingArgument]
  · simp [setInvite2xxTimer, Session.setTimeout, Timers.set]
  · simp [Effect.isSignal]

theorem ChainInv.fire (env : Env) (s : Session) (request : Message) (body : String) (k : Nat)
    (u : Session) (hu : ChainInv s request body k u) (hle : (k + 1) * env.T1 ≤ env.T2) :
    ChainInv s request body (k + 1) (fireRetransmissions env 1 u) := by
  obtain ⟨h, d, hp, hsl, hfr, hex⟩ := ChainInv.pending s request body k u hu
  obtain ⟨h', d', es, hto, hsl', hfr', hnh, hlog, hsig, hct⟩ := hu
  have hh : h' = h := by
    rw [hsl'] at hsl
    exact Option.some.inj hsl
  subst hh
  have hrun : fireRetransmissions env 1 u =
      invite2xxRetransmission env (u.expire h') request body (firingArgument (k + 1)) := by
    simp only [fireRetransmissions, hp, step, runTimer]
  rw [hrun, invite2xxRetransmission_sends env _ request body (k + 1) (by omega) hle]
  refine ⟨h' + 1, env.T1 * 2 ^ (k + 1), es ++ [retransmitted200 s request body,
    .setTimeout .invite2xxTimer (h' + 1) (env.T1 * 2 ^ (k + 1))], ?_, ?_, ?_, ?_, ?_, ?_, ?_⟩
  · simp only [Session.setTimeout, Session.reply, Session.record]
    rw [hex]
    simp [Session.expire, hnh]
  · simp [Session.setTimeout, Session.reply, Session.record, Session.expire, Timers.set, hnh]
  · intro t ht
    have := hfr t ht
    omega
  · simp [Session.setTimeout, Session.reply, Session.record, Session.expire, hnh]
  · simp [Session.setTimeout, Session.reply, Session.record, Session.expire, hnh, hlog,
      retransmitted200, hct]
  · rw [List.filter_append, hsig]
    simp [Effect.isSignal, retransmitted200, replicate_snoc]
  · simp [Session.setTimeout, Session.reply, Session.record, Session.expire, hct]

theorem ChainInv.stop (env : Env) (s : Session) (request : Message) (body : String) (k : Nat)
    (u : Session) (hu : ChainInv s request body k u) (hgt : ¬ (k + 1) * env.T1 ≤ env.T2) :
    signals s (fireRetransmissions env 1 u) =
        List.replicate k (retransmitted200 s request body) ∧
      pendingRetransmission (fireRetransmissions env 1 u) = none ∧
      (fireRetransmissions env 1 u).timeouts = s.timeouts := by
  obtain ⟨h, d, hp, hsl, hfr, hex⟩ := ChainInv.pending s request body k u hu
  obtain ⟨h', d', es, hto, hsl', hfr', hnh, hlog, hsig, hct⟩ := hu
  have hrun : fireRetransmissions env 1 u = (u.expire h).clearTimeout .invite2xxTimer := by
    simp only [fireRetransmissions, hp, step, runTimer]
    exact invite2xxRetransmission_stops env _ request body (k + 1) (by omega) hgt
  have hto2 : ((u.expire h).clearTimeout .invite2xxTimer).timeouts = s.timeouts := by
    simp only [Session.clearTimeout, hex, Timers.get]
    have : (u.expire h).timers.invite2xxTimer = some h := hsl
    rw [this]
    exact filter_some_of_fresh s.timeouts h hfr
  rw [hrun]
  refine ⟨?_, ?_, hto2⟩
  · rw [signals_of_log s _ (es ++ [.clearTimeout .invite2xxTimer (some h)])]
    · simp [List.filter_append, hsig, Effect.isSignal]
    · simp [Session.clearTimeout, Session.expire, Timers.get, hlog, hsl]
  · unfold pendingRetransmission
    rw [hto2]
    have : ((u.expire h).clearTimeout .invite2xxTimer).timers.invite2xxTimer = some h := hsl
    rw [this]
    exact find_none_of_fresh s.timeouts h hfr

theorem fireRetransmissions_add (env : Env) (a b : Nat) (s : Session) :
    fireRetransmissions env (a + b) s =
      fireRetransmissions env b (fireRetransmissions env a s) := by
  induction a generalizing s with
  | zero => simp [fireRetransmissions]
  | succ a ih =>
    rw [Nat.succ_add]
    simp only [fireRetransmissions]
    cases hp : pendingRetransmission s with
    | some t => exact ih _
    | none =>
      cases b with
      | zero => rfl
      | succ b => simp [fireRetransmissions, hp]

theorem fireRetransmissions_idle (env : Env) (n : Nat) (s : Session)
    (h : pendingRetransmission s = none) : fireRetransmissions env n s = s := by
  cases n with
  | zero => rfl
  | succ n => simp [fireRetransmissions, h]

theorem ChainInv.reach (env : Env) (s : Session) (request : Message) (body : String)
    (hfresh : ∀ t ∈ s.timeouts, t.handle < s.nextHandle) (k : Nat)
    (hk : k * env.T1 ≤ env.T2) :
    ChainInv s request body k
      (fireRetransmissions env k (setInvite2xxTimer env s request body)) := by
  induction k with
  | zero => exact ChainInv.start env s request body hfresh
  | succ k ih =>
    have hk' : k * env.T1 ≤ env.T2 := by
      have : k * env.T1 ≤ (k + 1) * env.T1 := Nat.mul_le_mul_right _ (by omega)
      omega
    rw [fireRetransmissions_add]
    exact ChainInv.fire env s request body k _ (ih hk') hk

/-- C33: the retransmission chain of the 200 is finite. For all timer constants with
`0 < T1` (so in particular `0 < T1 ≤ T2`) and every session whose timer handles are older than
the next handle: the `n`-th firing of the closure retransmits the 200 exactly when
`n * T1 ≤ T2`, and otherwise only clears the timer; when the timer set by
`setInvite2xxTimer` is left alone and fires each time it is due, then after `k ≤ T2 / T1`
firings the `k+1`-th firing is pending, and after `T2 / T1 + 1` firings exactly `T2 / T1`
retransmissions of the 200 have been sent and nothing else was signalled, no further firing
is scheduled, the timer table is as it was before the timer was set, and the chain has ended:
letting it run longer changes nothing. -/
theorem invite2xx_chain_ends (env : Env) (s : Session) (request : Message) (body : String)
    (hT1 : 0 < env.T1) (hfresh : ∀ t ∈ s.timeouts, t.handle < s.nextHandle) :
    (∀ (u : Session) n, 1 ≤ n →
      signals u (invite2xxRetransmission env u request body (firingArgument n)) =
        if n * env.T1 ≤ env.T2 then [retransmitted200 u request body] else []) ∧
    (∀ k, k ≤ env.T2 / env.T1 →
      (pendingRetransmission (fireRetransmissions env k
        (setInvite2xxTimer env s request body))).map Timeout.action =
        some (.invite2xx request body (firingArgument (k + 1)))) ∧
    signals s (fireRetransmissions env (env.T2 / env.T1 + 1)
        (setInvite2xxTimer env s request body)) =
      List.replicate (env.T2 / env.T1) (retransmitted200 s request body) ∧
    pendingRetransmission (fireRetransmissions env (env.T2 / env.T1 + 1)
      (setInvite2xxTimer env s request body)) = none ∧
    (fireRetransmissions env (env.T2 / env.T1 + 1)
      (setInvite2xxTimer env s request body)).timeouts = s.timeouts ∧
    (∀ n, fireRetransmissions env (env.T2 / env.T1 + 1 + n)
        (setInvite2xxTimer env s request body) =
      fireRetransmissions env (env.T2 / env.T1 + 1)
        (setInvite2xxTimer env s request body)) := by
  have hN : (env.T2 / env.T1) * env.T1 ≤ env.T2 := Nat.div_mul_le_self _ _
  have hN1 : ¬ (env.T2 / env.T1 + 1) * env.T1 ≤ env.T2 := by
    intro h
    have := (Nat.le_div_iff_mul_le hT1).mpr h
    omega
  have hinv := ChainInv.reach env s request body hfresh (env.T2 / env.T1) hN
  have hstop := ChainInv.stop env s request body _ _ hinv hN1
  rw [← fireRetransmissions_add] at hstop
  refine ⟨?_, ?_, hstop.1, hstop.2.1, hstop.2.2, ?_⟩
  · intro u n hn
    by_cases hle : n * env.T1 ≤ env.T2
    · rw [if_pos hle, invite2xxRetransmission_sends env u request body n hn hle]
      simp [signals, newEffects, Session.setTimeout, Session.reply, Session.record,
        Effect.isSignal, retransmitted200]
    · rw [if_neg hle, invite2xxRetransmission_stops env u request body n hn hle]
      simp [signals, newEffects, Session.clearTimeout, Effect.isSignal]
  · intro k hk
    have hk' : k * env.T1 ≤ env.T2 := (Nat.le_div_iff_mul_le hT1).mp hk
    obtain ⟨h, d, hp, _⟩ := ChainInv.pending s request body k _
      (ChainInv.reach env s request body hfresh k hk')
    rw [hp]
    rfl
  · intro n
    rw [fireRetransmissions_add]
    exact fireRetransmissions_idle env n _ hstop.2.1

/-- Witness of C33: with T1 = 500 ms and T2 = 4000 ms the sample confirmed session sets the
timer; it fires nine times, retransmits the 200 eight times and is then no longer pending. -/
theorem invite2xx_chain_ends_witness :
    sampleEnv.T2 / sampleEnv.T1 = 8 ∧
    signals sampleConfirmed (fireRetransmissions sampleEnv (sampleEnv.T2 / sampleEnv.T1 + 1)
        (setInvite2xxTimer sampleEnv sampleConfirmed sampleInviteTagged "v=0")) =
      List.replicate 8 (retransmitted200 sampleConfirmed sampleInviteTagged "v=0") ∧
    pendingRetransmission (fireRetransmissions sampleEnv (sampleEnv.T2 / sampleEnv.T1 + 1)
      (setInvite2xxTimer sampleEnv sampleConfirmed sampleInviteTagged "v=0")) = none :=
  have h := invite2xx_chain_ends sampleEnv sampleConfirmed sampleInviteTagged "v=0"
    (by decide) (by decide)
  ⟨by decide, h.2.2.1.trans (by decide), h.2.2.2.1⟩

/-! ### A bad 2xx to a re-INVITE -/

theorem acceptAndTerminate_of_dialog (env : Env) (s : Session) (r : Message) (c : Option Nat)
    (p : Option String) (hd : s.dialog.isSome = true) :
    acceptAndTerminate env s r c p =
      (s.sendRequest .ACK [] none).sendRequest .BYE
        (if truthyNum c then [reasonHeader env (c.getD 0) p] else []) none := by
  simp [acceptAndTerminate, hd]

/-- C34: for every Confirmed session that holds its confirmed dialog, a 2xx to a re-INVITE
that has no body, or whose Content-Type is not application/sdp, makes the session send exactly
an ACK and then a BYE (with a Reason header of cause 400 resp. 415) and nothing else happens:
the state is otherwise untouched. When the 2xx carries an SDP body (first such 2xx, media
handler present), the body is handed to the media engine, and if the engine rejects it the
session sends an ACK and then a BYE with cause 488. In all three cases the status stays
Confirmed, the dialog, the timers, the timer table and the registry entry stay as they were,
no effect of `close()` is logged, and neither `failed` nor `ended` is emitted. -/
theorem reinvite_bad_2xx (env : Env) (s : Session) (response : Message)
    (hs : s.status = .STATUS_CONFIRMED) (hd : s.dialog.isSome = true)
    (h2 : is2xx response.status_code = true) :
    (truthy response.body = false →
      receiveReinviteResponse env s response =
        (s.sendRequest .ACK [] none).sendRequest .BYE
          [reasonHeader env 400 (some "Missing session description")] none ∧
      newEffects s (receiveReinviteResponse env s response) =
        [.sendRequest .ACK [] none,
          .sendRequest .BYE [reasonHeader env 400 (some "Missing session description")] none] ∧
      keptOpen s (receiveReinviteResponse env s response)) ∧
    (truthy response.body = true → response.contentType ≠ some "application/sdp" →
      receiveReinviteResponse env s response =
        (s.sendRequest .ACK [] none).sendRequest .BYE [reasonHeader env 415 none] none ∧
      newEffects s (receiveReinviteResponse env s response) =
        [.sendRequest .ACK [] none, .sendRequest .BYE [reasonHeader env 415 none] none] ∧
      keptOpen s (receiveReinviteResponse env s response)) ∧
    (truthy response.body = true → response.contentType = some "application/sdp" →
      s.reinvite2XXResponseReceived ≠ some true → s.rtcMediaHandler = true →
      enabled (receiveReinviteResponse env s response)
        (.callback (.reinviteAnswer response) .failure) = true ∧
      newEffects s (step env (receiveReinviteResponse env s response)
          (.callback (.reinviteAnswer response) .failure)) =
        [.onMessage "answer" (response.body.getD ""), .sendRequest .ACK [] none,
          .sendRequest .BYE [reasonHeader env 488 none] none] ∧
      signals s (step env (receiveReinviteResponse env s response)
          (.callback (.reinviteAnswer response) .failure)) =
        [.sendRequest .ACK [] none, .sendRequest .BYE [reasonHeader env 488 none] none] ∧
      keptOpen s (step env (receiveReinviteResponse env s response)
        (.callback (.reinviteAnswer response) .failure))) := by
  have hnt : s.status ≠ .STATUS_TERMINATED := by
    rw [hs]
    decide
  have h1xx : is1xx response.status_code = false := by
    simp only [is2xx, Bool.and_eq_true, decide_eq_true_eq] at h2
    simp [is1xx]
    omega
  refine ⟨?_, ?_, ?_⟩
  · intro hb
    have hrun : receiveReinviteResponse env s response =
        (s.sendRequest .ACK [] none).sendRequest .BYE
          [reasonHeader env 400 (some "Missing session description")] none := by
      unfold receiveReinviteResponse
      simp only [hnt, if_false, h1xx, h2, hb, Bool.not_false, if_true, Bool.false_eq_true]
      rw [acceptAndTerminate_of_dialog env s response _ _ hd]
      simp [truthyNum]
    refine ⟨hrun, ?_, ?_⟩
    · rw [hrun]
      simp [newEffects, Session.sendRequest, Session.record]
    · rw [hrun]
      simp [keptOpen, Session.sendRequest, Session.record]
  · intro hb hct
    have hrun : receiveReinviteResponse env s response =
        (s.sendRequest .ACK [] none).sendRequest .BYE [reasonHeader env 415 none] none := by
      unfold receiveReinviteResponse
      simp only [hnt, if_false, h1xx, h2, hb, Bool.not_true, if_true, Bool.false_eq_true, hct,
        ne_eq, not_false_eq_true]
      rw [acceptAndTerminate_of_dialog env s response _ _ hd]
      simp [truthyNum]
    refine ⟨hrun, ?_, ?_⟩
    · rw [hrun]
      simp [newEffects, Session.sendRequest, Session.record]
    · rw [hrun]
      simp [keptOpen, Session.sendRequest, Session.record]
  · intro hb hct hf hm
    have hrun : receiveReinviteResponse env s response =
        (({ s with reinvite2XXResponseReceived := some true }).record
          (.onMessage "answer" (response.body.getD ""))).await (.reinviteAnswer response) := by
      unfold receiveReinviteResponse
      simp [hnt, h1xx, h2, hb, hct, hf, hm]
    have hstep : step env (receiveReinviteResponse env s response)
        (.callback (.reinviteAnswer response) .failure) =
        (((receiveReinviteResponse env s response).resolve
          (.reinviteAnswer response)).sendRequest .ACK [] none).sendRequest .BYE
            [reasonHeader env 488 none] none := by
      simp only [step, runCallback, receiveReinviteResponse_onAnswerFailure]
      rw [acceptAndTerminate_of_dialog]
      · simp [truthyNum]
      · rw [hrun]
        simpa [Session.resolve, Session.await, Session.record] using hd
    have hlog : (step env (receiveReinviteResponse env s response)
        (.callback (.reinviteAnswer response) .failure)).log = s.log ++
        [.onMessage "answer" (response.body.getD ""), .sendRequest .ACK [] none,
          .sendRequest .BYE [reasonHeader env 488 none] none] := by
      rw [hstep, hrun]
      simp [Session.resolve, Session.await, Session.record, Session.sendRequest]
    refine ⟨?_, newEffects_of_log _ _ _ hlog, ?_, ?_⟩
    · rw [hrun]
      simp [enabled, Session.await, Session.record]
    · rw [signals_of_log _ _ _ hlog]
      simp [Effect.isSignal]
    · rw [hstep, hrun]
      simp [keptOpen, Session.resolve, Session.await, Session.record, Session.sendRequest]

/-- Witness of C34: the sample re-inviting session receives a 200 without body, a 200 whose
body is plain text, and a 200 whose SDP answer the media engine rejects. -/
theorem reinvite_bad_2xx_witness :
    sampleReinviting.status = .STATUS_CONFIRMED ∧ sampleReinviting.dialog.isSome = true ∧
    signals sampleReinviting (receiveReinviteResponse sampleEnv sampleReinviting
        sample200NoBody) =
      [.sendRequest .ACK [] none,
        .sendRequest .BYE ["Reason: SIP ;cause=400; text=\"Missing session description\""]
          none] ∧
    keptOpen sampleReinviting
      (receiveReinviteResponse sampleEnv sampleReinviting sample200Text) ∧
    keptOpen sampleReinviting
      (step sampleEnv (receiveReinviteResponse sampleEnv sampleReinviting sample200)
        (.callback (.reinviteAnswer sample200) .failure)) :=
  ⟨by decide, by decide, by decide,
    ((reinvite_bad_2xx sampleEnv sampleReinviting sample200Text (by decide) (by decide)
      (by decide)).2.1 (by decide) (by decide)).2.2,
    ((reinvite_bad_2xx sampleEnv sampleReinviting sample200 (by decide) (by decide)
      (by decide)).2.2 (by decide) (by decide) (by decide) (by decide)).2.2.2⟩

/-! ### Terminal events -/

/-- C35: `failed` and `ended` first run `close()` and then emit exactly one event, `failed`
resp. `ended`, with the originator and cause they were given: the log is that of `close()`
followed by the event, and the event is the only signal. At emission the status is Terminated,
and the session is not in `ua.sessions` (it has just been removed if the session was not yet
Terminated, and it stays absent if it was absent). On a session that is already Terminated,
`close()` does nothing and the event is still emitted, so two calls in a row emit two terminal
events. -/
theorem terminal_events (s : Session) (o o' : Originator) (c c' : Cause) :
    (failed s o c).log = (close s).log ++ [.emit .failed (some o) (some c)] ∧
    (ended s o c).log = (close s).log ++ [.emit .ended (some o) (some c)] ∧
    signals s (failed s o c) = [.emit .failed (some o) (some c)] ∧
    signals s (ended s o c) = [.emit .ended (some o) (some c)] ∧
    (failed s o c).status = .STATUS_TERMINATED ∧ (ended s o c).status = .STATUS_TERMINATED ∧
    (close s).status = .STATUS_TERMINATED ∧
    (failed s o c).uaSessions = (close s).uaSessions ∧
    (ended s o c).uaSessions = (close s).uaSessions ∧
    (s.status ≠ .STATUS_TERMINATED ∨ s.key ∉ s.uaSessions →
      s.key ∉ (close s).uaSessions) ∧
    (s.status = .STATUS_TERMINATED →
      failed s o c = s.emit .failed (some o) (some c) ∧
      ended s o c = s.emit .ended (some o) (some c)) ∧
    signals s (failed (failed s o c) o' c') =
      [.emit .failed (some o) (some c), .emit .failed (some o') (some c')] ∧
    signals s (ended (ended s o c) o' c') =
      [.emit .ended (some o) (some c), .emit .ended (some o') (some c')] ∧
    signals s (ended (failed s o c) o' c') =
      [.emit .failed (some o) (some c), .emit .ended (some o') (some c')] := by
  have hf : signals s (failed s o c) = [.emit .failed (some o) (some c)] := by
    simpa using failed_after s s [] o c (by simp)
  have he : signals s (ended s o c) = [.emit .ended (some o) (some c)] := by
    simpa using ended_after s s [] o c (by simp)
  refine ⟨rfl, rfl, hf, he, failed_status s o c, ended_status s o c, close_status s, rfl, rfl,
    ?_, ?_, ?_, ?_, ?_⟩
  · intro h
    by_cases hs : s.status = .STATUS_TERMINATED
    · rw [close_of_terminated s hs]
      rcases h with h | h
      · exact absurd hs h
      · exact h
    · rw [close_eq s hs]
      simp [List.mem_filter]
  · intro hs
    simp [failed, ended, close_of_terminated s hs]
  · have h := failed_after s (failed s o c)
      (closeEffects s ++ [.emit .failed (some o) (some c)]) o' c'
      (by rw [failed_log]; simp)
    simpa [List.filter_append, closeEffects_signals, Effect.isSignal] using h
  · have h := ended_after s (ended s o c)
      (closeEffects s ++ [.emit .ended (some o) (some c)]) o' c'
      (by rw [ended_log]; simp)
    simpa [List.filter_append, closeEffects_signals, Effect.isSignal] using h
  · have h := ended_after s (failed s o c)
      (closeEffects s ++ [.emit .failed (some o) (some c)]) o' c'
      (by rw [failed_log]; simp)
    simpa [List.filter_append, closeEffects_signals, Effect.isSignal] using h

/-- Witness of C35: the sample answered session, registered under its id, fails; and the
sample terminated session, no longer registered, fails once more. -/
theorem terminal_events_witness :
    sampleWaitingForAck.status ≠ .STATUS_TERMINATED ∧
    sampleWaitingForAck.key ∈ sampleWaitingForAck.uaSessions ∧
    sampleWaitingForAck.key ∉ (close sampleWaitingForAck).uaSessions ∧
    sampleTerminated.status = .STATUS_TERMINATED ∧
    failed sampleTerminated .remote .BYE =
      sampleTerminated.emit .failed (some .remote) (some .BYE) :=
  ⟨by decide, by decide,
    (terminal_events sampleWaitingForAck .local .local .BYE .BYE).2.2.2.2.2.2.2.2.2.1
      (Or.inl (by decide)),
    by decide,
    ((terminal_events sampleTerminated .remote .local .BYE .BYE).2.2.2.2.2.2.2.2.2.2.1
      (by decide)).1⟩

end JsSIP
